import Mathlib

/-! # Aide: registration lifecycle and event-capacity consistency

A shallow embedding of the backend of the Aide volunteering marketplace:

* `src/backend/models/Registration.js` (schema validators, `pre('save')` hook, the methods
  `approve`, `reject`, `checkIn`),
* `src/backend/models/Event.js` (embedded summaries, counters, the counters and the slug
  `pre('save')` hooks, the virtuals) and `src/backend/models/User.js` (embedded event lists,
  stats, the stats `pre('save')` hook),
* `src/backend/routes/registrations.js` (the request handlers),
* `src/backend/routes/events.js` (list with its pagination block, read, update, delete and
  registration list of events), the account deletion and the pagination block of the
  registration list of `src/backend/routes/users.js`.

Modelling conventions.

* The three collections are lists of documents; `findOne`/`findById` return the first match and
  `findByIdAndUpdate` rewrites the first document with the given `_id`.  Mongoose runs neither
  `pre('save')` hooks nor schema validators in `findByIdAndUpdate` (no `runValidators` option is
  passed by the handlers modelled here), so these updates are plain `$push`/`$pull`/`$inc`/`$set`.
* `new Date()` is the parameter `now`; object ids are natural numbers; the `_id` that
  `new Registration(..)` generates is the parameter `freshId`.
* JavaScript numbers are modelled by `Int` (the counters and amounts handled here are integers);
  page numbers, limits and counts by `Nat`, with `Math.ceil(total / limit)` as integer division
  rounded up, which is proved equal to the ceiling of the rational quotient.
* `String.prototype.toLowerCase` is a parameter of the slug hook.
* Every status string of the three schemas is a constructor of `Status`; the embedded summaries
  store whatever string the handler writes, exactly as MongoDB does.
* A handler returns the HTTP reply it sends (`Reply`) and the database after the call; a thrown
  exception is the reply of the `catch` block, with the writes done before the throw kept.
* `res.json` serializes with the virtuals (`toJSON: { virtuals: true }` on the three schemas).
  The virtual `totalEvents` of the User schema reads `this.volunteerEvents.length`, and every
  populate of a user in the handlers modelled here selects fields without `volunteerEvents`: the
  serialization of a reply that holds a populated User document throws.  Create, update,
  approve, reject and check-in therefore answer with the reply of their `catch` block after
  their writes whenever the user of the registration is stored (`sendPopulated`); so do get by
  id, get by slug and the registration list of an event when a user is populated.  Cancel and
  feedback send the registration unpopulated.
* The length of a string is its JavaScript `length` (UTF-16 code units, `jsLength`); strings are
  sequences of Unicode scalar values.
* Fields that no handler below reads or writes (media, resources, seo keywords, timestamps,
  sub-document `_id`s, ...) are left out.
-/

namespace Aide

/-! ## Data model -/

/-- Union of the status strings of the Registration schema (`pending` .. `no-show`) and of the
embedded summaries of Event and User (`registered`, `active`, `completed`). -/
inductive Status where
  | pending | approved | rejected | waitlisted | confirmed | attended | cancelled | noShow
  | registered | active | completed
  deriving DecidableEq, Repr

/-- The string a status is stored as. -/
def Status.str : Status → String
  | .pending => "pending"
  | .approved => "approved"
  | .rejected => "rejected"
  | .waitlisted => "waitlisted"
  | .confirmed => "confirmed"
  | .attended => "attended"
  | .cancelled => "cancelled"
  | .noShow => "no-show"
  | .registered => "registered"
  | .active => "active"
  | .completed => "completed"

/-- The `type` of a request body or Registration: the two enum values of the schema, and
`invalid` for every other value (a different string, or no value at all). -/
inductive RegType where
  | volunteer | partner | invalid
  deriving DecidableEq, Repr

/-- The `volunteerDetails` block (fields with a validator, and `preferredRole`). -/
structure VolunteerDetails where
  preferredRole : Option String := none
  experience : Option String := none
  specialRequirements : Option String := none
  tshirtSize : Option String := none
  deriving DecidableEq, Repr

/-- The `partnershipDetails` block (fields with a validator, and the `contribution` fields the
handlers read). -/
structure PartnershipDetails where
  partnershipType : Option String := none
  organizationName : Option String := none
  contributionDescription : Option String := none
  contributionValue : Option Int := none
  requirements : Option String := none
  expectations : Option String := none
  deriving DecidableEq, Repr

/-- One element of `customResponses`. -/
structure CustomResponse where
  question : Option String := none
  answer : Option String := none
  type : Option String := none
  deriving DecidableEq, Repr

/-- One element of `statusHistory`. -/
structure HistoryEntry where
  status : Status
  changedAt : Nat
  changedBy : Option Nat := none
  notes : Option String := none
  deriving DecidableEq, Repr

/-- The `consent` block of a Registration.  `dataProcessing` is required and has no default:
`none` is a document without it, which `save()` and the update validators refuse. -/
structure Consent where
  dataProcessing : Option Bool
  communications : Bool := true
  photoRelease : Bool := false
  publicProfile : Bool := false
  deriving DecidableEq, Repr

/-- The `checkin` block of a Registration. -/
structure Checkin where
  checkedIn : Bool := false
  checkedInAt : Option Nat := none
  checkedInBy : Option Nat := none
  actualRole : Option String := none
  hoursContributed : Option Int := none
  deriving DecidableEq, Repr

/-- The `feedback` block of a Registration. -/
structure Feedback where
  rating : Option Int := none
  comments : Option String := none
  wouldRecommend : Option Bool := none
  improvements : Option String := none
  submittedAt : Option Nat := none
  deriving DecidableEq, Repr

/-- The `payment` block of a Registration. -/
structure Payment where
  required : Bool := false
  amount : Option Int := none
  status : String := "pending"
  deriving DecidableEq, Repr

/-- A Registration document. -/
structure Registration where
  id : Nat
  user : Nat
  event : Nat
  type : RegType
  volunteerDetails : Option VolunteerDetails := none
  partnershipDetails : Option PartnershipDetails := none
  status : Status := .pending
  statusHistory : List HistoryEntry := []
  notesUser : Option String := none
  customResponses : List CustomResponse := []
  checkin : Checkin := {}
  feedback : Feedback := {}
  consent : Consent
  registrationSource : String := "web"
  payment : Payment := {}
  deriving DecidableEq, Repr

/-- An element of `Event.registrations.volunteers`. -/
structure VolunteerSummary where
  userId : Nat
  registeredAt : Nat
  role : Option String := none
  status : Status := .registered
  notes : Option String := none
  deriving DecidableEq, Repr

/-- An element of `Event.registrations.partners`. -/
structure PartnerSummary where
  userId : Nat
  registeredAt : Nat
  partnershipType : Option String := none
  status : Status := .pending
  contribution : Option String := none
  fundingAmount : Option Int := none
  approvedAt : Option Nat := none
  notes : Option String := none
  deriving DecidableEq, Repr

/-- An element of `Event.partnershipOpportunities.types`. -/
structure PartnershipSlot where
  type : String
  maxPartners : Option Int := none
  currentPartners : Int := 0
  deriving DecidableEq, Repr

/-- The `status` of an Event. -/
inductive EventStatus where
  | draft | published | ongoing | completed | cancelled
  deriving DecidableEq, Repr

/-- An Event document: title, category, organizer email, dates, the two opportunity blocks, the
embedded registration summaries, `stats.totalRegistrations`, `stats.views` and the slug. -/
structure Event where
  id : Nat
  title : String := ""
  category : String := "Other"
  organizerEmail : String
  startDate : Nat := 0
  endDate : Nat := 0
  status : EventStatus := .draft
  isAcceptingVolunteers : Bool := true
  maxVolunteers : Int := 50
  currentVolunteers : Int := 0
  isAcceptingPartners : Bool := true
  types : List PartnershipSlot := []
  totalFundingGoal : Option Int := none
  currentFunding : Int := 0
  volunteers : List VolunteerSummary := []
  partners : List PartnerSummary := []
  totalRegistrations : Int := 0
  views : Int := 0
  slug : Option String := none
  deriving DecidableEq, Repr

/-- An element of `User.volunteerEvents`. -/
structure UserVolunteerEvent where
  eventId : Nat
  registeredAt : Nat
  status : Status := .registered
  deriving DecidableEq, Repr

/-- An element of `User.partnershipEvents`. -/
structure UserPartnershipEvent where
  eventId : Nat
  registeredAt : Nat
  partnershipType : Option String := none
  status : Status := .pending
  contribution : Option String := none
  fundingAmount : Option Int := none
  deriving DecidableEq, Repr

/-- The `stats` block of a User. -/
structure UserStats where
  totalVolunteerHours : Int := 0
  eventsAttended : Int := 0
  partnershipsCompleted : Int := 0
  impactScore : Int := 0
  deriving DecidableEq, Repr

/-- A User document. -/
structure User where
  id : Nat
  civicId : String
  email : String
  name : String := ""
  volunteerEvents : List UserVolunteerEvent := []
  partnershipEvents : List UserPartnershipEvent := []
  stats : UserStats := {}
  deriving DecidableEq, Repr

/-- The database: the three collections. -/
structure Db where
  users : List User := []
  events : List Event := []
  registrations : List Registration := []
  deriving DecidableEq, Repr

/-- The identity `req.civicUser` that the auth middleware attaches to a request. -/
structure CivicUser where
  id : String
  email : String
  deriving DecidableEq, Repr

/-! ## Replies -/

/-- The replies the registration handlers send.  A constructor is a status code, a `message`
and the kind of error reported in the `error` field: the five constructors `..OnReply` are the
replies of the `catch` blocks to the TypeError that `res.json` throws while it serializes the
populated registration (see `sendPopulated`), after the writes of the handler. -/
inductive Reply where
  | registrationSuccessful
  | userNotFound
  | eventNotFound
  | registrationNotFound
  | notAcceptingVolunteers
  | notAcceptingPartners
  | alreadyRegistered
  | volunteerCapacityReached
  | registrationFailed
  | notAuthorizedToCancel
  | registrationCancelled
  | failedToCancel
  | notAuthorizedToApprove
  | onlyPartnershipsRequireApproval
  | partnershipApproved
  | failedToApprove
  | notAuthorizedToReject
  | partnershipRejected
  | failedToReject
  | notAuthorizedToCheckIn
  | userCheckedIn
  | failedToCheckIn
  | notAuthorizedToUpdate
  | registrationUpdated
  | failedToUpdate
  | notAuthorizedToSubmitFeedback
  | feedbackBeforeEventEnds
  | feedbackSubmitted
  | failedToSubmitFeedback
  | registrationFailedOnReply
  | failedToUpdateOnReply
  | failedToApproveOnReply
  | failedToRejectOnReply
  | failedToCheckInOnReply
  deriving DecidableEq, Repr

/-- The HTTP status code of a reply. -/
def Reply.code : Reply → Nat
  | .registrationSuccessful => 201
  | .userNotFound | .eventNotFound | .registrationNotFound => 404
  | .notAcceptingVolunteers | .notAcceptingPartners | .alreadyRegistered
  | .volunteerCapacityReached | .registrationFailed | .onlyPartnershipsRequireApproval
  | .failedToUpdate | .feedbackBeforeEventEnds | .failedToSubmitFeedback
  | .registrationFailedOnReply | .failedToUpdateOnReply => 400
  | .notAuthorizedToCancel | .notAuthorizedToApprove | .notAuthorizedToReject
  | .notAuthorizedToCheckIn | .notAuthorizedToUpdate | .notAuthorizedToSubmitFeedback => 403
  | .registrationCancelled | .partnershipApproved | .partnershipRejected | .userCheckedIn
  | .registrationUpdated | .feedbackSubmitted => 200
  | .failedToCancel | .failedToApprove | .failedToReject | .failedToCheckIn
  | .failedToApproveOnReply | .failedToRejectOnReply | .failedToCheckInOnReply => 500

/-- The `message` of a reply. -/
def Reply.message : Reply → String
  | .registrationSuccessful => "Registration successful"
  | .userNotFound => "User not found"
  | .eventNotFound => "Event not found"
  | .registrationNotFound => "Registration not found"
  | .notAcceptingVolunteers => "Event is not accepting volunteers"
  | .notAcceptingPartners => "Event is not accepting partners"
  | .alreadyRegistered => "You are already registered for this event"
  | .volunteerCapacityReached => "Event has reached volunteer capacity"
  | .registrationFailed => "Registration failed"
  | .notAuthorizedToCancel => "Not authorized to cancel this registration"
  | .registrationCancelled => "Registration cancelled successfully"
  | .failedToCancel => "Failed to cancel registration"
  | .notAuthorizedToApprove => "Not authorized to approve this registration"
  | .onlyPartnershipsRequireApproval => "Only partnership registrations require approval"
  | .partnershipApproved => "Partnership approved successfully"
  | .failedToApprove => "Failed to approve registration"
  | .notAuthorizedToReject => "Not authorized to reject this registration"
  | .partnershipRejected => "Partnership rejected"
  | .failedToReject => "Failed to reject registration"
  | .notAuthorizedToCheckIn => "Not authorized to check in users"
  | .userCheckedIn => "User checked in successfully"
  | .failedToCheckIn => "Failed to check in user"
  | .notAuthorizedToUpdate => "Not authorized to update this registration"
  | .registrationUpdated => "Registration updated successfully"
  | .failedToUpdate => "Failed to update registration"
  | .notAuthorizedToSubmitFeedback => "Not authorized to submit feedback for this registration"
  | .feedbackBeforeEventEnds => "Cannot submit feedback before event ends"
  | .feedbackSubmitted => "Feedback submitted successfully"
  | .failedToSubmitFeedback => "Failed to submit feedback"
  | .registrationFailedOnReply => "Registration failed"
  | .failedToUpdateOnReply => "Failed to update registration"
  | .failedToApproveOnReply => "Failed to approve registration"
  | .failedToRejectOnReply => "Failed to reject registration"
  | .failedToCheckInOnReply => "Failed to check in user"

/-- The error classes of the specification, with the replies that fall in each. -/
inductive ErrorKind where
  | notFound | conflict | capacityExceeded | invalidState | forbidden | validationError
  | internalError
  deriving DecidableEq, Repr

/-- Classification of a reply by its status code and message: `none` for a success. -/
def Reply.kind : Reply → Option ErrorKind
  | .registrationSuccessful | .registrationCancelled | .partnershipApproved
  | .partnershipRejected | .userCheckedIn | .registrationUpdated | .feedbackSubmitted => none
  | .userNotFound | .eventNotFound | .registrationNotFound => some .notFound
  | .alreadyRegistered => some .conflict
  | .volunteerCapacityReached => some .capacityExceeded
  | .notAcceptingVolunteers | .notAcceptingPartners
  | .onlyPartnershipsRequireApproval | .feedbackBeforeEventEnds => some .invalidState
  | .notAuthorizedToCancel | .notAuthorizedToApprove | .notAuthorizedToReject
  | .notAuthorizedToCheckIn | .notAuthorizedToUpdate
  | .notAuthorizedToSubmitFeedback => some .forbidden
  | .registrationFailed | .failedToUpdate | .failedToSubmitFeedback
  | .registrationFailedOnReply | .failedToUpdateOnReply => some .validationError
  | .failedToCancel | .failedToApprove | .failedToReject | .failedToCheckIn
  | .failedToApproveOnReply | .failedToRejectOnReply | .failedToCheckInOnReply =>
      some .internalError

/-! ## Collections -/

/-- `User.findOne({ civicId })`. -/
def findUserByCivicId (db : Db) (civicId : String) : Option User :=
  db.users.find? (fun u => u.civicId == civicId)

/-- `User.findById(id)`. -/
def findUserById (db : Db) (id : Nat) : Option User :=
  db.users.find? (fun u => u.id == id)

/-- `Event.findById(id)`. -/
def findEventById (db : Db) (id : Nat) : Option Event :=
  db.events.find? (fun e => e.id == id)

/-- `Registration.findById(id)`. -/
def findRegistrationById (db : Db) (id : Nat) : Option Registration :=
  db.registrations.find? (fun r => r.id == id)

/-- `Registration.findOne({ user, event })`. -/
def findRegistrationOf (db : Db) (user event : Nat) : Option Registration :=
  db.registrations.find? (fun r => r.user == user && r.event == event)

/-- Rewrite the first element satisfying `p`. -/
def updateFirst {α : Type} (p : α → Bool) (f : α → α) : List α → List α
  | [] => []
  | x :: xs => if p x then f x :: xs else x :: updateFirst p f xs

/-- `Event.findByIdAndUpdate(id, update)`: no hooks, no validators. -/
def updateEventById (db : Db) (id : Nat) (f : Event → Event) : Db :=
  { db with events := updateFirst (fun e => e.id == id) f db.events }

/-- `User.findByIdAndUpdate(id, update)`: no hooks, no validators. -/
def updateUserById (db : Db) (id : Nat) (f : User → User) : Db :=
  { db with users := updateFirst (fun u => u.id == id) f db.users }

/-- The last statement of the handlers that answer with the registration read again and
populated: `Registration.findById(id).populate('user', 'name email profilePicture')
.populate('event', ..)` (or the document returned by `findByIdAndUpdate`, populated the same
way), then `res.json({ message, registration })`.  The serialization runs the virtuals
of the populated User document (`toJSON: { virtuals: true }`), and the virtual
`totalEvents` of `User.js` (lines 160-162) reads `this.volunteerEvents.length` on a document in
which `volunteerEvents` was not selected.  So whenever the user of the registration is stored,
`res.json` throws a TypeError and the `catch` block of the handler sends `thrown`; the writes
done before are kept.  When the registration or its user is not found the populated value is
`null`, nothing throws and `ok` is sent.  The virtuals of Registration and Event do not throw. -/
def sendPopulated (db : Db) (id : Nat) (ok thrown : Reply) : Reply :=
  match findRegistrationById db id with
  | none => ok
  | some registration =>
    match findUserById db registration.user with
    | none => ok
    | some _ => thrown

/-! ## Registration schema: validators, hook, methods -/

/-- The `length` of a JavaScript string: its number of UTF-16 code units, two for a character
outside the Basic Multilingual Plane.  (A `String` here is a sequence of Unicode scalar values,
so unpaired surrogates are not represented.) -/
def jsLength (s : String) : Nat :=
  (s.toList.map (fun c => if c.toNat < 65536 then 1 else 2)).sum

/-- The `maxlength` validator (not run on a missing value): it compares `value.length`. -/
def maxlength (n : Nat) : Option String → Bool
  | none => true
  | some s => decide (jsLength s ≤ n)

/-- The `enum` validator (not run on a missing value). -/
def enumOf (values : List String) : Option String → Bool
  | none => true
  | some s => values.contains s

/-- Enum of `volunteerDetails.tshirtSize`. -/
def tshirtSizes : List String := ["XS", "S", "M", "L", "XL", "XXL", "XXXL"]

/-- Enum of `partnershipDetails.partnershipType`. -/
def partnershipTypes : List String := ["sponsor", "venue", "speaker", "media", "other"]

/-- Enum of `customResponses[].type`. -/
def customResponseTypes : List String :=
  ["text", "number", "boolean", "select", "multiselect", "file"]

/-- Enum of `registrationSource`. -/
def registrationSources : List String := ["web", "mobile", "api", "import", "admin"]

/-- Enum of `payment.status`. -/
def paymentStatuses : List String := ["pending", "completed", "failed", "refunded"]

/-- Enum of the Registration `status`. -/
def registrationStatuses : List Status :=
  [.pending, .approved, .rejected, .waitlisted, .confirmed, .attended, .cancelled, .noShow]

/-- Validators of the `volunteerDetails` block. -/
def VolunteerDetails.valid (d : VolunteerDetails) : Bool :=
  maxlength 500 d.experience && maxlength 300 d.specialRequirements
    && enumOf tshirtSizes d.tshirtSize

/-- Validators of the `partnershipDetails` block. -/
def PartnershipDetails.valid (d : PartnershipDetails) : Bool :=
  enumOf partnershipTypes d.partnershipType && maxlength 1000 d.contributionDescription
    && maxlength 500 d.requirements && maxlength 500 d.expectations

/-- Validators of the `feedback` block: `rating` between 1 and 5, two length bounds. -/
def Feedback.valid (f : Feedback) : Bool :=
  (match f.rating with
    | none => true
    | some r => decide (1 ≤ r) && decide (r ≤ 5))
    && maxlength 1000 f.comments && maxlength 500 f.improvements

/-- Schema validation of a Registration document, as run by `save()`. -/
def Registration.valid (r : Registration) : Bool :=
  r.type != .invalid
    && (match r.volunteerDetails with
        | none => true
        | some d => d.valid)
    && (match r.partnershipDetails with
        | none => true
        | some d => d.valid)
    && registrationStatuses.contains r.status
    && maxlength 1000 r.notesUser
    && r.customResponses.all (fun c => enumOf customResponseTypes c.type)
    && r.feedback.valid
    && registrationSources.contains r.registrationSource
    && paymentStatuses.contains r.payment.status
    && r.consent.dataProcessing.isSome

/-- The `pre('save')` hook of the Registration schema.  `isNew` is `this.isNew`,
`statusModified` is `this.isModified('status')`. -/
def registrationPreSave (isNew statusModified : Bool) (now : Nat) (r : Registration) :
    Registration :=
  let r1 : Registration :=
    if statusModified && !isNew then
      { r with statusHistory := r.statusHistory ++
          [{ status := r.status, changedAt := now,
             notes := some ("Status changed to " ++ r.status.str) }] }
    else r
  if r1.type = .volunteer ∧ r1.status = .pending ∧ isNew = true then
    { r1 with status := .approved }
  else r1

/-- The call `save()` on a document made by `new Registration(..)`: validation, the hook, then the
insert, which the unique index on `(user, event)` refuses for a duplicate pair.  `none` is a
thrown error. -/
def Registration.saveNew (db : Db) (now : Nat) (r : Registration) :
    Option (Registration × Db) :=
  if !r.valid then none
  else
    let r1 := registrationPreSave true true now r
    if db.registrations.any (fun x => x.user == r1.user && x.event == r1.event) then none
    else some (r1, { db with registrations := db.registrations ++ [r1] })

/-- The call `save()` on a document loaded from the database as `loaded` and changed in memory to
`r`: validation, the hook (the status is modified when it differs from the loaded one), then the
write.  `none` is a thrown error. -/
def Registration.save (db : Db) (now : Nat) (loaded r : Registration) :
    Option (Registration × Db) :=
  if !r.valid then none
  else
    let r1 := registrationPreSave false (r.status != loaded.status) now r
    some (r1, { db with
      registrations := updateFirst (fun x => x.id == r.id) (fun _ => r1) db.registrations })

/-- JavaScript `value || fallback` on an optional string: a missing or empty string is falsy. -/
def orDefault (value : Option String) (fallback : String) : String :=
  match value with
  | none => fallback
  | some v => if v = "" then fallback else v

/-- The method `registrationSchema.methods.approve`. -/
def Registration.approve (db : Db) (now : Nat) (r : Registration) (approvedBy : Nat)
    (notes : Option String) : Option (Registration × Db) :=
  Registration.save db now r
    { r with
      status := .approved
      statusHistory := r.statusHistory ++
        [{ status := .approved, changedAt := now, changedBy := some approvedBy,
           notes := some (orDefault notes "Registration approved") }] }

/-- The method `registrationSchema.methods.reject`. -/
def Registration.reject (db : Db) (now : Nat) (r : Registration) (rejectedBy : Nat)
    (reason : Option String) : Option (Registration × Db) :=
  Registration.save db now r
    { r with
      status := .rejected
      statusHistory := r.statusHistory ++
        [{ status := .rejected, changedAt := now, changedBy := some rejectedBy,
           notes := some (orDefault reason "Registration rejected") }] }

/-- The method `registrationSchema.methods.checkIn`. -/
def Registration.checkIn (db : Db) (now : Nat) (r : Registration) (checkedInBy : Nat)
    (actualRole : Option String) (hoursContributed : Option Int) :
    Option (Registration × Db) :=
  Registration.save db now r
    { r with
      checkin :=
        { checkedIn := true, checkedInAt := some now, checkedInBy := some checkedInBy,
          actualRole := actualRole, hoursContributed := hoursContributed }
      status := .attended }

/-! ## Event schema: counters hook -/

/-- Statuses counted by `currentVolunteers`. -/
def activeVolunteerStatuses : List Status := [.registered, .confirmed, .attended]

/-- Statuses counted by `currentPartners` and `currentFunding`. -/
def activePartnerStatuses : List Status := [.approved, .active, .completed]

/-- Number of embedded volunteer summaries with an active status. -/
def activeVolunteerCount (e : Event) : Int :=
  ((e.volunteers.filter (fun reg => activeVolunteerStatuses.contains reg.status)).length : Int)

/-- Sum of `fundingAmount || 0` over the embedded partner summaries with an active status. -/
def activeFunding (e : Event) : Int :=
  (e.partners.filter (fun partner => activePartnerStatuses.contains partner.status)).foldl
    (fun total partner => total + partner.fundingAmount.getD 0) 0

/-- Number of active embedded partner summaries of one partnership type. -/
def activePartnerCount (e : Event) (type : String) : Int :=
  ((e.partners.filter (fun partner =>
      partner.partnershipType == some type
        && activePartnerStatuses.contains partner.status)).length : Int)

/-- The first `pre('save')` hook of the Event schema (counters); `registrationsModified` is
`this.isModified('registrations')`. -/
def eventPreSave (registrationsModified : Bool) (e : Event) : Event :=
  if registrationsModified then
    { e with
      currentVolunteers := activeVolunteerCount e
      types := e.types.map (fun t => { t with currentPartners := activePartnerCount e t.type })
      currentFunding := activeFunding e
      totalRegistrations := (e.volunteers.length : Int) + (e.partners.length : Int) }
  else e

/-! ## Request handlers of `routes/registrations.js` -/

/-- The `consent` object of a create request. -/
structure ConsentBody where
  communications : Option Bool := none
  photoRelease : Option Bool := none
  publicProfile : Option Bool := none
  deriving DecidableEq, Repr

/-- The body of `POST /api/registrations`.  The handler reads `eventId`, `type`,
`volunteerDetails`, `partnershipDetails`, `customResponses` and `consent`; `status` and
`statusHistory` stand for the other keys a client may send, which the handler never reads. -/
structure CreateBody where
  eventId : Nat
  type : RegType
  volunteerDetails : Option VolunteerDetails := none
  partnershipDetails : Option PartnershipDetails := none
  customResponses : Option (List CustomResponse) := none
  consent : Option ConsentBody := none
  status : Option Status := none
  statusHistory : List HistoryEntry := []
  deriving DecidableEq, Repr

/-- The object `registrationData` built by the create handler (lines 58-82).  `status` is set
to `pending` explicitly on the partner path and is the schema default `pending` otherwise;
`ipAddress` and `userAgent`, two unvalidated strings nothing reads, are left out. -/
def registrationData (freshId : Nat) (user : User) (body : CreateBody) : Registration :=
  { id := freshId
    user := user.id
    event := body.eventId
    type := body.type
    customResponses := body.customResponses.getD []
    consent :=
      { dataProcessing := true
        communications := (body.consent.bind (fun c => c.communications)) != some false
        photoRelease := (body.consent.bind (fun c => c.photoRelease)).getD false
        publicProfile := (body.consent.bind (fun c => c.publicProfile)).getD false }
    registrationSource := "web"
    volunteerDetails := if body.type = .volunteer then body.volunteerDetails else none
    partnershipDetails := if body.type = .partner then body.partnershipDetails else none
    status := .pending }

/-- The update of lines 89-99: `$push` a volunteer summary and `$inc` `currentVolunteers`. -/
def eventPushVolunteer (db : Db) (eventId userId now : Nat) (role : Option String)
    (status : Status) : Db :=
  updateEventById db eventId (fun e =>
    { e with
      volunteers := e.volunteers ++
        [{ userId := userId, registeredAt := now, role := role, status := status }]
      currentVolunteers := e.currentVolunteers + 1 })

/-- The update of lines 102-110: `$push` onto the user's `volunteerEvents`. -/
def userPushVolunteerEvent (db : Db) (userId eventId now : Nat) (status : Status) : Db :=
  updateUserById db userId (fun u =>
    { u with
      volunteerEvents := u.volunteerEvents ++
        [{ eventId := eventId, registeredAt := now, status := status }] })

/-- The update of lines 112-123: `$push` a partner summary. -/
def eventPushPartner (db : Db) (eventId userId now : Nat)
    (details : Option PartnershipDetails) (status : Status) : Db :=
  updateEventById db eventId (fun e =>
    { e with
      partners := e.partners ++
        [{ userId := userId, registeredAt := now,
           partnershipType := details.bind (fun d => d.partnershipType),
           status := status,
           contribution := details.bind (fun d => d.contributionDescription),
           fundingAmount := details.bind (fun d => d.contributionValue) }] })

/-- The update of lines 126-137: `$push` onto the user's `partnershipEvents`. -/
def userPushPartnershipEvent (db : Db) (userId eventId now : Nat)
    (details : Option PartnershipDetails) (status : Status) : Db :=
  updateUserById db userId (fun u =>
    { u with
      partnershipEvents := u.partnershipEvents ++
        [{ eventId := eventId, registeredAt := now,
           partnershipType := details.bind (fun d => d.partnershipType),
           status := status,
           contribution := details.bind (fun d => d.contributionDescription),
           fundingAmount := details.bind (fun d => d.contributionValue) }] })

/-- Handler of `POST /api/registrations` (create).  The reply after the writes is that of
`sendPopulated`: 400 `Registration failed` when the user of the new registration is stored. -/
def postRegistration (db : Db) (now freshId : Nat) (caller : CivicUser) (body : CreateBody) :
    Reply × Db :=
  match findUserByCivicId db caller.id with
  | none => (.userNotFound, db)
  | some user =>
    match findEventById db body.eventId with
    | none => (.eventNotFound, db)
    | some event =>
      if body.type = .volunteer ∧ event.isAcceptingVolunteers = false then
        (.notAcceptingVolunteers, db)
      else if body.type = .partner ∧ event.isAcceptingPartners = false then
        (.notAcceptingPartners, db)
      else
        match findRegistrationOf db user.id body.eventId with
        | some _ => (.alreadyRegistered, db)
        | none =>
          if body.type = .volunteer ∧ event.currentVolunteers ≥ event.maxVolunteers then
            (.volunteerCapacityReached, db)
          else
            match Registration.saveNew db now (registrationData freshId user body) with
            | none => (.registrationFailed, db)
            | some (registration, db1) =>
              match body.type with
              | .volunteer =>
                let db2 := eventPushVolunteer db1 body.eventId user.id now
                  (body.volunteerDetails.bind (fun d => d.preferredRole)) registration.status
                let db3 := userPushVolunteerEvent db2 user.id body.eventId now
                  registration.status
                (sendPopulated db3 registration.id .registrationSuccessful
                  .registrationFailedOnReply, db3)
              | .partner =>
                let db2 := eventPushPartner db1 body.eventId user.id now
                  body.partnershipDetails registration.status
                let db3 := userPushPartnershipEvent db2 user.id body.eventId now
                  body.partnershipDetails registration.status
                (sendPopulated db3 registration.id .registrationSuccessful
                  .registrationFailedOnReply, db3)
              | .invalid =>
                (sendPopulated db1 registration.id .registrationSuccessful
                  .registrationFailedOnReply, db1)

/-- The update of lines 263-266: `$pull` the user's volunteer summaries and `$inc`
`currentVolunteers` by -1. -/
def eventPullVolunteer (db : Db) (eventId userId : Nat) : Db :=
  updateEventById db eventId (fun e =>
    { e with
      volunteers := e.volunteers.filter (fun v => v.userId != userId)
      currentVolunteers := e.currentVolunteers - 1 })

/-- The update of lines 269-271: `$pull` the event from the user's `volunteerEvents`. -/
def userPullVolunteerEvent (db : Db) (userId eventId : Nat) : Db :=
  updateUserById db userId (fun u =>
    { u with volunteerEvents := u.volunteerEvents.filter (fun x => x.eventId != eventId) })

/-- The update of lines 273-275: `$pull` the user's partner summaries. -/
def eventPullPartner (db : Db) (eventId userId : Nat) : Db :=
  updateEventById db eventId (fun e =>
    { e with partners := e.partners.filter (fun p => p.userId != userId) })

/-- The update of lines 278-280: `$pull` the event from the user's `partnershipEvents`. -/
def userPullPartnershipEvent (db : Db) (userId eventId : Nat) : Db :=
  updateUserById db userId (fun u =>
    { u with partnershipEvents := u.partnershipEvents.filter (fun x => x.eventId != eventId) })

/-- Handler of `DELETE /api/registrations/:id` (cancel). -/
def deleteRegistration (db : Db) (now : Nat) (caller : CivicUser) (id : Nat) : Reply × Db :=
  match findUserByCivicId db caller.id with
  | none => (.userNotFound, db)
  | some user =>
    match findRegistrationById db id with
    | none => (.registrationNotFound, db)
    | some registration =>
      if registration.user ≠ user.id then (.notAuthorizedToCancel, db)
      else
        match Registration.save db now registration { registration with status := .cancelled } with
        | none => (.failedToCancel, db)
        | some (registration1, db1) =>
          match registration1.type with
          | .volunteer =>
            let db2 := eventPullVolunteer db1 registration1.event user.id
            let db3 := userPullVolunteerEvent db2 user.id registration1.event
            (.registrationCancelled, db3)
          | .partner =>
            let db2 := eventPullPartner db1 registration1.event user.id
            let db3 := userPullPartnershipEvent db2 user.id registration1.event
            (.registrationCancelled, db3)
          | .invalid => (.registrationCancelled, db1)

/-- The updates of lines 317-324 and 368-374: `$set` the status (and, on approval, `approvedAt`)
of every partner summary selected by the array filter `elem.userId`. -/
def eventSetPartnerStatus (db : Db) (eventId userId : Nat) (status : Status)
    (approvedAt : Option Nat) : Db :=
  updateEventById db eventId (fun e =>
    { e with
      partners := e.partners.map (fun elem =>
        if elem.userId = userId then
          { elem with
            status := status
            approvedAt := match approvedAt with
              | some t => some t
              | none => elem.approvedAt }
        else elem) })

/-- The updates of lines 327-333 and 377-383: `$set` the status of every `partnershipEvents`
entry selected by the array filter `elem.eventId`. -/
def userSetPartnershipStatus (db : Db) (userId eventId : Nat) (status : Status) : Db :=
  updateUserById db userId (fun u =>
    { u with
      partnershipEvents := u.partnershipEvents.map (fun elem =>
        if elem.eventId = eventId then { elem with status := status } else elem) })

/-- Handler of `POST /api/registrations/:id/approve`.  `populate('event', 'organizer')` leaves
`registration.event` null when the event is gone, and `User.findOne` returns null for a caller
without a User record: reading a property of either throws, which the `catch` block answers. -/
def postApprove (db : Db) (now : Nat) (caller : CivicUser) (id : Nat) (notes : Option String) :
    Reply × Db :=
  match findRegistrationById db id with
  | none => (.registrationNotFound, db)
  | some registration =>
    match findEventById db registration.event with
    | none => (.failedToApprove, db)
    | some event =>
      if event.organizerEmail ≠ caller.email then (.notAuthorizedToApprove, db)
      else if registration.type ≠ .partner then (.onlyPartnershipsRequireApproval, db)
      else
        match findUserByCivicId db caller.id with
        | none => (.failedToApprove, db)
        | some user =>
          match Registration.approve db now registration user.id notes with
          | none => (.failedToApprove, db)
          | some (registration1, db1) =>
            let db2 := eventSetPartnerStatus db1 event.id registration1.user .approved (some now)
            let db3 := userSetPartnershipStatus db2 registration1.user event.id .approved
            (sendPopulated db3 id .partnershipApproved .failedToApproveOnReply, db3)

/-- Handler of `POST /api/registrations/:id/reject`. -/
def postReject (db : Db) (now : Nat) (caller : CivicUser) (id : Nat) (reason : Option String) :
    Reply × Db :=
  match findRegistrationById db id with
  | none => (.registrationNotFound, db)
  | some registration =>
    match findEventById db registration.event with
    | none => (.failedToReject, db)
    | some event =>
      if event.organizerEmail ≠ caller.email then (.notAuthorizedToReject, db)
      else
        match findUserByCivicId db caller.id with
        | none => (.failedToReject, db)
        | some user =>
          match Registration.reject db now registration user.id reason with
          | none => (.failedToReject, db)
          | some (registration1, db1) =>
            let db2 := eventSetPartnerStatus db1 event.id registration1.user .rejected none
            let db3 := userSetPartnershipStatus db2 registration1.user event.id .rejected
            (sendPopulated db3 id .partnershipRejected .failedToRejectOnReply, db3)

/-- The update of lines 421-423: `$inc` the user's `stats.totalVolunteerHours`. -/
def userIncVolunteerHours (db : Db) (userId : Nat) (hours : Int) : Db :=
  updateUserById db userId (fun u =>
    { u with
      stats := { u.stats with totalVolunteerHours := u.stats.totalVolunteerHours + hours } })

/-- Handler of `POST /api/registrations/:id/checkin`.  `hoursContributed` is truthy when it is
a number other than 0. -/
def postCheckin (db : Db) (now : Nat) (caller : CivicUser) (id : Nat)
    (actualRole : Option String) (hoursContributed : Option Int) : Reply × Db :=
  match findRegistrationById db id with
  | none => (.registrationNotFound, db)
  | some registration =>
    match findEventById db registration.event with
    | none => (.failedToCheckIn, db)
    | some event =>
      if event.organizerEmail ≠ caller.email then (.notAuthorizedToCheckIn, db)
      else
        match findUserByCivicId db caller.id with
        | none => (.failedToCheckIn, db)
        | some organizer =>
          match Registration.checkIn db now registration organizer.id actualRole
              hoursContributed with
          | none => (.failedToCheckIn, db)
          | some (registration1, db1) =>
            match hoursContributed with
            | some hours =>
              if registration1.type = .volunteer ∧ hours ≠ 0 then
                (sendPopulated (userIncVolunteerHours db1 registration1.user hours) id
                    .userCheckedIn .failedToCheckInOnReply,
                  userIncVolunteerHours db1 registration1.user hours)
              else (sendPopulated db1 id .userCheckedIn .failedToCheckInOnReply, db1)
            | none => (sendPopulated db1 id .userCheckedIn .failedToCheckInOnReply, db1)

/-- The `consent` value of an update request.  `$set: { consent: value }` replaces the stored
block by the object sent: a flag that is not sent is missing afterwards and read back as its
schema default; `dataProcessing` has no default and is required. -/
structure ConsentUpdate where
  dataProcessing : Option Bool := none
  communications : Option Bool := none
  photoRelease : Option Bool := none
  publicProfile : Option Bool := none
  deriving DecidableEq, Repr

/-- The body of `PUT /api/registrations/:id`: the five keys of `allowedUpdates` (`notesUser` is
the key `notes.user`), and keys outside that list, which a client may send as well. -/
structure UpdateBody where
  volunteerDetails : Option VolunteerDetails := none
  partnershipDetails : Option PartnershipDetails := none
  customResponses : Option (List CustomResponse) := none
  notesUser : Option String := none
  consent : Option ConsentUpdate := none
  status : Option Status := none
  statusHistory : Option (List HistoryEntry) := none
  type : Option RegType := none
  user : Option Nat := none
  event : Option Nat := none
  checkin : Option Checkin := none
  feedback : Option Feedback := none
  payment : Option Payment := none
  deriving DecidableEq, Repr

/-- The object `updates` of the update handler (lines 213-218): the keys of the body that occur
in `allowedUpdates`. -/
structure RegistrationUpdates where
  volunteerDetails : Option VolunteerDetails := none
  partnershipDetails : Option PartnershipDetails := none
  customResponses : Option (List CustomResponse) := none
  notesUser : Option String := none
  consent : Option ConsentUpdate := none
  deriving DecidableEq, Repr

/-- The loop of lines 214-218: copy the allowed keys of the body. -/
def allowedUpdates (body : UpdateBody) : RegistrationUpdates :=
  { volunteerDetails := body.volunteerDetails
    partnershipDetails := body.partnershipDetails
    customResponses := body.customResponses
    notesUser := body.notesUser
    consent := body.consent }

/-- The update validators (`runValidators: true`) of the paths present in `updates`; when
`consent` is replaced, the `required` validator of `consent.dataProcessing` runs on the object
sent. -/
def RegistrationUpdates.valid (u : RegistrationUpdates) : Bool :=
  (match u.volunteerDetails with
    | none => true
    | some d => d.valid)
    && (match u.partnershipDetails with
        | none => true
        | some d => d.valid)
    && (match u.customResponses with
        | none => true
        | some cs => cs.all (fun c => enumOf customResponseTypes c.type))
    && maxlength 1000 u.notesUser
    && (match u.consent with
        | none => true
        | some c => c.dataProcessing.isSome)

/-- The operator `$set: updates` applied to a stored Registration. -/
def RegistrationUpdates.apply (u : RegistrationUpdates) (r : Registration) : Registration :=
  { r with
    volunteerDetails := match u.volunteerDetails with
      | none => r.volunteerDetails
      | some d => some d
    partnershipDetails := match u.partnershipDetails with
      | none => r.partnershipDetails
      | some d => some d
    customResponses := match u.customResponses with
      | none => r.customResponses
      | some cs => cs
    notesUser := match u.notesUser with
      | none => r.notesUser
      | some n => some n
    consent := match u.consent with
      | none => r.consent
      | some c =>
        { dataProcessing := c.dataProcessing
          communications := c.communications.getD true
          photoRelease := c.photoRelease.getD false
          publicProfile := c.publicProfile.getD false } }

/-- Handler of `PUT /api/registrations/:id` (update): `findByIdAndUpdate` with
`runValidators`, no `save` hook; the updated document is populated and sent as by
`sendPopulated`. -/
def putRegistration (db : Db) (caller : CivicUser) (id : Nat) (body : UpdateBody) :
    Reply × Db :=
  match findUserByCivicId db caller.id with
  | none => (.userNotFound, db)
  | some user =>
    match findRegistrationById db id with
    | none => (.registrationNotFound, db)
    | some registration =>
      if registration.user ≠ user.id then (.notAuthorizedToUpdate, db)
      else if (allowedUpdates body).valid = false then (.failedToUpdate, db)
      else
        (sendPopulated
            { db with
              registrations := updateFirst (fun x => x.id == id) (allowedUpdates body).apply
                db.registrations }
            id .registrationUpdated .failedToUpdateOnReply,
          { db with
            registrations := updateFirst (fun x => x.id == id) (allowedUpdates body).apply
              db.registrations })

/-- The body of `POST /api/registrations/:id/feedback`. -/
structure FeedbackBody where
  rating : Option Int := none
  comments : Option String := none
  wouldRecommend : Option Bool := none
  improvements : Option String := none
  deriving DecidableEq, Repr

/-- Handler of `POST /api/registrations/:id/feedback`.  `Event.findById` returns null when
the event is gone and `event.endDate` then throws; a validation error of `save()` is thrown as
well; both are answered by the `catch` block. -/
def postFeedback (db : Db) (now : Nat) (caller : CivicUser) (id : Nat) (body : FeedbackBody) :
    Reply × Db :=
  match findUserByCivicId db caller.id with
  | none => (.userNotFound, db)
  | some user =>
    match findRegistrationById db id with
    | none => (.registrationNotFound, db)
    | some registration =>
      if registration.user ≠ user.id then (.notAuthorizedToSubmitFeedback, db)
      else
        match findEventById db registration.event with
        | none => (.failedToSubmitFeedback, db)
        | some event =>
          if event.endDate > now then (.feedbackBeforeEventEnds, db)
          else
            match Registration.save db now registration
                { registration with
                  feedback :=
                    { rating := body.rating, comments := body.comments,
                      wouldRecommend := body.wouldRecommend,
                      improvements := body.improvements, submittedAt := some now } } with
            | none => (.failedToSubmitFeedback, db)
            | some (_, db1) => (.feedbackSubmitted, db1)

/-! ## Request handlers of `routes/events.js` -/

/-- The string an event status is stored as. -/
def EventStatus.str : EventStatus → String
  | .draft => "draft"
  | .published => "published"
  | .ongoing => "ongoing"
  | .completed => "completed"
  | .cancelled => "cancelled"

/-- The enum validator and cast of the Event `status`. -/
def EventStatus.ofString? : String → Option EventStatus
  | "draft" => some .draft
  | "published" => some .published
  | "ongoing" => some .ongoing
  | "completed" => some .completed
  | "cancelled" => some .cancelled
  | _ => none

/-- Enum of the Event `category`. -/
def eventCategories : List String :=
  ["Technology", "Education", "Healthcare", "Environment", "Community Development",
   "Arts & Culture", "Sports & Recreation", "Social Services", "Business & Entrepreneurship",
   "Other"]

/-- The replies of the event handlers modelled here. -/
inductive EventsReply where
  | ok
  | eventNotFound
  | failedToFetchEvents
  | notAuthorizedToUpdate
  | eventUpdated
  | failedToUpdateEvent
  | notAuthorizedToDelete
  | eventDeleted
  | notAuthorizedToViewRegistrations
  | failedToFetchEvent
  | failedToFetchRegistrations
  deriving DecidableEq, Repr

/-- The HTTP status code of an event reply. -/
def EventsReply.code : EventsReply → Nat
  | .ok | .eventUpdated | .eventDeleted => 200
  | .eventNotFound => 404
  | .failedToFetchEvents | .failedToFetchEvent | .failedToFetchRegistrations => 500
  | .failedToUpdateEvent => 400
  | .notAuthorizedToUpdate | .notAuthorizedToDelete | .notAuthorizedToViewRegistrations => 403

/-- The `message` of an event reply (a reply that carries data has none). -/
def EventsReply.message : EventsReply → String
  | .ok => ""
  | .eventNotFound => "Event not found"
  | .failedToFetchEvents => "Failed to fetch events"
  | .notAuthorizedToUpdate => "Not authorized to update this event"
  | .eventUpdated => "Event updated successfully"
  | .failedToUpdateEvent => "Failed to update event"
  | .notAuthorizedToDelete => "Not authorized to delete this event"
  | .eventDeleted => "Event deleted successfully"
  | .notAuthorizedToViewRegistrations => "Not authorized to view registrations"
  | .failedToFetchEvent => "Failed to fetch event"
  | .failedToFetchRegistrations => "Failed to fetch registrations"

/-- Classification of an event reply: `none` for a success. -/
def EventsReply.kind : EventsReply → Option ErrorKind
  | .ok | .eventUpdated | .eventDeleted => none
  | .eventNotFound => some .notFound
  | .failedToFetchEvents | .failedToFetchEvent | .failedToFetchRegistrations =>
      some .internalError
  | .failedToUpdateEvent => some .validationError
  | .notAuthorizedToUpdate | .notAuthorizedToDelete
  | .notAuthorizedToViewRegistrations => some .forbidden

/-- The operations of the storage engine that the list query relies on and that are not code of
this repository: the `$or` of the three case-insensitive `RegExp` tests on the address, the
`$text` search over the text index, and `.sort({ [sortBy]: 1 | -1 })` (`true` is descending). -/
structure Engine where
  locationMatches : String → Event → Bool
  textMatches : String → Event → Bool
  sort : String → Bool → List Event → List Event

/-- The query string of `GET /api/events`, with the defaults of the destructuring for `page`,
`limit`, `type`, `sortBy` and `sortOrder`; `status` absent means the default `published`. -/
structure EventsQuery where
  page : Nat := 1
  limit : Nat := 12
  category : Option String := none
  location : Option String := none
  search : Option String := none
  type : String := "all"
  status : Option String := none
  sortBy : String := "startDate"
  sortOrder : String := "asc"

/-- JavaScript truthiness of an optional query string. -/
def truthy (value : Option String) : Bool :=
  match value with
  | none => false
  | some v => v != ""

/-- The MongoDB filter `query` built in lines 23-46. -/
def eventsFilter (engine : Engine) (q : EventsQuery) (e : Event) : Bool :=
  e.status.str == q.status.getD "published"
    && (if truthy q.category && q.category != some "all" then some e.category == q.category
        else true)
    && (if truthy q.location then engine.locationMatches (q.location.getD "") e else true)
    && (if truthy q.search then engine.textMatches (q.search.getD "") e else true)
    && (if q.type = "volunteer" then e.isAcceptingVolunteers
        else if q.type = "partnership" then e.isAcceptingPartners
        else true)

/-- The projection `.select('-registrations')`. -/
def withoutRegistrations (e : Event) : Event :=
  { e with volunteers := [], partners := [] }

/-- Handler of `GET /api/events` (the `events` array of the answer).  A negative skip, from
`page = 0`, is refused by the engine and answered by the `catch` block; `limit(0)` is no
limit. -/
def getEvents (engine : Engine) (db : Db) (q : EventsQuery) : EventsReply × List Event :=
  if q.page = 0 ∧ q.limit ≠ 0 then (.failedToFetchEvents, [])
  else
    let found := engine.sort q.sortBy (q.sortOrder == "desc")
      (db.events.filter (eventsFilter engine q))
    let skipped := found.drop ((q.page - 1) * q.limit)
    let page := if q.limit = 0 then skipped else skipped.take q.limit
    (.ok, page.map withoutRegistrations)

/-- The populate of `GET /api/events/:id` and `GET /api/events/slug/:slug`
(`registrations.volunteers.userId` and `registrations.partners.userId`, each with a selection of
fields that leaves `volunteerEvents` out) puts a User document in the event exactly when an
embedded summary names a stored user. -/
def Event.populatesUser (db : Db) (e : Event) : Bool :=
  e.volunteers.any (fun v => (findUserById db v.userId).isSome)
    || e.partners.any (fun p => (findUserById db p.userId).isSome)

/-- Handler of `GET /api/events/:id`: the event read and populated, the view counter
incremented, then `res.json(event)`, which throws in the User virtual `totalEvents` when a User
document was populated (see `sendPopulated`); the `catch` block then answers 500 `Failed to fetch
event`, the increment being kept. -/
def getEventById (db : Db) (id : Nat) : EventsReply × Option Event × Db :=
  match findEventById db id with
  | none => (.eventNotFound, none, db)
  | some event =>
    if event.populatesUser db then
      (.failedToFetchEvent, none,
        updateEventById db id (fun e => { e with views := e.views + 1 }))
    else (.ok, some event, updateEventById db id (fun e => { e with views := e.views + 1 }))

/-- Handler of `GET /api/events/slug/:slug`: as `getEventById`, with the event found by its
slug. -/
def getEventBySlug (db : Db) (slug : String) : EventsReply × Option Event × Db :=
  match db.events.find? (fun e => e.slug == some slug) with
  | none => (.eventNotFound, none, db)
  | some event =>
    if event.populatesUser db then
      (.failedToFetchEvent, none,
        { db with
          events := updateFirst (fun e => e.slug == some slug)
            (fun e => { e with views := e.views + 1 }) db.events })
    else
      (.ok, some event,
        { db with
          events := updateFirst (fun e => e.slug == some slug)
            (fun e => { e with views := e.views + 1 }) db.events })

/-- The body of `PUT /api/events/:id`, as dotted paths of the fields of `Event`. -/
structure EventPatch where
  title : Option String := none
  category : Option String := none
  organizerEmail : Option String := none
  startDate : Option Nat := none
  endDate : Option Nat := none
  status : Option String := none
  isAcceptingVolunteers : Option Bool := none
  maxVolunteers : Option Int := none
  currentVolunteers : Option Int := none
  isAcceptingPartners : Option Bool := none
  totalFundingGoal : Option Int := none
  currentFunding : Option Int := none
  deriving DecidableEq, Repr

/-- The code points removed by `String.prototype.trim`: WhiteSpace and LineTerminator of
ECMAScript. -/
def isJsWhiteSpace (c : Char) : Bool :=
  [9, 10, 11, 12, 13, 32, 160, 5760, 8232, 8233, 8239, 8287, 12288, 65279].contains c.toNat
    || (decide (8192 ≤ c.toNat) && decide (c.toNat ≤ 8202))

/-- The method `String.prototype.trim`, which the setter of a path with `trim: true` applies
before the validators run. -/
def jsTrim (s : String) : String :=
  String.mk ((s.toList.dropWhile isJsWhiteSpace).reverse.dropWhile isJsWhiteSpace).reverse

/-- The update validators of the paths present in the patch: `title`, once trimmed, required
and of length at most 200, `category` and `status` in their enums, `organizer.email`
required. -/
def EventPatch.valid (p : EventPatch) : Bool :=
  (match p.title with
    | none => true
    | some t => jsTrim t != "" && decide (jsLength (jsTrim t) ≤ 200))
    && enumOf eventCategories p.category
    && (match p.organizerEmail with
        | none => true
        | some m => m != "")
    && (match p.status with
        | none => true
        | some st => (EventStatus.ofString? st).isSome)

/-- The operator `$set: req.body` applied to a stored Event; the title is stored trimmed. -/
def EventPatch.apply (p : EventPatch) (e : Event) : Event :=
  { e with
    title := (p.title.map jsTrim).getD e.title
    category := p.category.getD e.category
    organizerEmail := p.organizerEmail.getD e.organizerEmail
    startDate := p.startDate.getD e.startDate
    endDate := p.endDate.getD e.endDate
    status := ((p.status.bind EventStatus.ofString?).getD e.status)
    isAcceptingVolunteers := p.isAcceptingVolunteers.getD e.isAcceptingVolunteers
    maxVolunteers := p.maxVolunteers.getD e.maxVolunteers
    currentVolunteers := p.currentVolunteers.getD e.currentVolunteers
    isAcceptingPartners := p.isAcceptingPartners.getD e.isAcceptingPartners
    totalFundingGoal := match p.totalFundingGoal with
      | none => e.totalFundingGoal
      | some g => some g
    currentFunding := p.currentFunding.getD e.currentFunding }

/-- Handler of `PUT /api/events/:id`. -/
def putEvent (db : Db) (caller : CivicUser) (id : Nat) (patch : EventPatch) :
    EventsReply × Db :=
  match findEventById db id with
  | none => (.eventNotFound, db)
  | some event =>
    if event.organizerEmail ≠ caller.email then (.notAuthorizedToUpdate, db)
    else if patch.valid = false then (.failedToUpdateEvent, db)
    else (.eventUpdated, updateEventById db id patch.apply)

/-- Handler of `DELETE /api/events/:id`. -/
def deleteEvent (db : Db) (caller : CivicUser) (id : Nat) : EventsReply × Db :=
  match findEventById db id with
  | none => (.eventNotFound, db)
  | some event =>
    if event.organizerEmail ≠ caller.email then (.notAuthorizedToDelete, db)
    else (.eventDeleted, { db with events := db.events.eraseP (fun e => e.id == id) })

/-- Handler of `GET /api/events/:id/registrations`: the registrations of the event, newest
first (`createdAt` is the insertion order of the collection), each populated with its user under
a selection of fields that leaves `volunteerEvents` out; `res.json` throws in the User virtual
`totalEvents` as soon as one of these users is stored (see `sendPopulated`), and the `catch`
block answers 500 `Failed to fetch registrations`. -/
def getEventRegistrations (db : Db) (caller : CivicUser) (id : Nat) :
    EventsReply × List Registration :=
  match findEventById db id with
  | none => (.eventNotFound, [])
  | some event =>
    if event.organizerEmail ≠ caller.email then (.notAuthorizedToViewRegistrations, [])
    else if (db.registrations.filter (fun r => r.event == id)).any
        (fun r => (findUserById db r.user).isSome) then
      (.failedToFetchRegistrations, [])
    else (.ok, (db.registrations.filter (fun r => r.event == id)).reverse)

/-! ## Account deletion of `routes/users.js` -/

/-- The replies of `DELETE /api/users/account`. -/
inductive UsersReply where
  | userNotFound
  | accountDeleted
  deriving DecidableEq, Repr

/-- Handler of `DELETE /api/users/account`: `Registration.deleteMany({ user })`, then
`User.findByIdAndDelete`. -/
def deleteAccount (db : Db) (caller : CivicUser) : UsersReply × Db :=
  match findUserByCivicId db caller.id with
  | none => (.userNotFound, db)
  | some user =>
    (.accountDeleted,
      { db with
        registrations := db.registrations.filter (fun r => r.user != user.id)
        users := db.users.eraseP (fun u => u.id == user.id) })

/-- One call of a handler that writes the `registrations` collection: the seven handlers of
`routes/registrations.js` and the account deletion.  No other handler of the repository writes
a Registration. -/
inductive Step : Db → Db → Prop where
  | create (db : Db) (now freshId : Nat) (caller : CivicUser) (body : CreateBody) :
      Step db (postRegistration db now freshId caller body).2
  | update (db : Db) (caller : CivicUser) (id : Nat) (body : UpdateBody) :
      Step db (putRegistration db caller id body).2
  | cancel (db : Db) (now : Nat) (caller : CivicUser) (id : Nat) :
      Step db (deleteRegistration db now caller id).2
  | approve (db : Db) (now : Nat) (caller : CivicUser) (id : Nat) (notes : Option String) :
      Step db (postApprove db now caller id notes).2
  | reject (db : Db) (now : Nat) (caller : CivicUser) (id : Nat) (reason : Option String) :
      Step db (postReject db now caller id reason).2
  | checkin (db : Db) (now : Nat) (caller : CivicUser) (id : Nat) (actualRole : Option String)
      (hoursContributed : Option Int) :
      Step db (postCheckin db now caller id actualRole hoursContributed).2
  | feedback (db : Db) (now : Nat) (caller : CivicUser) (id : Nat) (body : FeedbackBody) :
      Step db (postFeedback db now caller id body).2
  | account (db : Db) (caller : CivicUser) : Step db (deleteAccount db caller).2

/-- The databases reached from `db0` by finitely many handler calls. -/
inductive Reachable (db0 : Db) : Db → Prop where
  | start : Reachable db0 db0
  | next (db db1 : Db) : Reachable db0 db → Step db db1 → Reachable db0 db1

/-- The rating bounds of the `feedback` block: a stored rating lies between 1 and 5. -/
def ratingInRange (r : Registration) : Prop :=
  match r.feedback.rating with
  | none => True
  | some x => 1 ≤ x ∧ x ≤ 5

/-- Every stored Registration has its feedback rating within the bounds. -/
def ratingsInRange (db : Db) : Prop :=
  ∀ r ∈ db.registrations, ratingInRange r

/-! ## User schema: stats hook -/

/-- The `pre('save')` hook of the User schema.  The two flags are
`this.isModified('volunteerEvents')` and `this.isModified('partnershipEvents')`. -/
def userPreSave (volunteerEventsModified partnershipEventsModified : Bool) (u : User) : User :=
  if volunteerEventsModified || partnershipEventsModified then
    let eventsAttended : Int :=
      ((u.volunteerEvents.filter (fun event => event.status == .attended)).length : Int)
    let partnershipsCompleted : Int :=
      ((u.partnershipEvents.filter
        (fun partnership => partnership.status == .completed)).length : Int)
    { u with
      stats :=
        { u.stats with
          eventsAttended := eventsAttended
          partnershipsCompleted := partnershipsCompleted
          impactScore := eventsAttended * 10 + partnershipsCompleted * 25 } }
  else u

/-! ## Event schema: slug hook and virtuals -/

/-- The character class `[a-z0-9]`. -/
def isSlugChar (c : Char) : Bool :=
  c.isLower || c.isDigit

/-- The replacement `.replace(/[^a-z0-9]+/g, '-')` on a list of characters: a character of the
class is kept, the first character of a run outside the class becomes `-` and the rest of the
run is dropped.  `inRun` tells that the previous character was outside the class. -/
def replaceRuns : Bool → List Char → List Char
  | _, [] => []
  | inRun, c :: cs =>
    if isSlugChar c then c :: replaceRuns false cs
    else if inRun then replaceRuns true cs
    else '-' :: replaceRuns true cs

/-- The alternative `^-` of `.replace(/^-|-$/g, '')`: one leading `-` is removed. -/
def stripLeadingDash : List Char → List Char
  | '-' :: cs => cs
  | cs => cs

/-- The replacement `.replace(/^-|-$/g, '')`: one leading and one trailing `-` are removed. -/
def stripDashes (l : List Char) : List Char :=
  (stripLeadingDash (stripLeadingDash l).reverse).reverse

/-- The expression of lines 347-350 without the timestamp.  `toLowerCase` is the String method
of the JavaScript runtime. -/
def slugify (toLowerCase : String → String) (title : String) : String :=
  String.mk (stripDashes (replaceRuns false (toLowerCase title).toList))

/-- The second `pre('save')` hook of the Event schema (slug).  `titleModified` is
`this.isModified('title')`, `now` is `Date.now()`; a missing or empty slug is falsy. -/
def eventSlugPreSave (toLowerCase : String → String) (titleModified : Bool) (now : Nat)
    (e : Event) : Event :=
  if titleModified && !truthy e.slug then
    { e with slug := some (slugify toLowerCase e.title ++ "-" ++ toString now) }
  else e

/-- The virtual `isUpcoming` at the instant `now`. -/
def Event.isUpcoming (e : Event) (now : Nat) : Bool :=
  decide (e.startDate > now)

/-- The virtual `isOngoing` at the instant `now`. -/
def Event.isOngoing (e : Event) (now : Nat) : Bool :=
  decide (e.startDate ≤ now) && decide (e.endDate ≥ now)

/-- The virtual `isPast` at the instant `now`. -/
def Event.isPast (e : Event) (now : Nat) : Bool :=
  decide (e.endDate < now)

/-- The virtual `volunteersNeeded`. -/
def Event.volunteersNeeded (e : Event) : Int :=
  max 0 (e.maxVolunteers - e.currentVolunteers)

/-! ## Pagination blocks of `routes/events.js` and `routes/users.js` -/

/-- The value `Math.ceil(total / limit)` for natural numbers and `limit > 0`. -/
def ceilDiv (total limit : Nat) : Nat :=
  (total + limit - 1) / limit

/-- The `pagination` object of a list answer (`total` is `totalEvents`, respectively
`totalRegistrations`). -/
structure Pagination where
  currentPage : Nat
  totalPages : Nat
  total : Nat
  hasNext : Bool
  hasPrev : Bool
  deriving DecidableEq, Repr

/-- The `pagination` object built in lines 65-71 of `events.js` and lines 211-217 of
`users.js`. -/
def paginationBlock (page limit total : Nat) : Pagination :=
  { currentPage := page
    totalPages := ceilDiv total limit
    total := total
    hasNext := decide (page * limit < total)
    hasPrev := decide (page > 1) }

/-- The `pagination` object of `GET /api/events`: `total` is `countDocuments(query)`. -/
def getEventsPagination (engine : Engine) (db : Db) (q : EventsQuery) : Pagination :=
  paginationBlock q.page q.limit (db.events.filter (eventsFilter engine q)).length

/-- The query string of `GET /api/users/events`. -/
structure UserEventsQuery where
  type : String := "all"
  status : String := "all"
  page : Nat := 1
  limit : Nat := 10

/-- The MongoDB filter `query` built in lines 173-187 of `users.js`. -/
def userEventsFilter (userId : Nat) (q : UserEventsQuery) (r : Registration) : Bool :=
  r.user == userId
    && (if q.type = "all" then true
        else (q.type == "volunteer" && r.type == .volunteer)
          || (q.type == "partner" && r.type == .partner))
    && (if q.status = "active" then
          [Status.approved, .confirmed, .attended, .active, .completed].contains r.status
        else true)

/-- The `pagination` object of `GET /api/users/events`; `none` when the caller has no User
record (answer 404). -/
def getUserEventsPagination (db : Db) (caller : CivicUser) (q : UserEventsQuery) :
    Option Pagination :=
  match findUserByCivicId db caller.id with
  | none => none
  | some user =>
    some (paginationBlock q.page q.limit
      (db.registrations.filter (userEventsFilter user.id q)).length)

/-! ## The specification's transition table -/

/-- The terminal states named by the specification (section 4.1). -/
def specTerminal : Status → Bool
  | .attended | .noShow | .rejected | .cancelled => true
  | _ => false

/-- The transition table in the specification's words (section 4.1):
`pending → approved | rejected | waitlisted`, `approved → confirmed | cancelled`,
`confirmed → attended | no-show | cancelled`, and any non-terminal state `→ cancelled`. -/
def specTransitionAllowed : Status → Status → Bool
  | .pending, .approved | .pending, .rejected | .pending, .waitlisted => true
  | .approved, .confirmed => true
  | .confirmed, .attended | .confirmed, .noShow => true
  | s, .cancelled => !specTerminal s
  | _, _ => false

/-! ## Example data -/

/-- Three users and the organizer of the example event. -/
def userA : User := { id := 1, civicId := "civic_a", email := "a@example.com" }

/-- Second example user. -/
def userB : User := { id := 2, civicId := "civic_b", email := "b@example.com" }

/-- Third example user. -/
def userC : User := { id := 3, civicId := "civic_c", email := "c@example.com" }

/-- The organizer's own User record. -/
def userO : User := { id := 9, civicId := "civic_o", email := "org@example.com" }

/-- Identity of user A as attached to a request. -/
def callerA : CivicUser := { id := "civic_a", email := "a@example.com" }

/-- Identity of user B as attached to a request. -/
def callerB : CivicUser := { id := "civic_b", email := "b@example.com" }

/-- Identity of user C as attached to a request. -/
def callerC : CivicUser := { id := "civic_c", email := "c@example.com" }

/-- Identity of the organizer as attached to a request. -/
def callerO : CivicUser := { id := "civic_o", email := "org@example.com" }

/-- Event E of the example scenarios: `maxVolunteers = 2`, no registrations, no funding. -/
def eventE : Event := { id := 100, organizerEmail := "org@example.com", maxVolunteers := 2 }

/-- Initial database of the example scenarios. -/
def dbE : Db := { users := [userA, userB, userC, userO], events := [eventE] }

/-- A volunteer create request for event E. -/
def volunteerBody : CreateBody := { eventId := 100, type := .volunteer }

/-- A partner create request for event E with `contribution.value = 1000`. -/
def partnerBody : CreateBody :=
  { eventId := 100, type := .partner,
    partnershipDetails := some { partnershipType := some "sponsor", contributionValue := some 1000 } }

/-- Database after user A's volunteer create at time 10. -/
def dbVolA : Db := (postRegistration dbE 10 1001 callerA volunteerBody).2

/-- Database after user B's volunteer create at time 11. -/
def dbVolAB : Db := (postRegistration dbVolA 11 1002 callerB volunteerBody).2

/-- Database after user A then cancelled that volunteer registration at time 20. -/
def dbVolACancelled : Db := (deleteRegistration dbVolA 20 callerA 1001).2

/-- Database after user A's partner create at time 10. -/
def dbPartnerA : Db := (postRegistration dbE 10 1001 callerA partnerBody).2

/-- Database after the organizer approved user A's partner registration at time 20. -/
def dbPartnerApproved : Db := (postApprove dbPartnerA 20 callerO 1001 (some "welcome")).2

/-- Database after the organizer rejected user A's partner registration at time 20. -/
def dbPartnerRejected : Db := (postReject dbPartnerA 20 callerO 1001 none).2

/-- Event E when it accepts volunteers but no partners. -/
def dbNoPartners : Db :=
  { users := [userA, userO], events := [{ eventE with isAcceptingPartners := false }] }

/-- Event E once users A and B hold its two volunteer places. -/
def eventEFull : Event :=
  { eventE with
    currentVolunteers := 2
    volunteers :=
      [{ userId := 1, registeredAt := 10, status := .approved },
       { userId := 2, registeredAt := 11, status := .approved }] }

/-- The counters of an event that the registration workflow maintains, with its id. -/
def Event.counters (e : Event) : Nat × Int × Int × List PartnershipSlot × Int :=
  (e.id, e.currentVolunteers, e.currentFunding, e.types, e.totalRegistrations)

/-- The Registration persisted by the partner create of user A (status `pending`). -/
def regPendingA : Registration :=
  { id := 1001, user := 1, event := 100, type := .partner,
    partnershipDetails := partnerBody.partnershipDetails,
    consent := { dataProcessing := true } }

/-- That Registration after the organizer rejected it at time 20. -/
def regRejectedA : Registration :=
  { regPendingA with
    status := .rejected
    statusHistory :=
      [{ status := .rejected, changedAt := 20, changedBy := some 9,
         notes := some "Registration rejected" },
       { status := .rejected, changedAt := 20, notes := some "Status changed to rejected" }] }

/-- Event E after the partner create of user A. -/
def eventEPending : Event :=
  { eventE with
    partners :=
      [{ userId := 1, registeredAt := 10, partnershipType := some "sponsor",
         fundingAmount := some 1000 }] }

/-- Event E after the organizer rejected the partner registration of user A. -/
def eventERejected : Event :=
  { eventE with
    partners :=
      [{ userId := 1, registeredAt := 10, partnershipType := some "sponsor",
         status := .rejected, fundingAmount := some 1000 }] }

/-- User A once the partner registration for event E was rejected. -/
def userARejected : User :=
  { userA with
    partnershipEvents :=
      [{ eventId := 100, registeredAt := 10, partnershipType := some "sponsor",
         status := .rejected, fundingAmount := some 1000 }] }

/-- The Registration persisted by the volunteer create of user A. -/
def regVolunteerA : Registration :=
  { id := 1001, user := 1, event := 100, type := .volunteer, status := .approved,
    consent := { dataProcessing := true } }

/-- Event E with its end at time 100. -/
def eventLate : Event := { eventE with endDate := 100 }

/-- Users A, B and the organizer, event E ending at time 100, and the volunteer registration of
user A for it. -/
def dbLate : Db :=
  { users := [userA, userB, userO], events := [eventLate], registrations := [regVolunteerA] }

/-- A feedback submission with rating 4. -/
def goodFeedback : FeedbackBody :=
  { rating := some 4, comments := some "well run", wouldRecommend := some true }

/-- A feedback submission with rating 7. -/
def badFeedback : FeedbackBody := { rating := some 7 }

/-- An engine for the examples: the sort keeps the order of the collection, the regex and text
tests accept every event. -/
def plainEngine : Engine :=
  { locationMatches := fun _ _ => true
    textMatches := fun _ _ => true
    sort := fun _ _ l => l }

/-- A draft event with a slug. -/
def eventDraft : Event :=
  { id := 200, title := "Spring fair", organizerEmail := "org@example.com",
    status := .draft, slug := some "spring-fair-1" }

/-- A published event. -/
def eventPublished : Event :=
  { id := 201, title := "Summer fair", organizerEmail := "org@example.com",
    status := .published, slug := some "summer-fair-2" }

/-- A database holding one draft and one published event. -/
def dbDraft : Db := { users := [userO], events := [eventDraft, eventPublished] }

/-- An update request that sends allowed and forbidden keys. -/
def mixedUpdate : UpdateBody :=
  { notesUser := some "see you there"
    consent := some { dataProcessing := some true, photoRelease := some true }
    status := some .attended
    feedback := some { rating := some 5 } }

/-- A caller with the email of the organizer of event E and no User record. -/
def callerGhost : CivicUser := { id := "civic_unknown", email := "org@example.com" }

/-- The volunteer registration of user A whose event is no longer stored. -/
def dbOrphan : Db := { users := [userA, userO], events := [], registrations := [regVolunteerA] }

/-- Lower-casing of the ASCII letters, for the examples. -/
def asciiLower (s : String) : String := String.mk (s.toList.map Char.toLower)

/-- An event whose title is set and whose slug is not. -/
def eventTitled : Event :=
  { id := 300, title := "  Beach Clean-Up: 2024 (Lagos)!", organizerEmail := "org@example.com" }

/-- A user with two attended volunteer events, one completed partnership and 12 hours. -/
def userBusy : User :=
  { id := 5, civicId := "civic_e", email := "e@example.com"
    volunteerEvents :=
      [{ eventId := 1, registeredAt := 1, status := .attended },
       { eventId := 2, registeredAt := 2, status := .registered },
       { eventId := 3, registeredAt := 3, status := .attended }]
    partnershipEvents :=
      [{ eventId := 4, registeredAt := 4, status := .completed },
       { eventId := 5, registeredAt := 5, status := .approved }]
    stats := { totalVolunteerHours := 12 } }

/-! ## Lemmas on the collections -/

theorem updateFirst_find?_same {α : Type} (p : α → Bool) (f : α → α)
    (hf : ∀ x, p x = true → p (f x) = true) (l : List α) :
    (updateFirst p f l).find? p = (l.find? p).map f := by
  induction l with
  | nil => rfl
  | cons x xs ih =>
    by_cases hx : p x = true
    · simp [updateFirst, hx, hf x hx]
    · simp [updateFirst, hx, ih]

theorem updateFirst_find?_none {α : Type} (p q : α → Bool) (f : α → α)
    (hq : ∀ x, q (f x) = q x) (l : List α) (h : l.find? q = none) :
    (updateFirst p f l).find? q = none := by
  induction l with
  | nil => rfl
  | cons x xs ih =>
    simp only [List.find?_cons] at h
    by_cases hx : p x = true
    · cases hqx : q x with
      | true => simp [hqx] at h
      | false =>
        simp only [hqx] at h
        simp [updateFirst, hx, hq, hqx, h]
    · cases hqx : q x with
      | true => simp [hqx] at h
      | false =>
        simp only [hqx] at h
        simp [updateFirst, hx, hqx, ih h]

theorem updateFirst_find?_some {α : Type} (p q : α → Bool) (f : α → α)
    (hq : ∀ x, q (f x) = q x) (l : List α) (a : α) (h : l.find? q = some a) :
    (updateFirst p f l).find? q = some a ∨ (updateFirst p f l).find? q = some (f a) := by
  induction l with
  | nil => simp at h
  | cons x xs ih =>
    simp only [List.find?_cons] at h
    by_cases hx : p x = true
    · cases hqx : q x with
      | true =>
        simp only [hqx, Option.some.injEq] at h
        subst h
        right
        simp [updateFirst, hx, hq, hqx]
      | false =>
        simp only [hqx] at h
        left
        simp [updateFirst, hx, hq, hqx, h]
    · cases hqx : q x with
      | true =>
        simp only [hqx, Option.some.injEq] at h
        subst h
        left
        simp [updateFirst, hx, hqx]
      | false =>
        simp only [hqx] at h
        simp only [updateFirst, hx, Bool.false_eq_true, if_false, List.find?_cons, hqx]
        exact ih h

theorem updateFirst_map_eq {α β : Type} (p : α → Bool) (f : α → α) (g : α → β)
    (hg : ∀ x, g (f x) = g x) (l : List α) :
    (updateFirst p f l).map g = l.map g := by
  induction l with
  | nil => rfl
  | cons x xs ih =>
    by_cases hx : p x = true
    · simp [updateFirst, hx, hg]
    · simp [updateFirst, hx, ih]

theorem updateFirst_find?_other {α : Type} (p q : α → Bool) (f : α → α)
    (hq : ∀ x, q (f x) = q x) (hpq : ∀ x, p x = true → q x = false) (l : List α) :
    (updateFirst p f l).find? q = l.find? q := by
  induction l with
  | nil => rfl
  | cons x xs ih =>
    by_cases hx : p x = true
    · simp [updateFirst, hx, hq, hpq x hx, List.find?_cons]
    · simp [updateFirst, hx, ih, List.find?_cons]

/-! ## Lemmas on the reply that carries the populated registration -/

theorem sendPopulated_cases (db : Db) (id : Nat) (ok thrown : Reply) :
    sendPopulated db id ok thrown = ok ∨ sendPopulated db id ok thrown = thrown := by
  unfold sendPopulated
  split
  · exact Or.inl rfl
  · split
    · exact Or.inl rfl
    · exact Or.inr rfl

theorem sendPopulated_found (db : Db) (id : Nat) (ok thrown : Reply) (reg : Registration)
    (h : findRegistrationById db id = some reg) :
    sendPopulated db id ok thrown
      = if (findUserById db reg.user).isSome then thrown else ok := by
  unfold sendPopulated
  rw [h]
  simp only
  cases findUserById db reg.user <;> rfl

theorem sendPopulated_kind_ne (db : Db) (id : Nat) (ok thrown : Reply) (k : ErrorKind)
    (hok : ok.kind ≠ some k) (hthrown : thrown.kind ≠ some k) :
    (sendPopulated db id ok thrown).kind ≠ some k := by
  rcases sendPopulated_cases db id ok thrown with h | h <;> rw [h] <;> assumption

theorem findUserById_of_civicId {db : Db} {civicId : String} {user : User}
    (h : findUserByCivicId db civicId = some user) : (findUserById db user.id).isSome = true := by
  unfold findUserById
  rw [List.find?_isSome]
  exact ⟨user, List.mem_of_find?_eq_some h, by simp⟩

/-! ## Lemmas on `save` and on the create handler -/

theorem saveNew_spec {db : Db} {now : Nat} {r reg : Registration} {dbs : Db}
    (h : Registration.saveNew db now r = some (reg, dbs)) :
    r.valid = true ∧ reg = registrationPreSave true true now r ∧
      dbs = { db with registrations := db.registrations ++ [reg] } := by
  unfold Registration.saveNew at h
  split at h
  · exact absurd h (by simp)
  · rename_i hv
    simp only at h
    split at h
    · exact absurd h (by simp)
    · simp only [Option.some.injEq, Prod.mk.injEq] at h
      obtain ⟨h1, h2⟩ := h
      subst h1
      refine ⟨by simpa using hv, rfl, h2.symm⟩

/-- Inversion of a create that did its writes (it then sent the reply of `sendPopulated`):
every check passed, the document was saved, and the final database is the saved one after the
two projection updates of the request's type. -/
theorem postRegistration_wrote {db : Db} {now freshId : Nat} {caller : CivicUser}
    {body : CreateBody} {r : Reply} {dbf : Db}
    (h : postRegistration db now freshId caller body = (r, dbf))
    (hw : r = .registrationSuccessful ∨ r = .registrationFailedOnReply) :
    ∃ user event reg dbs,
      findUserByCivicId db caller.id = some user ∧
      findEventById db body.eventId = some event ∧
      ¬ (body.type = .volunteer ∧ event.isAcceptingVolunteers = false) ∧
      ¬ (body.type = .partner ∧ event.isAcceptingPartners = false) ∧
      findRegistrationOf db user.id body.eventId = none ∧
      ¬ (body.type = .volunteer ∧ event.currentVolunteers ≥ event.maxVolunteers) ∧
      Registration.saveNew db now (registrationData freshId user body) = some (reg, dbs) ∧
      ((body.type = .volunteer ∧
          dbf = userPushVolunteerEvent
            (eventPushVolunteer dbs body.eventId user.id now
              (body.volunteerDetails.bind (fun d => d.preferredRole)) reg.status)
            user.id body.eventId now reg.status) ∨
        (body.type = .partner ∧
          dbf = userPushPartnershipEvent
            (eventPushPartner dbs body.eventId user.id now body.partnershipDetails reg.status)
            user.id body.eventId now body.partnershipDetails reg.status)) := by
  unfold postRegistration at h
  split at h
  · rcases hw with rfl | rfl <;> simp at h
  · rename_i user hu
    split at h
    · rcases hw with rfl | rfl <;> simp at h
    · rename_i event he
      split at h
      · rcases hw with rfl | rfl <;> simp at h
      · rename_i hv
        split at h
        · rcases hw with rfl | rfl <;> simp at h
        · rename_i hp
          split at h
          · rcases hw with rfl | rfl <;> simp at h
          · rename_i hr
            split at h
            · rcases hw with rfl | rfl <;> simp at h
            · rename_i hc
              split at h
              · rcases hw with rfl | rfl <;> simp at h
              · rename_i reg dbs hs
                refine ⟨user, event, reg, dbs, hu, he, hv, hp, hr, hc, hs, ?_⟩
                split at h
                · rename_i ht
                  left
                  simp only [Prod.mk.injEq] at h
                  exact ⟨ht, h.2.symm⟩
                · rename_i ht
                  right
                  simp only [Prod.mk.injEq] at h
                  exact ⟨ht, h.2.symm⟩
                · rename_i ht
                  have hval := (saveNew_spec hs).1
                  simp [Registration.valid, registrationData, ht] at hval

theorem findEventById_updateEventById_same (db : Db) (id : Nat) (f : Event → Event)
    (hf : ∀ e, (f e).id = e.id) :
    findEventById (updateEventById db id f) id = (findEventById db id).map f := by
  unfold findEventById updateEventById
  exact updateFirst_find?_same _ f (fun x hx => by simpa [hf x] using hx) db.events

theorem findUserByCivicId_updateUserById (db : Db) (id : Nat) (f : User → User)
    (hf : ∀ u, (f u).civicId = u.civicId) (civicId : String) (user : User)
    (h : findUserByCivicId db civicId = some user) :
    findUserByCivicId (updateUserById db id f) civicId = some user ∨
      findUserByCivicId (updateUserById db id f) civicId = some (f user) := by
  unfold findUserByCivicId updateUserById at *
  exact updateFirst_find?_some _ _ f (fun x => by simp [hf x]) db.users user h

theorem registrationPreSave_user (isNew m : Bool) (now : Nat) (r : Registration) :
    (registrationPreSave isNew m now r).user = r.user ∧
      (registrationPreSave isNew m now r).event = r.event ∧
      (registrationPreSave isNew m now r).id = r.id ∧
      (registrationPreSave isNew m now r).type = r.type := by
  unfold registrationPreSave
  simp only
  split <;> split <;> simp

/-- Frame of a create that did its writes. -/
theorem postRegistration_wrote_frame {db : Db} {now freshId : Nat} {caller : CivicUser}
    {body : CreateBody} {r : Reply} {dbf : Db}
    (h : postRegistration db now freshId caller body = (r, dbf))
    (hw : r = .registrationSuccessful ∨ r = .registrationFailedOnReply) :
    ∃ user event reg user1 event1,
      findUserByCivicId db caller.id = some user ∧
      findEventById db body.eventId = some event ∧
      ¬ (body.type = .volunteer ∧ event.isAcceptingVolunteers = false) ∧
      ¬ (body.type = .partner ∧ event.isAcceptingPartners = false) ∧
      findRegistrationOf db user.id body.eventId = none ∧
      dbf.registrations = db.registrations ++ [reg] ∧
      reg.user = user.id ∧ reg.event = body.eventId ∧
      findUserByCivicId dbf caller.id = some user1 ∧ user1.id = user.id ∧
      findEventById dbf body.eventId = some event1 ∧
      event1.isAcceptingVolunteers = event.isAcceptingVolunteers ∧
      event1.isAcceptingPartners = event.isAcceptingPartners := by
  obtain ⟨user, event, reg, dbs, hu, he, hv, hp, hr, _, hs, hcase⟩ :=
    postRegistration_wrote h hw
  obtain ⟨_, hreg, hdbs⟩ := saveNew_spec hs
  have hru : reg.user = user.id := by
    rw [hreg, (registrationPreSave_user _ _ _ _).1]; rfl
  have hre : reg.event = body.eventId := by
    rw [hreg, (registrationPreSave_user _ _ _ _).2.1]; rfl
  have hus : findUserByCivicId dbs caller.id = some user := by subst hdbs; exact hu
  have hes : findEventById dbs body.eventId = some event := by subst hdbs; exact he
  rcases hcase with ⟨_, hdbf⟩ | ⟨_, hdbf⟩
  · have hfe := findEventById_updateEventById_same dbs body.eventId
      (fun e => { e with
        volunteers := e.volunteers ++
          [{ userId := user.id, registeredAt := now,
             role := body.volunteerDetails.bind (fun d => d.preferredRole),
             status := reg.status }]
        currentVolunteers := e.currentVolunteers + 1 }) (fun _ => rfl)
    rw [hes, Option.map_some'] at hfe
    have hfu := findUserByCivicId_updateUserById
      (eventPushVolunteer dbs body.eventId user.id now
        (body.volunteerDetails.bind (fun d => d.preferredRole)) reg.status) user.id
      (fun u => { u with
        volunteerEvents := u.volunteerEvents ++
          [{ eventId := body.eventId, registeredAt := now, status := reg.status }] })
      (fun _ => rfl) caller.id user hus
    have hregs : dbf.registrations = db.registrations ++ [reg] := by subst hdbf hdbs; rfl
    subst hdbf
    rcases hfu with hfu | hfu
    · exact ⟨user, event, reg, _, _, hu, he, hv, hp, hr, hregs, hru, hre, hfu, rfl, hfe, rfl, rfl⟩
    · exact ⟨user, event, reg, _, _, hu, he, hv, hp, hr, hregs, hru, hre, hfu, rfl, hfe, rfl, rfl⟩
  · have hfe := findEventById_updateEventById_same dbs body.eventId
      (fun e => { e with
        partners := e.partners ++
          [{ userId := user.id, registeredAt := now,
             partnershipType := body.partnershipDetails.bind (fun d => d.partnershipType),
             status := reg.status,
             contribution := body.partnershipDetails.bind (fun d => d.contributionDescription),
             fundingAmount := body.partnershipDetails.bind (fun d => d.contributionValue) }] })
      (fun _ => rfl)
    rw [hes, Option.map_some'] at hfe
    have hfu := findUserByCivicId_updateUserById
      (eventPushPartner dbs body.eventId user.id now body.partnershipDetails reg.status) user.id
      (fun u => { u with
        partnershipEvents := u.partnershipEvents ++
          [{ eventId := body.eventId, registeredAt := now,
             partnershipType := body.partnershipDetails.bind (fun d => d.partnershipType),
             status := reg.status,
             contribution := body.partnershipDetails.bind (fun d => d.contributionDescription),
             fundingAmount := body.partnershipDetails.bind (fun d => d.contributionValue) }] })
      (fun _ => rfl) caller.id user hus
    have hregs : dbf.registrations = db.registrations ++ [reg] := by subst hdbf hdbs; rfl
    subst hdbf
    rcases hfu with hfu | hfu
    · exact ⟨user, event, reg, _, _, hu, he, hv, hp, hr, hregs, hru, hre, hfu, rfl, hfe, rfl, rfl⟩
    · exact ⟨user, event, reg, _, _, hu, he, hv, hp, hr, hregs, hru, hre, hfu, rfl, hfe, rfl, rfl⟩


/-! ## Lemmas on `save` of a stored document and on approve, reject, cancel -/

theorem valid_of_status_history (r : Registration) (s : Status) (hist : List HistoryEntry)
    (hs : registrationStatuses.contains s = true) (hv : r.valid = true) :
    ({ r with status := s, statusHistory := hist } : Registration).valid = true := by
  simp only [Registration.valid, Bool.and_eq_true] at hv ⊢
  obtain ⟨⟨⟨⟨⟨⟨⟨⟨⟨h1, h2⟩, h3⟩, _⟩, h5⟩, h6⟩, h7⟩, h8⟩, h9⟩, h10⟩ := hv
  exact ⟨⟨⟨⟨⟨⟨⟨⟨⟨h1, h2⟩, h3⟩, hs⟩, h5⟩, h6⟩, h7⟩, h8⟩, h9⟩, h10⟩

theorem valid_of_checkin (r : Registration) (c : Checkin) (hv : r.valid = true) :
    ({ r with checkin := c, status := .attended } : Registration).valid = true := by
  simp only [Registration.valid, Bool.and_eq_true] at hv ⊢
  obtain ⟨⟨⟨⟨⟨⟨⟨⟨⟨h1, h2⟩, h3⟩, _⟩, h5⟩, h6⟩, h7⟩, h8⟩, h9⟩, h10⟩ := hv
  exact ⟨⟨⟨⟨⟨⟨⟨⟨⟨h1, h2⟩, h3⟩, by decide⟩, h5⟩, h6⟩, h7⟩, h8⟩, h9⟩, h10⟩

theorem save_spec (db : Db) (now : Nat) (loaded r : Registration) (hv : r.valid = true) :
    Registration.save db now loaded r =
      some (registrationPreSave false (r.status != loaded.status) now r,
        { db with
          registrations := updateFirst (fun x => x.id == r.id)
            (fun _ => registrationPreSave false (r.status != loaded.status) now r)
            db.registrations }) := by
  simp [Registration.save, hv]

theorem registrationPreSave_existing (m : Bool) (now : Nat) (r : Registration) :
    registrationPreSave false m now r =
      if m = true then
        { r with statusHistory := r.statusHistory ++
            [{ status := r.status, changedAt := now,
               notes := some ("Status changed to " ++ r.status.str) }] }
      else r := by
  cases m <;> simp [registrationPreSave]

theorem findRegistrationById_id {db : Db} {id : Nat} {reg : Registration}
    (h : findRegistrationById db id = some reg) : reg.id = id := by
  have := List.find?_some h
  simpa using this

theorem findEventById_id {db : Db} {id : Nat} {event : Event}
    (h : findEventById db id = some event) : event.id = id := by
  have := List.find?_some h
  simpa using this

theorem findRegistrationById_replace (db : Db) (id : Nat) (reg r1 : Registration)
    (h : findRegistrationById db id = some reg) (hid : r1.id = id) (users : List User)
    (events : List Event) :
    findRegistrationById
      { users := users, events := events,
        registrations := updateFirst (fun x => x.id == id) (fun _ => r1) db.registrations } id
      = some r1 := by
  unfold findRegistrationById at *
  have := updateFirst_find?_same (fun x : Registration => x.id == id) (fun _ => r1)
    (fun _ _ => by simp [hid]) db.registrations
  simp only at this ⊢
  rw [this, h]
  rfl

theorem findUserById_isSome_updateUserById (db : Db) (id uid : Nat) (f : User → User)
    (hf : ∀ u, (f u).id = u.id) :
    (findUserById (updateUserById db id f) uid).isSome = (findUserById db uid).isSome := by
  unfold findUserById updateUserById
  by_cases h : uid = id
  · subst h
    rw [updateFirst_find?_same _ f (fun x hx => by simpa [hf x] using hx) db.users]
    cases List.find? (fun u => u.id == uid) db.users <;> rfl
  · have hother : (updateFirst (fun u : User => u.id == id) f db.users).find?
        (fun u => u.id == uid) = db.users.find? (fun u => u.id == uid) := by
      apply updateFirst_find?_other
      · intro x
        simp [hf x]
      · intro x hx
        have : x.id = id := by simpa using hx
        simp [this, Ne.symm h]
    rw [hother]

/-- The reply of approve and reject after their writes: the registration is found again under
its id, and its user is stored after the mirror updates exactly when it was stored before. -/
theorem sendPopulated_mirrors (db : Db) (id : Nat) (reg reg1 : Registration) (eventId : Nat)
    (status : Status) (approvedAt : Option Nat) (ok thrown : Reply)
    (hr : findRegistrationById db id = some reg) (hid1 : reg1.id = id)
    (hu1 : reg1.user = reg.user) :
    sendPopulated
        (userSetPartnershipStatus
          (eventSetPartnerStatus
            { db with
              registrations := updateFirst (fun x => x.id == id) (fun _ => reg1)
                db.registrations }
            eventId reg.user status approvedAt)
          reg.user eventId status) id ok thrown
      = if (findUserById db reg.user).isSome then thrown else ok := by
  have hfind : findRegistrationById
      (userSetPartnershipStatus
        (eventSetPartnerStatus
          { db with
            registrations := updateFirst (fun x => x.id == id) (fun _ => reg1)
              db.registrations }
          eventId reg.user status approvedAt)
        reg.user eventId status) id = some reg1 :=
    findRegistrationById_replace db id reg reg1 hr hid1 _ _
  rw [sendPopulated_found _ _ _ _ reg1 hfind, hu1]
  unfold userSetPartnershipStatus
  rw [findUserById_isSome_updateUserById]
  · rfl
  · intro u
    rfl

/-- The document `approve` hands to `save`. -/
theorem postApprove_ok (db : Db) (now : Nat) (caller : CivicUser) (id : Nat)
    (notes : Option String) (reg : Registration) (event : Event) (user : User)
    (hr : findRegistrationById db id = some reg) (hv : reg.valid = true)
    (he : findEventById db reg.event = some event)
    (ho : event.organizerEmail = caller.email)
    (hu : findUserByCivicId db caller.id = some user)
    (ht : reg.type = .partner) :
    ∃ reg1 db1,
      reg1 = registrationPreSave false (Status.approved != reg.status) now
        { reg with
          status := .approved
          statusHistory := reg.statusHistory ++
            [{ status := .approved, changedAt := now, changedBy := some user.id,
               notes := some (orDefault notes "Registration approved") }] } ∧
      db1 = { db with
        registrations := updateFirst (fun x => x.id == id) (fun _ => reg1) db.registrations } ∧
      postApprove db now caller id notes =
        (if (findUserById db reg.user).isSome then .failedToApproveOnReply
          else .partnershipApproved,
          userSetPartnershipStatus
            (eventSetPartnerStatus db1 event.id reg.user .approved (some now))
            reg.user event.id .approved) := by
  have hid := findRegistrationById_id hr
  subst hid
  refine ⟨_, _, rfl, rfl, ?_⟩
  unfold postApprove
  rw [hr]
  simp only
  rw [he]
  simp only
  rw [if_neg (by simp [ho]), if_neg (by simp [ht]), hu]
  simp only
  unfold Registration.approve
  rw [save_spec _ _ _ _ (valid_of_status_history reg .approved _ (by decide) hv)]
  simp only [(registrationPreSave_user _ _ _ _).1]
  rw [sendPopulated_mirrors db reg.id reg _ event.id .approved (some now) _ _ hr]
  · rw [(registrationPreSave_user _ _ _ _).2.2.1]
  · rw [(registrationPreSave_user _ _ _ _).1]

theorem postReject_ok (db : Db) (now : Nat) (caller : CivicUser) (id : Nat)
    (reason : Option String) (reg : Registration) (event : Event) (user : User)
    (hr : findRegistrationById db id = some reg) (hv : reg.valid = true)
    (he : findEventById db reg.event = some event)
    (ho : event.organizerEmail = caller.email)
    (hu : findUserByCivicId db caller.id = some user) :
    ∃ reg1 db1,
      reg1 = registrationPreSave false (Status.rejected != reg.status) now
        { reg with
          status := .rejected
          statusHistory := reg.statusHistory ++
            [{ status := .rejected, changedAt := now, changedBy := some user.id,
               notes := some (orDefault reason "Registration rejected") }] } ∧
      db1 = { db with
        registrations := updateFirst (fun x => x.id == id) (fun _ => reg1) db.registrations } ∧
      postReject db now caller id reason =
        (if (findUserById db reg.user).isSome then .failedToRejectOnReply
          else .partnershipRejected,
          userSetPartnershipStatus
            (eventSetPartnerStatus db1 event.id reg.user .rejected none)
            reg.user event.id .rejected) := by
  have hid := findRegistrationById_id hr
  subst hid
  refine ⟨_, _, rfl, rfl, ?_⟩
  unfold postReject
  rw [hr]
  simp only
  rw [he]
  simp only
  rw [if_neg (by simp [ho]), hu]
  simp only
  unfold Registration.reject
  rw [save_spec _ _ _ _ (valid_of_status_history reg .rejected _ (by decide) hv)]
  simp only [(registrationPreSave_user _ _ _ _).1]
  rw [sendPopulated_mirrors db reg.id reg _ event.id .rejected none _ _ hr]
  · rw [(registrationPreSave_user _ _ _ _).2.2.1]
  · rw [(registrationPreSave_user _ _ _ _).1]

theorem deleteRegistration_ok (db : Db) (now : Nat) (caller : CivicUser) (id : Nat)
    (reg : Registration) (user : User)
    (hu : findUserByCivicId db caller.id = some user)
    (hr : findRegistrationById db id = some reg) (hv : reg.valid = true)
    (hown : reg.user = user.id) :
    ∃ reg1 db1,
      reg1 = registrationPreSave false (Status.cancelled != reg.status) now
        { reg with status := .cancelled } ∧
      db1 = { db with
        registrations := updateFirst (fun x => x.id == id) (fun _ => reg1) db.registrations } ∧
      (deleteRegistration db now caller id).1 = .registrationCancelled ∧
      (deleteRegistration db now caller id).2.registrations = db1.registrations := by
  have hid := findRegistrationById_id hr
  subst hid
  refine ⟨_, _, rfl, rfl, ?_⟩
  unfold deleteRegistration
  rw [hu]
  simp only
  rw [hr]
  simp only
  rw [if_neg (by simp [hown])]
  have hv2 : ({ reg with status := .cancelled } : Registration).valid = true :=
    valid_of_status_history reg .cancelled reg.statusHistory (by decide) hv
  rw [save_spec _ _ _ _ hv2]
  simp only
  split <;> exact ⟨rfl, rfl⟩

theorem registrationPreSave_status (m : Bool) (now : Nat) (r : Registration) :
    (registrationPreSave false m now r).status = r.status := by
  rw [registrationPreSave_existing]
  split <;> rfl

theorem eventSetPartnerStatus_counters (db : Db) (eventId userId : Nat) (status : Status)
    (approvedAt : Option Nat) :
    (eventSetPartnerStatus db eventId userId status approvedAt).events.map Event.counters
      = db.events.map Event.counters := by
  unfold eventSetPartnerStatus updateEventById
  simp only
  apply updateFirst_map_eq
  intro e
  rfl

theorem findEventById_eventSetPartnerStatus (db : Db) (eventId userId : Nat) (status : Status)
    (approvedAt : Option Nat) (event : Event) (h : findEventById db eventId = some event) :
    ∃ event1, findEventById (eventSetPartnerStatus db eventId userId status approvedAt) eventId
        = some event1 ∧
      event1.partners = event.partners.map (fun elem =>
        if elem.userId = userId then
          { elem with
            status := status
            approvedAt := match approvedAt with
              | some t => some t
              | none => elem.approvedAt }
        else elem) := by
  unfold eventSetPartnerStatus
  rw [findEventById_updateEventById_same]
  · rw [h]
    exact ⟨_, rfl, rfl⟩
  · intro e
    rfl

/-! ## Inversion of the calls that did their writes -/

theorem findEventById_updateEventById_other (db : Db) (id other : Nat) (f : Event → Event)
    (hf : ∀ e, (f e).id = e.id) (hne : other ≠ id) :
    findEventById (updateEventById db id f) other = findEventById db other := by
  unfold findEventById updateEventById
  apply updateFirst_find?_other
  · intro x
    simp [hf x]
  · intro x hx
    have : x.id = id := by simpa using hx
    simp [this, Ne.symm hne]

theorem findUserById_updateUserById_same (db : Db) (id : Nat) (f : User → User)
    (hf : ∀ u, (f u).id = u.id) :
    findUserById (updateUserById db id f) id = (findUserById db id).map f := by
  unfold findUserById updateUserById
  exact updateFirst_find?_same _ f (fun x hx => by simpa [hf x] using hx) db.users

theorem findUserById_updateUserById_other (db : Db) (id other : Nat) (f : User → User)
    (hf : ∀ u, (f u).id = u.id) (hne : other ≠ id) :
    findUserById (updateUserById db id f) other = findUserById db other := by
  unfold findUserById updateUserById
  apply updateFirst_find?_other
  · intro x
    simp [hf x]
  · intro x hx
    have : x.id = id := by simpa using hx
    simp [this, Ne.symm hne]

theorem save_inv {db : Db} {now : Nat} {loaded r r1 : Registration} {db1 : Db}
    (h : Registration.save db now loaded r = some (r1, db1)) :
    r.valid = true ∧ r1 = registrationPreSave false (r.status != loaded.status) now r ∧
      db1 = { db with
        registrations := updateFirst (fun x => x.id == r.id) (fun _ => r1) db.registrations } := by
  unfold Registration.save at h
  split at h
  · exact absurd h (by simp)
  · rename_i hv
    simp only [Option.some.injEq, Prod.mk.injEq] at h
    obtain ⟨h1, h2⟩ := h
    subst h1
    exact ⟨by simpa using hv, rfl, h2.symm⟩

/-- Inversion of an approve that did its writes. -/
theorem postApprove_inv {db : Db} {now : Nat} {caller : CivicUser} {id : Nat}
    {notes : Option String} {r : Reply} {dbf : Db}
    (h : postApprove db now caller id notes = (r, dbf))
    (hw : r = .partnershipApproved ∨ r = .failedToApproveOnReply) :
    ∃ reg event user reg1,
      findRegistrationById db id = some reg ∧
      findEventById db reg.event = some event ∧
      event.organizerEmail = caller.email ∧
      findUserByCivicId db caller.id = some user ∧
      reg.type = .partner ∧
      reg1 = registrationPreSave false (Status.approved != reg.status) now
        { reg with
          status := .approved
          statusHistory := reg.statusHistory ++
            [{ status := .approved, changedAt := now, changedBy := some user.id,
               notes := some (orDefault notes "Registration approved") }] } ∧
      dbf = userSetPartnershipStatus
        (eventSetPartnerStatus
          { db with
            registrations := updateFirst (fun x => x.id == reg.id) (fun _ => reg1)
              db.registrations }
          event.id reg.user .approved (some now))
        reg.user event.id .approved := by
  unfold postApprove at h
  split at h
  · rcases hw with rfl | rfl <;> simp at h
  · rename_i reg hr
    split at h
    · rcases hw with rfl | rfl <;> simp at h
    · rename_i event he
      split at h
      · rcases hw with rfl | rfl <;> simp at h
      · rename_i ho
        split at h
        · rcases hw with rfl | rfl <;> simp at h
        · rename_i ht
          split at h
          · rcases hw with rfl | rfl <;> simp at h
          · rename_i user hu
            split at h
            · rcases hw with rfl | rfl <;> simp at h
            · rename_i reg1 db1 hs
              unfold Registration.approve at hs
              obtain ⟨_, hreg1, hdb1⟩ := save_inv hs
              simp only [Prod.mk.injEq] at h
              obtain ⟨_, h⟩ := h
              have hu1 : reg1.user = reg.user := by
                rw [hreg1, (registrationPreSave_user _ _ _ _).1]
              rw [hu1, hdb1] at h
              exact ⟨reg, event, user, reg1, hr, he, by simpa using ho, hu, by simpa using ht,
                hreg1, h.symm⟩

/-- Inversion of a reject that did its writes. -/
theorem postReject_inv {db : Db} {now : Nat} {caller : CivicUser} {id : Nat}
    {reason : Option String} {r : Reply} {dbf : Db}
    (h : postReject db now caller id reason = (r, dbf))
    (hw : r = .partnershipRejected ∨ r = .failedToRejectOnReply) :
    ∃ reg event user reg1,
      findRegistrationById db id = some reg ∧
      findEventById db reg.event = some event ∧
      event.organizerEmail = caller.email ∧
      findUserByCivicId db caller.id = some user ∧
      reg1 = registrationPreSave false (Status.rejected != reg.status) now
        { reg with
          status := .rejected
          statusHistory := reg.statusHistory ++
            [{ status := .rejected, changedAt := now, changedBy := some user.id,
               notes := some (orDefault reason "Registration rejected") }] } ∧
      dbf = userSetPartnershipStatus
        (eventSetPartnerStatus
          { db with
            registrations := updateFirst (fun x => x.id == reg.id) (fun _ => reg1)
              db.registrations }
          event.id reg.user .rejected none)
        reg.user event.id .rejected := by
  unfold postReject at h
  split at h
  · rcases hw with rfl | rfl <;> simp at h
  · rename_i reg hr
    split at h
    · rcases hw with rfl | rfl <;> simp at h
    · rename_i event he
      split at h
      · rcases hw with rfl | rfl <;> simp at h
      · rename_i ho
        split at h
        · rcases hw with rfl | rfl <;> simp at h
        · rename_i user hu
          split at h
          · rcases hw with rfl | rfl <;> simp at h
          · rename_i reg1 db1 hs
            unfold Registration.reject at hs
            obtain ⟨_, hreg1, hdb1⟩ := save_inv hs
            simp only [Prod.mk.injEq] at h
            obtain ⟨_, h⟩ := h
            have hu1 : reg1.user = reg.user := by
              rw [hreg1, (registrationPreSave_user _ _ _ _).1]
            rw [hu1, hdb1] at h
            exact ⟨reg, event, user, reg1, hr, he, by simpa using ho, hu, hreg1, h.symm⟩

/-- Inversion of a check-in that did its writes. -/
theorem postCheckin_inv {db : Db} {now : Nat} {caller : CivicUser} {id : Nat}
    {actualRole : Option String} {hours : Option Int} {r : Reply} {dbf : Db}
    (h : postCheckin db now caller id actualRole hours = (r, dbf))
    (hw : r = .userCheckedIn ∨ r = .failedToCheckInOnReply) :
    ∃ reg event organizer reg1,
      findRegistrationById db id = some reg ∧
      findEventById db reg.event = some event ∧
      event.organizerEmail = caller.email ∧
      findUserByCivicId db caller.id = some organizer ∧
      reg1 = registrationPreSave false (Status.attended != reg.status) now
        { reg with
          checkin :=
            { checkedIn := true, checkedInAt := some now, checkedInBy := some organizer.id,
              actualRole := actualRole, hoursContributed := hours }
          status := .attended } ∧
      dbf.events = db.events ∧
      dbf.registrations = updateFirst (fun x => x.id == reg.id) (fun _ => reg1)
        db.registrations ∧
      dbf.users =
        (if reg.type = .volunteer ∧ hours.getD 0 ≠ 0 then
          updateFirst (fun u => u.id == reg.user)
            (fun u => { u with
              stats := { u.stats with
                totalVolunteerHours := u.stats.totalVolunteerHours + hours.getD 0 } })
            db.users
        else db.users) := by
  unfold postCheckin at h
  split at h
  · rcases hw with rfl | rfl <;> simp at h
  · rename_i reg hr
    split at h
    · rcases hw with rfl | rfl <;> simp at h
    · rename_i event he
      split at h
      · rcases hw with rfl | rfl <;> simp at h
      · rename_i ho
        split at h
        · rcases hw with rfl | rfl <;> simp at h
        · rename_i organizer hu
          split at h
          · rcases hw with rfl | rfl <;> simp at h
          · rename_i reg1 db1 hs
            unfold Registration.checkIn at hs
            obtain ⟨_, hreg1, hdb1⟩ := save_inv hs
            have hu1 : reg1.user = reg.user := by
              rw [hreg1, (registrationPreSave_user _ _ _ _).1]
            have ht1 : reg1.type = reg.type := by
              rw [hreg1, (registrationPreSave_user _ _ _ _).2.2.2]
            refine ⟨reg, event, organizer, reg1, hr, he, by simpa using ho, hu, hreg1, ?_⟩
            split at h
            · rename_i hrs
              split at h
              · rename_i hc
                simp only [Prod.mk.injEq] at h
                obtain ⟨_, h⟩ := h
                subst h
                rw [ht1] at hc
                refine ⟨by rw [hdb1]; rfl, by rw [hdb1]; rfl, ?_⟩
                simp only [Option.getD_some]
                rw [if_pos hc, hu1, hdb1]
                rfl
              · rename_i hc
                simp only [Prod.mk.injEq] at h
                obtain ⟨_, h⟩ := h
                subst h
                rw [ht1] at hc
                refine ⟨by rw [hdb1], by rw [hdb1], ?_⟩
                simp only [Option.getD_some]
                rw [if_neg hc, hdb1]
            · simp only [Prod.mk.injEq] at h
              obtain ⟨_, h⟩ := h
              subst h
              refine ⟨by rw [hdb1], by rw [hdb1], ?_⟩
              simp [hdb1]

/-- Inversion of a successful cancel. -/
theorem deleteRegistration_inv {db : Db} {now : Nat} {caller : CivicUser} {id : Nat} {dbf : Db}
    (h : deleteRegistration db now caller id = (.registrationCancelled, dbf)) :
    ∃ user reg reg1,
      findUserByCivicId db caller.id = some user ∧
      findRegistrationById db id = some reg ∧
      reg.user = user.id ∧
      ({ reg with status := .cancelled } : Registration).valid = true ∧
      reg1 = registrationPreSave false (Status.cancelled != reg.status) now
        { reg with status := .cancelled } ∧
      dbf.registrations = updateFirst (fun x => x.id == reg.id) (fun _ => reg1)
        db.registrations ∧
      ((reg.type = .volunteer ∧
          dbf.events = (eventPullVolunteer db reg.event reg.user).events ∧
          dbf.users = (userPullVolunteerEvent db reg.user reg.event).users) ∨
        (reg.type = .partner ∧
          dbf.events = (eventPullPartner db reg.event reg.user).events ∧
          dbf.users = (userPullPartnershipEvent db reg.user reg.event).users)) := by
  unfold deleteRegistration at h
  split at h
  · simp at h
  · rename_i user hu
    split at h
    · simp at h
    · rename_i reg hr
      split at h
      · simp at h
      · rename_i hown
        split at h
        · simp at h
        · rename_i reg1 db1 hs
          obtain ⟨hv, hreg1, hdb1⟩ := save_inv hs
          have hown2 : reg.user = user.id := by simpa using hown
          have he1 : reg1.event = reg.event := by
            rw [hreg1, (registrationPreSave_user _ _ _ _).2.1]
          have ht1 : reg1.type = reg.type := by
            rw [hreg1, (registrationPreSave_user _ _ _ _).2.2.2]
          refine ⟨user, reg, reg1, hu, hr, hown2, hv, hreg1, ?_⟩
          split at h
          · rename_i ht
            simp only [Prod.mk.injEq, true_and] at h
            subst h
            rw [ht1] at ht
            refine ⟨by rw [hdb1]; rfl, Or.inl ⟨ht, ?_, ?_⟩⟩
            · rw [he1, hown2, hdb1]; rfl
            · rw [he1, hown2, hdb1]; rfl
          · rename_i ht
            simp only [Prod.mk.injEq, true_and] at h
            subst h
            rw [ht1] at ht
            refine ⟨by rw [hdb1]; rfl, Or.inr ⟨ht, ?_, ?_⟩⟩
            · rw [he1, hown2, hdb1]; rfl
            · rw [he1, hown2, hdb1]; rfl
          · rename_i ht
            rw [ht1] at ht
            simp [Registration.valid, ht] at hv

theorem updateFirst_length {α : Type} (p : α → Bool) (f : α → α) (l : List α) :
    (updateFirst p f l).length = l.length := by
  induction l with
  | nil => rfl
  | cons x xs ih =>
    by_cases hx : p x = true
    · simp [updateFirst, hx]
    · simp [updateFirst, hx, ih]

/-- The events and users after the two mirror updates of approve and reject. -/
theorem mirrors_frame (db : Db) (regs : List Registration) (event : Event) (u : Nat)
    (status : Status) (approvedAt : Option Nat)
    (he : findEventById db event.id = some event) :
    findEventById (userSetPartnershipStatus
        (eventSetPartnerStatus { db with registrations := regs } event.id u status approvedAt)
        u event.id status) event.id = some
      { event with
        partners := event.partners.map (fun elem =>
          if elem.userId = u then
            { elem with
              status := status
              approvedAt := match approvedAt with
                | some t => some t
                | none => elem.approvedAt }
          else elem) } ∧
    (∀ user, findUserById db u = some user →
      findUserById (userSetPartnershipStatus
          (eventSetPartnerStatus { db with registrations := regs } event.id u status approvedAt)
          u event.id status) u = some
        { user with
          partnershipEvents := user.partnershipEvents.map (fun elem =>
            if elem.eventId = event.id then { elem with status := status } else elem) }) ∧
    (∀ eid, eid ≠ event.id →
      findEventById (userSetPartnershipStatus
          (eventSetPartnerStatus { db with registrations := regs } event.id u status approvedAt)
          u event.id status) eid = findEventById db eid) ∧
    (∀ uid, uid ≠ u →
      findUserById (userSetPartnershipStatus
          (eventSetPartnerStatus { db with registrations := regs } event.id u status approvedAt)
          u event.id status) uid = findUserById db uid) ∧
    (userSetPartnershipStatus
        (eventSetPartnerStatus { db with registrations := regs } event.id u status approvedAt)
        u event.id status).events.length = db.events.length ∧
    (userSetPartnershipStatus
        (eventSetPartnerStatus { db with registrations := regs } event.id u status approvedAt)
        u event.id status).users.length = db.users.length := by
  refine ⟨?_, ?_, ?_, ?_, ?_, ?_⟩
  · show findEventById (eventSetPartnerStatus { db with registrations := regs } event.id u
      status approvedAt) event.id = _
    unfold eventSetPartnerStatus
    rw [findEventById_updateEventById_same]
    · show Option.map _ (findEventById db event.id) = _
      rw [he]
      rfl
    · intro e
      rfl
  · intro user hu
    unfold userSetPartnershipStatus
    rw [findUserById_updateUserById_same]
    · show Option.map _ (findUserById db u) = _
      rw [hu]
      rfl
    · intro e
      rfl
  · intro eid hne
    show findEventById (eventSetPartnerStatus { db with registrations := regs } event.id u
      status approvedAt) eid = _
    unfold eventSetPartnerStatus
    rw [findEventById_updateEventById_other]
    · rfl
    · intro e
      rfl
    · exact hne
  · intro uid hne
    unfold userSetPartnershipStatus
    rw [findUserById_updateUserById_other]
    · rfl
    · intro e
      rfl
    · exact hne
  · show (updateFirst _ _ db.events).length = _
    exact updateFirst_length _ _ _
  · show (updateFirst _ _ db.users).length = _
    exact updateFirst_length _ _ _

theorem findUserById_congr {db1 db2 : Db} (h : db1.users = db2.users) (id : Nat) :
    findUserById db1 id = findUserById db2 id := by
  unfold findUserById
  rw [h]

theorem findEventById_congr {db1 db2 : Db} (h : db1.events = db2.events) (id : Nat) :
    findEventById db1 id = findEventById db2 id := by
  unfold findEventById
  rw [h]

theorem findRegistrationById_congr {db1 db2 : Db} (h : db1.registrations = db2.registrations)
    (id : Nat) : findRegistrationById db1 id = findRegistrationById db2 id := by
  unfold findRegistrationById
  rw [h]

/-! ## The rating bounds are kept by every handler -/

theorem valid_of_feedback (r : Registration) (f : Feedback) (hf : f.valid = true)
    (hv : r.valid = true) : ({ r with feedback := f } : Registration).valid = true := by
  simp only [Registration.valid, Bool.and_eq_true] at hv ⊢
  obtain ⟨⟨⟨⟨⟨⟨⟨⟨⟨h1, h2⟩, h3⟩, h4⟩, h5⟩, h6⟩, _⟩, h8⟩, h9⟩, h10⟩ := hv
  exact ⟨⟨⟨⟨⟨⟨⟨⟨⟨h1, h2⟩, h3⟩, h4⟩, h5⟩, h6⟩, hf⟩, h8⟩, h9⟩, h10⟩

theorem feedback_valid_of_valid (r : Registration) (hv : r.valid = true) :
    r.feedback.valid = true := by
  simp only [Registration.valid, Bool.and_eq_true] at hv
  exact hv.1.1.1.2

theorem ratingInRange_of_feedback_valid (r : Registration) (hv : r.feedback.valid = true) :
    ratingInRange r := by
  unfold ratingInRange
  unfold Feedback.valid at hv
  cases hrt : r.feedback.rating with
  | none => trivial
  | some x =>
    rw [hrt] at hv
    simp only [Bool.and_eq_true, decide_eq_true_eq] at hv
    exact hv.1.1

theorem registrationPreSave_feedback (isNew m : Bool) (now : Nat) (r : Registration) :
    (registrationPreSave isNew m now r).feedback = r.feedback := by
  unfold registrationPreSave
  simp only
  split <;> split <;> rfl

theorem mem_updateFirst {α : Type} (p : α → Bool) (f : α → α) (l : List α) (x : α)
    (h : x ∈ updateFirst p f l) : x ∈ l ∨ ∃ y ∈ l, x = f y := by
  induction l with
  | nil => simp [updateFirst] at h
  | cons a as ih =>
    by_cases ha : p a = true
    · simp only [updateFirst, ha, if_true, List.mem_cons] at h
      rcases h with h | h
      · exact Or.inr ⟨a, by simp, h⟩
      · exact Or.inl (by simp [h])
    · simp only [updateFirst, ha, Bool.false_eq_true, if_false, List.mem_cons] at h
      rcases h with h | h
      · exact Or.inl (by simp [h])
      · rcases ih h with h1 | ⟨y, hy, hxy⟩
        · exact Or.inl (by simp [h1])
        · exact Or.inr ⟨y, by simp [hy], hxy⟩

theorem ratings_save {db : Db} {now : Nat} {loaded r r1 : Registration} {db1 : Db}
    (h : Registration.save db now loaded r = some (r1, db1)) (hinv : ratingsInRange db) :
    ratingsInRange db1 := by
  obtain ⟨hv, hr1, hdb1⟩ := save_inv h
  have hr1ok : ratingInRange r1 := by
    apply ratingInRange_of_feedback_valid
    rw [hr1, registrationPreSave_feedback]
    exact feedback_valid_of_valid r hv
  intro x hx
  rw [hdb1] at hx
  rcases mem_updateFirst _ _ _ _ hx with h1 | ⟨_, _, h2⟩
  · exact hinv x h1
  · rw [h2]
    exact hr1ok

theorem ratings_saveNew {db : Db} {now : Nat} {r r1 : Registration} {db1 : Db}
    (h : Registration.saveNew db now r = some (r1, db1)) (hinv : ratingsInRange db) :
    ratingsInRange db1 := by
  obtain ⟨hv, hr1, hdb1⟩ := saveNew_spec h
  have hr1ok : ratingInRange r1 := by
    apply ratingInRange_of_feedback_valid
    rw [hr1, registrationPreSave_feedback]
    exact feedback_valid_of_valid r hv
  intro x hx
  rw [hdb1] at hx
  simp only [List.mem_append, List.mem_singleton] at hx
  rcases hx with h1 | h2
  · exact hinv x h1
  · rw [h2]
    exact hr1ok

theorem ratings_step {db db1 : Db} (hs : Step db db1) (hinv : ratingsInRange db) :
    ratingsInRange db1 := by
  cases hs with
  | create now freshId caller body =>
    unfold postRegistration
    split
    · exact hinv
    · split
      · exact hinv
      · split
        · exact hinv
        · split
          · exact hinv
          · split
            · exact hinv
            · split
              · exact hinv
              · split
                · exact hinv
                · rename_i hsv
                  have := ratings_saveNew hsv hinv
                  split <;> exact this
  | update caller id body =>
    unfold putRegistration
    split
    · exact hinv
    · split
      · exact hinv
      · split
        · exact hinv
        · split
          · exact hinv
          · intro x hx
            rcases mem_updateFirst _ _ _ _ hx with h1 | ⟨y, hy, h2⟩
            · exact hinv x h1
            · rw [h2]
              exact hinv y hy
  | cancel now caller id =>
    unfold deleteRegistration
    split
    · exact hinv
    · split
      · exact hinv
      · split
        · exact hinv
        · split
          · exact hinv
          · rename_i hsv
            have := ratings_save hsv hinv
            split <;> exact this
  | approve now caller id notes =>
    unfold postApprove
    split
    · exact hinv
    · split
      · exact hinv
      · split
        · exact hinv
        · split
          · exact hinv
          · split
            · exact hinv
            · split
              · exact hinv
              · rename_i hsv
                unfold Registration.approve at hsv
                have := ratings_save hsv hinv
                exact this
  | reject now caller id reason =>
    unfold postReject
    split
    · exact hinv
    · split
      · exact hinv
      · split
        · exact hinv
        · split
          · exact hinv
          · split
            · exact hinv
            · rename_i hsv
              unfold Registration.reject at hsv
              have := ratings_save hsv hinv
              exact this
  | checkin now caller id actualRole hours =>
    unfold postCheckin
    split
    · exact hinv
    · split
      · exact hinv
      · split
        · exact hinv
        · split
          · exact hinv
          · split
            · exact hinv
            · rename_i hsv
              unfold Registration.checkIn at hsv
              have := ratings_save hsv hinv
              split
              · split <;> exact this
              · exact this
  | feedback now caller id body =>
    unfold postFeedback
    split
    · exact hinv
    · split
      · exact hinv
      · split
        · exact hinv
        · split
          · exact hinv
          · split
            · exact hinv
            · split
              · exact hinv
              · rename_i hsv
                have := ratings_save hsv hinv
                exact this
  | account caller =>
    unfold deleteAccount
    split
    · exact hinv
    · intro x hx
      exact hinv x (List.mem_filter.mp hx).1

/-! ## Lemmas on feedback and update -/

theorem postFeedback_owner (db : Db) (now id : Nat) (caller : CivicUser) (body : FeedbackBody)
    (owner : User) (reg : Registration) (event : Event)
    (hu : findUserByCivicId db caller.id = some owner)
    (hr : findRegistrationById db id = some reg) (hown : reg.user = owner.id)
    (he : findEventById db reg.event = some event) :
    postFeedback db now caller id body =
      if event.endDate > now then (.feedbackBeforeEventEnds, db)
      else
        match Registration.save db now reg
            { reg with
              feedback :=
                { rating := body.rating, comments := body.comments,
                  wouldRecommend := body.wouldRecommend,
                  improvements := body.improvements, submittedAt := some now } } with
        | none => (.failedToSubmitFeedback, db)
        | some (_, db1) => (.feedbackSubmitted, db1) := by
  unfold postFeedback
  rw [hu]
  simp only
  rw [hr]
  simp only
  rw [if_neg (by simp [hown]), he]

theorem findRegistrationById_updateFirst_other (db : Db) (id other : Nat)
    (f : Registration → Registration) (hf : ∀ r, (f r).id = r.id) (hne : other ≠ id)
    (users : List User) (events : List Event) :
    findRegistrationById
      { users := users, events := events,
        registrations := updateFirst (fun x => x.id == id) f db.registrations } other
      = findRegistrationById db other := by
  unfold findRegistrationById
  apply updateFirst_find?_other
  · intro x
    simp [hf x]
  · intro x hx
    have : x.id = id := by simpa using hx
    simp [this, Ne.symm hne]

theorem EventStatus.eq_published_of_str (st : EventStatus) (h : st.str = "published") :
    st = .published := by
  cases st <;> first | rfl | exact absurd h (by decide)

/-! ## Lemmas on the hooks, the slug and the pagination -/

theorem foldl_add_eq_sum {α : Type} (f : α → Int) (l : List α) (a : Int) :
    l.foldl (fun total x => total + f x) a = a + (l.map f).sum := by
  induction l generalizing a with
  | nil => simp
  | cons x xs ih =>
    simp only [List.foldl_cons, List.map_cons, List.sum_cons]
    rw [ih]
    omega

theorem ceilDiv_le_iff (total limit n : Nat) (hl : 0 < limit) :
    ceilDiv total limit ≤ n ↔ total ≤ n * limit := by
  unfold ceilDiv
  rw [Nat.div_le_iff_le_mul_add_pred hl, Nat.mul_comm limit n]
  generalize n * limit = m
  omega

theorem ceilDiv_eq_ceil (total limit : Nat) (hl : 0 < limit) :
    ceilDiv total limit = ⌈(total : ℚ) / (limit : ℚ)⌉₊ := by
  apply eq_of_forall_ge_iff
  intro n
  rw [ceilDiv_le_iff total limit n hl, Nat.ceil_le,
    div_le_iff₀ (by exact_mod_cast hl : (0 : ℚ) < (limit : ℚ))]
  exact_mod_cast Iff.rfl

theorem stripLeadingDash_cons (c : Char) (cs : List Char) :
    stripLeadingDash (c :: cs) = if c = '-' then cs else c :: cs := by
  unfold stripLeadingDash
  split
  · rename_i h
    simp only [List.cons.injEq] at h
    simp [h.1, h.2]
  · rename_i h
    split
    · rename_i hc
      exact absurd (by rw [hc]) (h cs)
    · rfl

theorem isSlugChar_ne_dash {c : Char} (h : isSlugChar c = true) : c ≠ '-' := by
  intro hc
  subst hc
  exact absurd h (by decide)

theorem replaceRuns_true_strip (l : List Char) :
    stripLeadingDash (replaceRuns true l) = replaceRuns true l := by
  induction l with
  | nil => rfl
  | cons c cs ih =>
    by_cases hc : isSlugChar c = true
    · simp only [replaceRuns, hc, if_true, stripLeadingDash_cons, if_neg (isSlugChar_ne_dash hc)]
    · simp only [replaceRuns, hc, Bool.false_eq_true, if_false, if_true]
      exact ih

theorem replaceRuns_false_strip (l : List Char) :
    stripLeadingDash (replaceRuns false l) = replaceRuns true l := by
  cases l with
  | nil => rfl
  | cons c cs =>
    by_cases hc : isSlugChar c = true
    · simp only [replaceRuns, hc, if_true, stripLeadingDash_cons, if_neg (isSlugChar_ne_dash hc)]
    · simp [replaceRuns, hc, stripLeadingDash_cons]

theorem stripTrailing_cons (c : Char) (l : List Char) (hl : l ≠ []) :
    (stripLeadingDash (c :: l).reverse).reverse = c :: (stripLeadingDash l.reverse).reverse := by
  have hr : l.reverse ≠ [] := by simpa using hl
  obtain ⟨y, ys, hy⟩ := List.exists_cons_of_ne_nil hr
  rw [List.reverse_cons, hy, List.cons_append, stripLeadingDash_cons, stripLeadingDash_cons]
  split <;> simp

theorem replaceRuns_true_head (l : List Char) :
    replaceRuns true l = [] ∨ ∃ c cs, isSlugChar c = true ∧ replaceRuns true l = c :: cs := by
  induction l with
  | nil => exact Or.inl rfl
  | cons c cs ih =>
    by_cases hc : isSlugChar c = true
    · exact Or.inr ⟨c, replaceRuns false cs, hc, by simp [replaceRuns, hc]⟩
    · simpa [replaceRuns, hc] using ih

theorem blocks_cons_out (c : Char) (l : List Char) (hc : isSlugChar c = false) :
    ((c :: l).splitOnP (fun x => !isSlugChar x)).filter (fun w => !w.isEmpty)
      = (l.splitOnP (fun x => !isSlugChar x)).filter (fun w => !w.isEmpty) := by
  rw [List.splitOnP_cons]
  simp [hc]

theorem blocks_cons_in (c : Char) (l : List Char) (hc : isSlugChar c = true) :
    ∃ h t, l.splitOnP (fun x => !isSlugChar x) = h :: t ∧
      ((c :: l).splitOnP (fun x => !isSlugChar x)).filter (fun w => !w.isEmpty)
        = (c :: h) :: t.filter (fun w => !w.isEmpty) := by
  obtain ⟨h, t, ht⟩ := List.exists_cons_of_ne_nil (List.splitOnP_ne_nil (fun x => !isSlugChar x) l)
  refine ⟨h, t, ht, ?_⟩
  rw [List.splitOnP_cons, ht]
  simp [hc]

theorem blocks_head (c : Char) (l : List Char) (h : List Char) (t : List (List Char))
    (ht : (c :: l).splitOnP (fun x => !isSlugChar x) = h :: t) :
    (isSlugChar c = false → h = []) ∧ (isSlugChar c = true → h ≠ []) := by
  rw [List.splitOnP_cons] at ht
  constructor
  · intro hc
    simp [hc] at ht
    exact ht.1
  · intro hc
    obtain ⟨h0, t0, h0t⟩ :=
      List.exists_cons_of_ne_nil (List.splitOnP_ne_nil (fun x => !isSlugChar x) l)
    rw [h0t] at ht
    simp [hc] at ht
    rw [← ht.1]
    simp

theorem intercalate_cons_cons (sep : List Char) (c : Char) (h : List Char)
    (t : List (List Char)) :
    List.intercalate sep ((c :: h) :: t) = c :: List.intercalate sep (h :: t) := by
  cases t <;> simp [List.intercalate]

theorem intercalate_eq_nil (sep : List Char) (ws : List (List Char))
    (hne : ∀ w ∈ ws, w ≠ []) (h : List.intercalate sep ws = []) : ws = [] := by
  cases ws with
  | nil => rfl
  | cons w t =>
    exfalso
    have hw := hne w (by simp)
    obtain ⟨x, xs, hx⟩ := List.exists_cons_of_ne_nil hw
    subst hx
    rw [intercalate_cons_cons] at h
    simp at h

/-- Removing a trailing dash from `replaceRuns true l` gives the maximal blocks of `[a-z0-9]`
characters of `l` joined by single dashes. -/
theorem stripTrailing_replaceRuns (l : List Char) :
    (stripLeadingDash (replaceRuns true l).reverse).reverse
      = List.intercalate ['-']
          ((l.splitOnP (fun x => !isSlugChar x)).filter (fun w => !w.isEmpty)) := by
  induction l with
  | nil => simp [replaceRuns, stripLeadingDash, List.intercalate]
  | cons c l ih =>
    by_cases hc : isSlugChar c = true
    · obtain ⟨h, t, ht, hW⟩ := blocks_cons_in c l hc
      rw [hW]
      have hstep : replaceRuns true (c :: l) = c :: replaceRuns false l := by
        simp [replaceRuns, hc]
      rw [hstep]
      cases l with
      | nil =>
        simp only [List.splitOnP_nil, List.cons.injEq] at ht
        obtain ⟨h1, h2⟩ := ht
        subst h1 h2
        simp [replaceRuns, stripLeadingDash_cons, isSlugChar_ne_dash hc, List.intercalate]
      | cons d l1 =>
        by_cases hd : isSlugChar d = true
        · have hne : replaceRuns false (d :: l1) ≠ [] := by simp [replaceRuns, hd]
          rw [stripTrailing_cons c _ hne]
          have heq : replaceRuns false (d :: l1) = replaceRuns true (d :: l1) := by
            simp [replaceRuns, hd]
          rw [heq, ih, ht]
          have hh := (blocks_head d l1 h t ht).2 hd
          have hf : (h :: t).filter (fun w => !w.isEmpty)
              = h :: t.filter (fun w => !w.isEmpty) := by
            cases h with
            | nil => exact absurd rfl hh
            | cons a as => simp
          rw [hf, intercalate_cons_cons]
        · have hd0 : isSlugChar d = false := by simpa using hd
          have hh := (blocks_head d l1 h t ht).1 hd0
          subst hh
          have hfilter : ((d :: l1).splitOnP (fun x => !isSlugChar x)).filter
              (fun w => !w.isEmpty) = t.filter (fun w => !w.isEmpty) := by
            rw [ht]
            simp
          rw [hfilter] at ih
          have hrf : replaceRuns false (d :: l1) = '-' :: replaceRuns true (d :: l1) := by
            simp [replaceRuns, hd0]
          rw [hrf, stripTrailing_cons c _ (by simp)]
          rcases replaceRuns_true_head (d :: l1) with hnil | ⟨x, xs, hx, hxs⟩
          · rw [hnil] at ih ⊢
            have hnil2 : t.filter (fun w => !w.isEmpty) = [] := by
              apply intercalate_eq_nil ['-']
              · intro w hw
                have := (List.mem_filter.mp hw).2
                intro hwn
                subst hwn
                simp at this
              · rw [← ih]
                simp [stripLeadingDash]
            rw [hnil2]
            simp [stripLeadingDash_cons, List.intercalate]
          · have hne : replaceRuns true (d :: l1) ≠ [] := by rw [hxs]; simp
            rw [stripTrailing_cons '-' _ hne, ih]
            have hne2 : t.filter (fun w => !w.isEmpty) ≠ [] := by
              intro hnil
              rw [hnil, hxs] at ih
              by_cases hxe : xs = []
              · subst hxe
                simp [stripLeadingDash_cons, isSlugChar_ne_dash hx, List.intercalate] at ih
              · rw [stripTrailing_cons x xs hxe] at ih
                simp [List.intercalate] at ih
            obtain ⟨w, ws, hws⟩ := List.exists_cons_of_ne_nil hne2
            rw [hws]
            simp [List.intercalate]
    · have hc0 : isSlugChar c = false := by simpa using hc
      rw [blocks_cons_out c l hc0, ← ih]
      simp [replaceRuns, hc0]

theorem stripDashes_replaceRuns (l : List Char) :
    stripDashes (replaceRuns false l)
      = List.intercalate ['-']
          ((l.splitOnP (fun x => !isSlugChar x)).filter (fun w => !w.isEmpty)) := by
  unfold stripDashes
  rw [replaceRuns_false_strip, stripTrailing_replaceRuns]

/-! ## Lemmas on create followed by cancel -/

theorem updateFirst_mem_of_find {α : Type} (p : α → Bool) (f : α → α) (l : List α) (x : α)
    (h : l.find? p = some x) : f x ∈ updateFirst p f l := by
  induction l with
  | nil => simp at h
  | cons a as ih =>
    by_cases ha : p a = true
    · simp only [List.find?_cons, ha, Option.some.injEq] at h
      subst h
      simp [updateFirst, ha]
    · simp only [List.find?_cons, ha] at h
      simp only [updateFirst, ha, Bool.false_eq_true, if_false, List.mem_cons]
      exact Or.inr (ih h)

theorem updateFirst_cancel {α : Type} (p : α → Bool) (f g : α → α) (l : List α)
    (hp : ∀ x, p x = true → p (f x) = true)
    (h : ∀ x, l.find? p = some x → g (f x) = x) :
    updateFirst p g (updateFirst p f l) = l := by
  induction l with
  | nil => rfl
  | cons a as ih =>
    by_cases ha : p a = true
    · have h1 := h a (by simp [List.find?_cons, ha])
      simp only [updateFirst, ha, if_true, hp a ha, h1]
    · simp only [updateFirst, ha, Bool.false_eq_true, if_false, List.cons.injEq, true_and]
      apply ih
      intro x hx
      exact h x (by simpa [List.find?_cons, ha] using hx)

theorem find?_append_none {α : Type} (p : α → Bool) (l : List α) (x : α)
    (h : l.find? p = none) (hx : p x = true) : (l ++ [x]).find? p = some x := by
  rw [List.find?_append, h]
  simp [hx]

theorem filter_append_singleton_out {α : Type} (q : α → Bool) (l : List α) (x : α)
    (hl : ∀ y ∈ l, q y = true) (hx : q x = false) : (l ++ [x]).filter q = l := by
  rw [List.filter_append, List.filter_eq_self.mpr hl]
  simp [hx]

theorem updateFirst_append_last {α : Type} (p : α → Bool) (f : α → α) (l : List α) (x : α)
    (hl : ∀ y ∈ l, p y = false) (hx : p x = true) :
    updateFirst p f (l ++ [x]) = l ++ [f x] := by
  induction l with
  | nil => simp [updateFirst, hx]
  | cons a as ih =>
    have ha := hl a (by simp)
    simp only [List.cons_append, updateFirst, ha, Bool.false_eq_true, if_false,
      List.cons.injEq, true_and]
    exact ih (fun y hy => hl y (by simp [hy]))

/-! ## Claims -/

/-- C1 (code bug): the invariant `currentVolunteers = number of volunteer summaries with status
registered, confirmed or attended` does not survive a create, nor a repeated cancel.  Event E
starts consistent (0 and 0); after user A registers as volunteer the handler has pushed a
summary with the Registration status `approved` and incremented the counter, so
`currentVolunteers = 1` while the active count is 0; the counters hook of the Event schema would
compute 0 there.  After A cancels, the event is consistent again (0 and 0, no summary); a second
cancel of the same registration succeeds and decrements the counter to -1.  (The create has
persisted the registration and done both projection updates when it answers; its answer is 400
`Registration failed`, because `res.json` throws on the populated user, see `sendPopulated`.) -/
theorem volunteer_counter_drifts_on_create :
    (findEventById dbE 100).map (fun e => (e.currentVolunteers, activeVolunteerCount e))
      = some (0, 0) ∧
    (postRegistration dbE 10 1001 callerA volunteerBody).1 = .registrationFailedOnReply ∧
    (findRegistrationById dbVolA 1001).map (fun r => (r.user, r.event, r.status))
      = some (1, 100, .approved) ∧
    (findEventById dbVolA 100).map (fun e => e.volunteers.map (fun v => (v.userId, v.status)))
      = some [(1, .approved)] ∧
    (findEventById dbVolA 100).map (fun e => (e.currentVolunteers, activeVolunteerCount e))
      = some (1, 0) ∧
    (findEventById dbVolA 100).map (fun e => (eventPreSave true e).currentVolunteers)
      = some 0 ∧
    (deleteRegistration dbVolA 20 callerA 1001).1 = .registrationCancelled ∧
    (findEventById dbVolACancelled 100).map
        (fun e => (e.currentVolunteers, activeVolunteerCount e, e.volunteers.length))
      = some (0, 0, 0) ∧
    (deleteRegistration dbVolACancelled 21 callerA 1001).1 = .registrationCancelled ∧
    (findEventById (deleteRegistration dbVolACancelled 21 callerA 1001).2 100).map
        (fun e => (e.currentVolunteers, activeVolunteerCount e))
      = some (-1, 0) := by
  decide

/-- C2 (code bug): `currentFunding` does not follow an approval.  User A creates a partner
registration with `fundingAmount = 1000` (pending: funding 0, sum over active summaries 0); the
organizer approves it; the embedded summary is now `approved` with amount 1000, yet
`currentFunding` is still 0, where the counters hook of the Event schema would compute 1000.
(Create and approve have done their writes when they answer; their answers are 400 `Registration
failed` and 500 `Failed to approve registration`, because `res.json` throws on the populated
user, see `sendPopulated`.) -/
theorem funding_not_updated_on_approve :
    (postRegistration dbE 10 1001 callerA partnerBody).1 = .registrationFailedOnReply ∧
    (findRegistrationById dbPartnerA 1001).map (fun r => (r.type, r.status))
      = some (.partner, .pending) ∧
    (findEventById dbPartnerA 100).map (fun e => (e.currentFunding, activeFunding e))
      = some (0, 0) ∧
    (postApprove dbPartnerA 20 callerO 1001 (some "welcome")).1 = .failedToApproveOnReply ∧
    (findRegistrationById dbPartnerApproved 1001).map (fun r => r.status) = some .approved ∧
    (findEventById dbPartnerApproved 100).map
        (fun e => e.partners.map (fun p => (p.userId, p.status, p.fundingAmount)))
      = some [(1, .approved, some 1000)] ∧
    (findEventById dbPartnerApproved 100).map (fun e => (e.currentFunding, activeFunding e))
      = some (0, 1000) ∧
    (findEventById dbPartnerApproved 100).map (fun e => (eventPreSave true e).currentFunding)
      = some 1000 := by
  decide

/-- C3 (amended): after a create for (user, event) that went through (it persisted the
Registration and did its projection updates, whichever of its two final replies it then sent), a
second create by the same user for the same event changes nothing in the database and is
answered by the first failing check of the handler: InvalidState when the event does not accept
the type of the second request, and Conflict (`alreadyRegistered`) otherwise, in particular
whenever the second request has the type of the first.  Exactly one Registration of the pair
exists afterwards. -/
theorem repeated_create_rejected (db : Db) (now1 id1 : Nat) (caller1 : CivicUser)
    (body1 : CreateBody) (r1 : Reply) (db1 : Db) (now2 id2 : Nat) (caller2 : CivicUser)
    (body2 : CreateBody)
    (h1 : postRegistration db now1 id1 caller1 body1 = (r1, db1))
    (hw : r1 = .registrationSuccessful ∨ r1 = .registrationFailedOnReply)
    (hcaller : caller2.id = caller1.id) (hevent : body2.eventId = body1.eventId) :
    ∃ user event1,
      findUserByCivicId db caller1.id = some user ∧
      findEventById db1 body1.eventId = some event1 ∧
      postRegistration db1 now2 id2 caller2 body2 =
        (if body2.type = .volunteer ∧ event1.isAcceptingVolunteers = false then
            Reply.notAcceptingVolunteers
          else if body2.type = .partner ∧ event1.isAcceptingPartners = false then
            Reply.notAcceptingPartners
          else Reply.alreadyRegistered, db1) ∧
      (body2.type = body1.type →
        postRegistration db1 now2 id2 caller2 body2 = (.alreadyRegistered, db1)) ∧
      (db1.registrations.filter
        (fun r => r.user == user.id && r.event == body1.eventId)).length = 1 ∧
      Reply.kind .alreadyRegistered = some .conflict ∧
      Reply.kind .notAcceptingVolunteers = some .invalidState ∧
      Reply.kind .notAcceptingPartners = some .invalidState := by
  obtain ⟨user, event, reg, user1, event1, hu, he, hv, hp, hr, hregs, hru, hre, hu1, hid1, he1,
    hav, hap⟩ := postRegistration_wrote_frame h1 hw
  have hfind : findRegistrationOf db1 user1.id body2.eventId = some reg := by
    unfold findRegistrationOf at hr ⊢
    rw [hregs, List.find?_append, hid1, hevent, hr]
    simp [hru, hre]
  have hcount : (db1.registrations.filter
      (fun r => r.user == user.id && r.event == body1.eventId)).length = 1 := by
    unfold findRegistrationOf at hr
    rw [hregs, List.filter_append]
    have : db.registrations.filter (fun r => r.user == user.id && r.event == body1.eventId)
        = [] := by
      rw [List.filter_eq_nil_iff]
      intro a ha
      exact (List.find?_eq_none.mp hr) a ha
    rw [this]
    simp [hru, hre]
  have hsecond : postRegistration db1 now2 id2 caller2 body2 =
      (if body2.type = .volunteer ∧ event1.isAcceptingVolunteers = false then
          Reply.notAcceptingVolunteers
        else if body2.type = .partner ∧ event1.isAcceptingPartners = false then
          Reply.notAcceptingPartners
        else Reply.alreadyRegistered, db1) := by
    unfold postRegistration
    rw [hcaller, hu1]
    simp only
    rw [hevent, he1]
    simp only
    rw [← hevent, hfind]
    split
    · rfl
    · split <;> rfl
  refine ⟨user, event1, hu, he1, hsecond, ?_, hcount, rfl, rfl, rfl⟩
  intro ht
  rw [hsecond, ht, hav, hap, if_neg hv, if_neg hp]

/-- C3, witness: user A registers as volunteer for event E, then asks to register as partner. -/
theorem repeated_create_rejected_witness :
    ∃ user event1,
      findUserByCivicId dbE callerA.id = some user ∧
      findEventById dbVolA volunteerBody.eventId = some event1 ∧
      postRegistration dbVolA 11 1002 callerA partnerBody =
        (if partnerBody.type = .volunteer ∧ event1.isAcceptingVolunteers = false then
            Reply.notAcceptingVolunteers
          else if partnerBody.type = .partner ∧ event1.isAcceptingPartners = false then
            Reply.notAcceptingPartners
          else Reply.alreadyRegistered, dbVolA) ∧
      (partnerBody.type = volunteerBody.type →
        postRegistration dbVolA 11 1002 callerA partnerBody = (.alreadyRegistered, dbVolA)) ∧
      (dbVolA.registrations.filter
        (fun r => r.user == user.id && r.event == volunteerBody.eventId)).length = 1 ∧
      Reply.kind .alreadyRegistered = some .conflict ∧
      Reply.kind .notAcceptingVolunteers = some .invalidState ∧
      Reply.kind .notAcceptingPartners = some .invalidState :=
  repeated_create_rejected dbE 10 1001 callerA volunteerBody .registrationFailedOnReply dbVolA
    11 1002 callerA partnerBody (by decide) (Or.inr rfl) rfl rfl

/-- C3, counterexample: event E accepts volunteers but no partners; user A registers as
volunteer (the registration is persisted), then sends a partner create for the same event: the
answer is "Event is not accepting partners" (InvalidState), not a Conflict. -/
theorem repeated_create_not_conflict :
    (postRegistration dbNoPartners 10 1001 callerA volunteerBody).2.registrations.map
        (fun r => (r.user, r.event, r.status)) = [(1, 100, .approved)] ∧
    (postRegistration (postRegistration dbNoPartners 10 1001 callerA volunteerBody).2
        11 1002 callerA partnerBody).1 = .notAcceptingPartners ∧
    (postRegistration (postRegistration dbNoPartners 10 1001 callerA volunteerBody).2
        11 1002 callerA partnerBody).1.kind ≠ some .conflict := by
  decide

/-- C4: a volunteer create against an event that accepts volunteers, by a user without a
registration for it, is answered with CapacityExceeded when `currentVolunteers >= maxVolunteers`
and leaves the whole database (Registrations, Event counter and summaries, User lists) as it
was. -/
theorem create_at_capacity_rejected (db : Db) (now freshId : Nat) (caller : CivicUser)
    (body : CreateBody) (user : User) (event : Event)
    (hu : findUserByCivicId db caller.id = some user)
    (he : findEventById db body.eventId = some event)
    (ht : body.type = .volunteer)
    (ha : event.isAcceptingVolunteers = true)
    (hr : findRegistrationOf db user.id body.eventId = none)
    (hc : event.currentVolunteers ≥ event.maxVolunteers) :
    postRegistration db now freshId caller body = (.volunteerCapacityReached, db) ∧
      Reply.kind .volunteerCapacityReached = some .capacityExceeded := by
  refine ⟨?_, rfl⟩
  simp [postRegistration, hu, he, ht, ha, hr, hc]

/-- C4, witness: user C asks for a place on event E once A and B hold its two places. -/
theorem create_at_capacity_rejected_witness :
    postRegistration dbVolAB 12 1003 callerC volunteerBody = (.volunteerCapacityReached, dbVolAB) ∧
      Reply.kind .volunteerCapacityReached = some .capacityExceeded :=
  create_at_capacity_rejected dbVolAB 12 1003 callerC volunteerBody userC
    eventEFull (by decide) (by decide) (by decide) (by decide) (by decide) (by decide)

/-- C5: a volunteer create that goes through (it persists the Registration, whichever of its
two final replies it then sends) raises `currentVolunteers` of the event by exactly 1 and appends
exactly one volunteer summary, of the calling user; and on event E (`maxVolunteers = 2`, no
volunteers) the create of A persists a registration with status approved and gives count 1, the
create of B gives count 2, and the create of C fails with CapacityExceeded leaving the database,
hence the count 2, unchanged.  (The creates of A and B are answered 400 `Registration failed`
after their writes, because `res.json` throws on the populated user, see `sendPopulated`.) -/
theorem volunteer_create_counts_one :
    (∀ (db : Db) (now freshId : Nat) (caller : CivicUser) (body : CreateBody) (r : Reply)
        (dbf : Db),
      body.type = .volunteer →
      postRegistration db now freshId caller body = (r, dbf) →
      (r = .registrationSuccessful ∨ r = .registrationFailedOnReply) →
      ∃ user event event1 summary,
        findUserByCivicId db caller.id = some user ∧
        findEventById db body.eventId = some event ∧
        findEventById dbf body.eventId = some event1 ∧
        event1.currentVolunteers = event.currentVolunteers + 1 ∧
        event1.volunteers = event.volunteers ++ [summary] ∧
        summary.userId = user.id) ∧
    ((postRegistration dbE 10 1001 callerA volunteerBody).1 = .registrationFailedOnReply ∧
      (findRegistrationOf dbVolA 1 100).map (fun r => r.status) = some .approved ∧
      (findEventById dbVolA 100).map (fun e => e.currentVolunteers) = some 1 ∧
      (postRegistration dbVolA 11 1002 callerB volunteerBody).1 = .registrationFailedOnReply ∧
      (findRegistrationOf dbVolAB 2 100).map (fun r => r.status) = some .approved ∧
      (findEventById dbVolAB 100).map (fun e => e.currentVolunteers) = some 2 ∧
      postRegistration dbVolAB 12 1003 callerC volunteerBody
        = (.volunteerCapacityReached, dbVolAB) ∧
      Reply.kind .volunteerCapacityReached = some .capacityExceeded) := by
  refine ⟨?_, by decide⟩
  intro db now freshId caller body r dbf ht h hw
  obtain ⟨user, event, reg, dbs, hu, he, _, _, _, _, hs, hcase⟩ := postRegistration_wrote h hw
  obtain ⟨_, _, hdbs⟩ := saveNew_spec hs
  rcases hcase with ⟨_, hdbf⟩ | ⟨hp, _⟩
  · have hfind := findEventById_updateEventById_same dbs body.eventId
      (fun e => { e with
        volunteers := e.volunteers ++
          [{ userId := user.id, registeredAt := now,
             role := body.volunteerDetails.bind (fun d => d.preferredRole),
             status := reg.status }]
        currentVolunteers := e.currentVolunteers + 1 }) (fun _ => rfl)
    have he2 : findEventById dbs body.eventId = some event := by
      subst hdbs
      exact he
    rw [he2, Option.map_some'] at hfind
    subst hdbf
    exact ⟨user, event, _, _, hu, he, hfind, rfl, rfl, rfl⟩
  · rw [ht] at hp
    exact absurd hp (by decide)

/-- C5, witness: the general part at the create of user A on event E. -/
theorem volunteer_create_counts_one_witness :
    ∃ user event event1 summary,
        findUserByCivicId dbE callerA.id = some user ∧
        findEventById dbE volunteerBody.eventId = some event ∧
        findEventById dbVolA volunteerBody.eventId = some event1 ∧
        event1.currentVolunteers = event.currentVolunteers + 1 ∧
        event1.volunteers = event.volunteers ++ [summary] ∧
        summary.userId = user.id :=
  volunteer_create_counts_one.1 dbE 10 1001 callerA volunteerBody .registrationFailedOnReply
    dbVolA (by decide) (by decide) (Or.inr rfl)

/-- C6: a create that goes through (whichever of its two final replies it then sends)
persists exactly one new Registration, whose type is the one requested (volunteer or partner),
whose status is approved for a volunteer and pending for a partner, and whose statusHistory is
empty, for every request body (the keys `status` and `statusHistory` of the body included). -/
theorem create_initial_status (db : Db) (now freshId : Nat) (caller : CivicUser)
    (body : CreateBody) (r : Reply) (dbf : Db)
    (h : postRegistration db now freshId caller body = (r, dbf))
    (hw : r = .registrationSuccessful ∨ r = .registrationFailedOnReply) :
    ∃ reg, dbf.registrations = db.registrations ++ [reg] ∧
      reg.type = body.type ∧
      (body.type = .volunteer ∨ body.type = .partner) ∧
      (body.type = .volunteer → reg.status = .approved) ∧
      (body.type = .partner → reg.status = .pending) ∧
      reg.statusHistory = [] := by
  obtain ⟨user, event, reg, dbs, hu, he, _, _, _, _, hs, hcase⟩ := postRegistration_wrote h hw
  obtain ⟨_, hreg, hdbs⟩ := saveNew_spec hs
  refine ⟨reg, ?_, ?_, ?_, ?_, ?_, ?_⟩
  · rcases hcase with ⟨_, hdbf⟩ | ⟨_, hdbf⟩ <;> subst hdbf hdbs <;> rfl
  · subst hreg
    simp only [registrationPreSave, registrationData]
    simp
    split <;> rfl
  · rcases hcase with ⟨ht, _⟩ | ⟨ht, _⟩
    · exact Or.inl ht
    · exact Or.inr ht
  · intro ht
    subst hreg
    simp [registrationPreSave, registrationData, ht]
  · intro ht
    subst hreg
    simp [registrationPreSave, registrationData, ht]
  · subst hreg
    simp only [registrationPreSave, registrationData]
    simp
    split <;> rfl

/-- C6, witness: the partner create of user A on event E. -/
theorem create_initial_status_witness :
    ∃ reg, dbPartnerA.registrations = dbE.registrations ++ [reg] ∧
      reg.type = partnerBody.type ∧
      (partnerBody.type = .volunteer ∨ partnerBody.type = .partner) ∧
      (partnerBody.type = .volunteer → reg.status = .approved) ∧
      (partnerBody.type = .partner → reg.status = .pending) ∧
      reg.statusHistory = [] :=
  create_initial_status dbE 10 1001 callerA partnerBody .registrationFailedOnReply dbPartnerA
    (by decide) (Or.inr rfl)

/-- C7: for a create by a caller with a User record against an existing event: a volunteer
request on an event with `isAcceptingVolunteers = false`, and a partner request on an event with
`isAcceptingPartners = false`, fail with InvalidState and leave the database unchanged; when the
flag of the requested type is true the call is never refused with InvalidState, whatever the
flag of the other type is. -/
theorem create_not_accepting_rejected (db : Db) (now freshId : Nat) (caller : CivicUser)
    (body : CreateBody) (user : User) (event : Event)
    (hu : findUserByCivicId db caller.id = some user)
    (he : findEventById db body.eventId = some event) :
    (body.type = .volunteer → event.isAcceptingVolunteers = false →
      postRegistration db now freshId caller body = (.notAcceptingVolunteers, db)) ∧
    (body.type = .partner → event.isAcceptingPartners = false →
      postRegistration db now freshId caller body = (.notAcceptingPartners, db)) ∧
    (body.type = .volunteer → event.isAcceptingVolunteers = true →
      (postRegistration db now freshId caller body).1.kind ≠ some .invalidState) ∧
    (body.type = .partner → event.isAcceptingPartners = true →
      (postRegistration db now freshId caller body).1.kind ≠ some .invalidState) ∧
    Reply.kind .notAcceptingVolunteers = some .invalidState ∧
    Reply.kind .notAcceptingPartners = some .invalidState := by
  refine ⟨?_, ?_, ?_, ?_, rfl, rfl⟩
  · intro ht hf
    simp [postRegistration, hu, he, ht, hf]
  · intro ht hf
    simp [postRegistration, hu, he, ht, hf]
  · intro ht hf
    simp only [postRegistration, hu, he, ht, hf]
    simp only [Bool.true_eq_false, and_false, if_false, reduceCtorEq, false_and]
    split
    · simp [Reply.kind]
    · split
      · simp [Reply.kind]
      · split
        · simp [Reply.kind]
        · exact sendPopulated_kind_ne _ _ _ _ _ (by decide) (by decide)
  · intro ht hf
    simp only [postRegistration, hu, he, ht, hf]
    simp only [Bool.true_eq_false, and_false, if_false, reduceCtorEq, false_and]
    split
    · simp [Reply.kind]
    · split
      · simp [Reply.kind]
      · exact sendPopulated_kind_ne _ _ _ _ _ (by decide) (by decide)

/-- C7, witness: user A sends a partner create for an event that accepts only volunteers. -/
theorem create_not_accepting_rejected_witness :
    postRegistration dbNoPartners 10 1001 callerA partnerBody
      = (.notAcceptingPartners, dbNoPartners) :=
  (create_not_accepting_rejected dbNoPartners 10 1001 callerA partnerBody userA
    { eventE with isAcceptingPartners := false } (by decide) (by decide)).2.1
    (by decide) (by decide)

/-- C8 (code bug): approve and reject append two history entries, not one.  On the pending
partner registration of user A (empty history) approve saves the entry written by the method
(actor, notes) followed by the entry written by the save hook; reject does the same; check-in
and cancel, which do not write an entry themselves, save exactly one.  (Approve and reject have
saved the registration when they answer; their answers are 500 `Failed to approve registration`
and `Failed to reject registration`, because `res.json` throws on the populated user, see
`sendPopulated`.) -/
theorem approve_appends_two_history_entries :
    (findRegistrationById dbPartnerA 1001).map (fun r => (r.status, r.statusHistory))
      = some (.pending, []) ∧
    (postApprove dbPartnerA 20 callerO 1001 (some "welcome")).1 = .failedToApproveOnReply ∧
    (findRegistrationById dbPartnerApproved 1001).map (fun r => r.status) = some .approved ∧
    (findRegistrationById dbPartnerApproved 1001).map (fun r => r.statusHistory)
      = some [{ status := .approved, changedAt := 20, changedBy := some 9,
                notes := some "welcome" },
              { status := .approved, changedAt := 20, changedBy := none,
                notes := some "Status changed to approved" }] ∧
    (postReject dbPartnerA 20 callerO 1001 none).1 = .failedToRejectOnReply ∧
    (findRegistrationById dbPartnerRejected 1001).map (fun r => r.status) = some .rejected ∧
    (findRegistrationById dbPartnerRejected 1001).map (fun r => r.statusHistory)
      = some [{ status := .rejected, changedAt := 20, changedBy := some 9,
                notes := some "Registration rejected" },
              { status := .rejected, changedAt := 20, changedBy := none,
                notes := some "Status changed to rejected" }] ∧
    (findRegistrationById (postCheckin dbPartnerA 20 callerO 1001 none none).2 1001).map
        (fun r => r.statusHistory)
      = some [{ status := .attended, changedAt := 20, changedBy := none,
                notes := some "Status changed to attended" }] ∧
    (findRegistrationById (deleteRegistration dbPartnerA 20 callerA 1001).2 1001).map
        (fun r => r.statusHistory)
      = some [{ status := .cancelled, changedAt := 20, changedBy := none,
                notes := some "Status changed to cancelled" }] := by
  decide

/-- C9 (amended): no transition table is consulted.  For a stored registration in any status
that passes the schema validators (`save()` validates the document) and whose owner has a User
record, approve by the organizer (partner registrations only) stores the status approved, reject
by the organizer stores rejected and cancel by the owner stores cancelled; approve and reject
leave the counters of every event (`currentVolunteers`, `currentFunding`, the partnership types,
`totalRegistrations`) unchanged.  Cancel answers 200; approve and reject answer 500 after their
writes, because `res.json` throws on the populated owner (see `sendPopulated`). -/
theorem status_set_from_any_state (db : Db) (now id : Nat) (reg : Registration)
    (event : Event) (organizer owner : CivicUser) (organizerUser ownerUser : User)
    (hr : findRegistrationById db id = some reg) (hv : reg.valid = true)
    (he : findEventById db reg.event = some event)
    (ho : event.organizerEmail = organizer.email)
    (hou : findUserByCivicId db organizer.id = some organizerUser)
    (hwu : findUserByCivicId db owner.id = some ownerUser)
    (hown : reg.user = ownerUser.id) :
    (∀ notes, reg.type = .partner →
      (postApprove db now organizer id notes).1 = .failedToApproveOnReply ∧
      (findRegistrationById (postApprove db now organizer id notes).2 id).map
        (fun r => r.status) = some .approved ∧
      (postApprove db now organizer id notes).2.events.map Event.counters
        = db.events.map Event.counters) ∧
    (∀ reason,
      (postReject db now organizer id reason).1 = .failedToRejectOnReply ∧
      (findRegistrationById (postReject db now organizer id reason).2 id).map
        (fun r => r.status) = some .rejected ∧
      (postReject db now organizer id reason).2.events.map Event.counters
        = db.events.map Event.counters) ∧
    ((deleteRegistration db now owner id).1 = .registrationCancelled ∧
      (findRegistrationById (deleteRegistration db now owner id).2 id).map
        (fun r => r.status) = some .cancelled) := by
  have hid := findRegistrationById_id hr
  have hsome : (findUserById db reg.user).isSome = true := by
    rw [hown]
    exact findUserById_of_civicId hwu
  refine ⟨?_, ?_, ?_⟩
  · intro notes ht
    obtain ⟨reg1, db1, hreg1, hdb1, hpost⟩ :=
      postApprove_ok db now organizer id notes reg event organizerUser hr hv he ho hou ht
    rw [hpost, if_pos hsome]
    refine ⟨rfl, ?_, ?_⟩
    · have hfind : findRegistrationById db1 id = some reg1 := by
        rw [hdb1]
        exact findRegistrationById_replace db id reg reg1 hr
          (by rw [hreg1, (registrationPreSave_user _ _ _ _).2.2.1]; exact hid) _ _
      have hst : reg1.status = .approved := by rw [hreg1, registrationPreSave_status]
      show (findRegistrationById db1 id).map (fun r => r.status) = some .approved
      rw [hfind, Option.map_some', hst]
    · show (eventSetPartnerStatus db1 event.id reg.user .approved (some now)).events.map
        Event.counters = _
      rw [eventSetPartnerStatus_counters, hdb1]
  · intro reason
    obtain ⟨reg1, db1, hreg1, hdb1, hpost⟩ :=
      postReject_ok db now organizer id reason reg event organizerUser hr hv he ho hou
    rw [hpost, if_pos hsome]
    refine ⟨rfl, ?_, ?_⟩
    · have hfind : findRegistrationById db1 id = some reg1 := by
        rw [hdb1]
        exact findRegistrationById_replace db id reg reg1 hr
          (by rw [hreg1, (registrationPreSave_user _ _ _ _).2.2.1]; exact hid) _ _
      have hst : reg1.status = .rejected := by rw [hreg1, registrationPreSave_status]
      show (findRegistrationById db1 id).map (fun r => r.status) = some .rejected
      rw [hfind, Option.map_some', hst]
    · show (eventSetPartnerStatus db1 event.id reg.user .rejected none).events.map
        Event.counters = _
      rw [eventSetPartnerStatus_counters, hdb1]
  · obtain ⟨reg1, db1, hreg1, hdb1, hreply, hregs⟩ :=
      deleteRegistration_ok db now owner id reg ownerUser hwu hr hv hown
    refine ⟨hreply, ?_⟩
    have hfind : findRegistrationById db1 id = some reg1 := by
      rw [hdb1]
      exact findRegistrationById_replace db id reg reg1 hr
        (by rw [hreg1, (registrationPreSave_user _ _ _ _).2.2.1]; exact hid) _ _
    have hst : reg1.status = .cancelled := by rw [hreg1, registrationPreSave_status]
    have : findRegistrationById (deleteRegistration db now owner id).2 id
        = findRegistrationById db1 id := by
      unfold findRegistrationById
      rw [hregs]
    rw [this, hfind, Option.map_some', hst]

/-- C9, witness: approval of the rejected partner registration of user A. -/
theorem status_set_from_any_state_witness :
    (postApprove dbPartnerRejected 30 callerO 1001 none).1 = .failedToApproveOnReply ∧
      (findRegistrationById (postApprove dbPartnerRejected 30 callerO 1001 none).2 1001).map
        (fun r => r.status) = some .approved ∧
      (postApprove dbPartnerRejected 30 callerO 1001 none).2.events.map Event.counters
        = dbPartnerRejected.events.map Event.counters :=
  (status_set_from_any_state dbPartnerRejected 30 1001 regRejectedA eventERejected callerO
    callerA userO
    userARejected
    (by decide) (by decide) (by decide) (by decide) (by decide) (by decide) (by decide)).1
    none (by decide)

/-- C9, counterexample: the partner registration of user A was rejected (a terminal state); the
organizer then approves it and its stored status becomes approved, a transition the table does
not allow. -/
theorem approve_leaves_terminal_state :
    (findRegistrationById dbPartnerRejected 1001).map (fun r => r.status) = some .rejected ∧
    specTerminal .rejected = true ∧
    (findRegistrationById (postApprove dbPartnerRejected 30 callerO 1001 none).2 1001).map
        (fun r => r.status) = some .approved ∧
    specTransitionAllowed .rejected .approved = false := by
  decide

/-- C10: for a caller whose email is the organizer email of the registration event: approve of
a registration that is not of type partner fails with InvalidState and leaves the database
unchanged; approve of a pending partner registration that passes the schema validators, by a
caller with a User record, stores the status approved, appends to the history the entry
(approved, now, caller user id, supplied notes or "Registration approved") ahead of the entry of
the save hook, and sets status approved and `approvedAt = now` on every partner summary of that
user embedded in the event.  After these writes the handler sends one of its two final replies:
500 `Failed to approve registration` when the user of the registration is stored (`res.json`
throws on the populated user, see `sendPopulated`). -/
theorem approve_by_organizer (db : Db) (now id : Nat) (caller : CivicUser)
    (notes : Option String) (reg : Registration) (event : Event)
    (hr : findRegistrationById db id = some reg)
    (he : findEventById db reg.event = some event)
    (ho : event.organizerEmail = caller.email) :
    (reg.type ≠ .partner →
      postApprove db now caller id notes = (.onlyPartnershipsRequireApproval, db) ∧
      Reply.kind .onlyPartnershipsRequireApproval = some .invalidState) ∧
    (∀ user, reg.type = .partner → reg.status = .pending → reg.valid = true →
      findUserByCivicId db caller.id = some user →
      ((postApprove db now caller id notes).1 = .partnershipApproved ∨
        (postApprove db now caller id notes).1 = .failedToApproveOnReply) ∧
      ((findUserById db reg.user).isSome = true →
        (postApprove db now caller id notes).1 = .failedToApproveOnReply) ∧
      (∃ reg1, findRegistrationById (postApprove db now caller id notes).2 id = some reg1 ∧
        reg1.status = .approved ∧
        reg1.statusHistory = reg.statusHistory ++
          [{ status := .approved, changedAt := now, changedBy := some user.id,
             notes := some (orDefault notes "Registration approved") },
           { status := .approved, changedAt := now, changedBy := none,
             notes := some "Status changed to approved" }]) ∧
      (∃ event1, findEventById (postApprove db now caller id notes).2 reg.event = some event1 ∧
        event1.partners = event.partners.map (fun elem =>
          if elem.userId = reg.user then
            { elem with status := .approved, approvedAt := some now }
          else elem))) := by
  refine ⟨?_, ?_⟩
  · intro ht
    refine ⟨?_, rfl⟩
    unfold postApprove
    rw [hr]
    simp only
    rw [he]
    simp only
    rw [if_neg (by simp [ho]), if_pos ht]
  · intro user ht hs hv hu
    have hid := findRegistrationById_id hr
    have heid := findEventById_id he
    obtain ⟨reg1, db1, hreg1, hdb1, hpost⟩ :=
      postApprove_ok db now caller id notes reg event user hr hv he ho hu ht
    rw [hpost]
    refine ⟨?_, ?_, ⟨reg1, ?_, ?_, ?_⟩, ?_⟩
    · show (if (findUserById db reg.user).isSome then Reply.failedToApproveOnReply
          else Reply.partnershipApproved) = _ ∨ _
      split
      · exact Or.inr rfl
      · exact Or.inl rfl
    · intro hsome
      exact if_pos hsome
    · show findRegistrationById db1 id = some reg1
      rw [hdb1]
      exact findRegistrationById_replace db id reg reg1 hr
        (by rw [hreg1, (registrationPreSave_user _ _ _ _).2.2.1]; exact hid) _ _
    · rw [hreg1, registrationPreSave_status]
    · rw [hreg1, registrationPreSave_existing, hs]
      simp [Status.str]
    · have he1 : findEventById db1 event.id = some event := by
        rw [hdb1, heid]
        exact he
      obtain ⟨event1, hf, hp⟩ :=
        findEventById_eventSetPartnerStatus db1 event.id reg.user .approved (some now) event he1
      refine ⟨event1, ?_, hp⟩
      rw [← heid]
      exact hf

/-- C10, witness: the organizer approves the pending partner registration of user A. -/
theorem approve_by_organizer_witness :
    (postApprove dbPartnerA 20 callerO 1001 (some "welcome")).1 = .failedToApproveOnReply ∧
      (∃ reg1, findRegistrationById (postApprove dbPartnerA 20 callerO 1001 (some "welcome")).2
          1001 = some reg1 ∧
        reg1.status = .approved ∧
        reg1.statusHistory = regPendingA.statusHistory ++
          [{ status := .approved, changedAt := 20, changedBy := some userO.id,
             notes := some (orDefault (some "welcome") "Registration approved") },
           { status := .approved, changedAt := 20, changedBy := none,
             notes := some "Status changed to approved" }]) ∧
      (∃ event1, findEventById (postApprove dbPartnerA 20 callerO 1001 (some "welcome")).2
          regPendingA.event = some event1 ∧
        event1.partners = eventEPending.partners.map (fun elem =>
          if elem.userId = regPendingA.user then
            { elem with status := .approved, approvedAt := some 20 }
          else elem)) := by
  have h := (approve_by_organizer dbPartnerA 20 1001 callerO (some "welcome") regPendingA
    eventEPending (by decide) (by decide) (by decide)).2 userO (by decide) (by decide)
    (by decide) (by decide)
  exact ⟨h.2.1 (by decide), h.2.2⟩


/-- C11: after an approve (respectively reject) of a partner registration of user u on event e
that went through (the handler did its writes, whichever of its two final replies it then
sent), the stored event e is the former one with its partner summaries mapped in place: the
summaries of u get status approved and `approvedAt = now` (respectively status rejected), every
other summary and every other field is the same; the User document of u is the former one with
the `partnershipEvents` entries of e mapped in place to the new status; every other event and
every other user is unchanged, and no document is added or removed. -/
theorem approve_reject_mirror_in_place (db : Db) (now : Nat) (caller : CivicUser) (id : Nat) :
    (∀ notes r dbf, postApprove db now caller id notes = (r, dbf) →
      (r = .partnershipApproved ∨ r = .failedToApproveOnReply) →
      ∃ reg event,
        findRegistrationById db id = some reg ∧ findEventById db reg.event = some event ∧
        findEventById dbf reg.event = some
          { event with
            partners := event.partners.map (fun elem =>
              if elem.userId = reg.user then
                { elem with status := .approved, approvedAt := some now }
              else elem) } ∧
        (∀ user, findUserById db reg.user = some user →
          findUserById dbf reg.user = some
            { user with
              partnershipEvents := user.partnershipEvents.map (fun elem =>
                if elem.eventId = reg.event then { elem with status := .approved }
                else elem) }) ∧
        (∀ eid, eid ≠ reg.event → findEventById dbf eid = findEventById db eid) ∧
        (∀ uid, uid ≠ reg.user → findUserById dbf uid = findUserById db uid) ∧
        dbf.events.length = db.events.length ∧ dbf.users.length = db.users.length) ∧
    (∀ reason r dbf, postReject db now caller id reason = (r, dbf) →
      (r = .partnershipRejected ∨ r = .failedToRejectOnReply) →
      ∃ reg event,
        findRegistrationById db id = some reg ∧ findEventById db reg.event = some event ∧
        findEventById dbf reg.event = some
          { event with
            partners := event.partners.map (fun elem =>
              if elem.userId = reg.user then { elem with status := .rejected } else elem) } ∧
        (∀ user, findUserById db reg.user = some user →
          findUserById dbf reg.user = some
            { user with
              partnershipEvents := user.partnershipEvents.map (fun elem =>
                if elem.eventId = reg.event then { elem with status := .rejected }
                else elem) }) ∧
        (∀ eid, eid ≠ reg.event → findEventById dbf eid = findEventById db eid) ∧
        (∀ uid, uid ≠ reg.user → findUserById dbf uid = findUserById db uid) ∧
        dbf.events.length = db.events.length ∧ dbf.users.length = db.users.length) := by
  refine ⟨?_, ?_⟩
  · intro notes r dbf h hw
    obtain ⟨reg, event, user, reg1, hr, he, _, _, _, _, hdbf⟩ := postApprove_inv h hw
    have heid := findEventById_id he
    have he2 : findEventById db event.id = some event := by rw [heid]; exact he
    have key := mirrors_frame db
      (updateFirst (fun x => x.id == reg.id) (fun _ => reg1) db.registrations) event reg.user
      .approved (some now) he2
    refine ⟨reg, event, hr, he, ?_⟩
    rw [← heid, hdbf]
    exact key
  · intro reason r dbf h hw
    obtain ⟨reg, event, user, reg1, hr, he, _, _, _, hdbf⟩ := postReject_inv h hw
    have heid := findEventById_id he
    have he2 : findEventById db event.id = some event := by rw [heid]; exact he
    have key := mirrors_frame db
      (updateFirst (fun x => x.id == reg.id) (fun _ => reg1) db.registrations) event reg.user
      .rejected none he2
    refine ⟨reg, event, hr, he, ?_⟩
    rw [← heid, hdbf]
    exact key

/-- C11, witness: the organizer approves the pending partner registration of user A. -/
theorem approve_reject_mirror_in_place_witness :
    ∃ reg event,
      findRegistrationById dbPartnerA 1001 = some reg ∧
      findEventById dbPartnerA reg.event = some event ∧
      findEventById dbPartnerApproved reg.event = some
        { event with
          partners := event.partners.map (fun elem =>
            if elem.userId = reg.user then
              { elem with status := .approved, approvedAt := some 20 }
            else elem) } ∧
      (∀ user, findUserById dbPartnerA reg.user = some user →
        findUserById dbPartnerApproved reg.user = some
          { user with
            partnershipEvents := user.partnershipEvents.map (fun elem =>
              if elem.eventId = reg.event then { elem with status := .approved }
              else elem) }) ∧
      (∀ eid, eid ≠ reg.event →
        findEventById dbPartnerApproved eid = findEventById dbPartnerA eid) ∧
      (∀ uid, uid ≠ reg.user →
        findUserById dbPartnerApproved uid = findUserById dbPartnerA uid) ∧
      dbPartnerApproved.events.length = dbPartnerA.events.length ∧
      dbPartnerApproved.users.length = dbPartnerA.users.length :=
  (approve_reject_mirror_in_place dbPartnerA 20 callerO 1001).1 (some "welcome")
    .failedToApproveOnReply dbPartnerApproved (by decide) (Or.inr rfl)

/-- C12: for a stored registration in any status that passes the schema validators (`save()`
validates the document) and a caller who has the organizer email of its event and a User record,
check-in does its writes, and the stored registration then has `checkin = (true, now, caller
user id, supplied role, supplied hours)` and status attended.  After these writes the handler
sends one of its two final replies: 500 `Failed to check in user` when the user of the
registration is stored (`res.json` throws on the populated user, see `sendPopulated`). -/
theorem checkin_forces_attended (db : Db) (now id : Nat) (caller : CivicUser)
    (actualRole : Option String) (hours : Option Int) (reg : Registration) (event : Event)
    (organizer : User)
    (hr : findRegistrationById db id = some reg) (hv : reg.valid = true)
    (he : findEventById db reg.event = some event)
    (ho : event.organizerEmail = caller.email)
    (hu : findUserByCivicId db caller.id = some organizer) :
    ((postCheckin db now caller id actualRole hours).1 = .userCheckedIn ∨
      (postCheckin db now caller id actualRole hours).1 = .failedToCheckInOnReply) ∧
    ((findUserById db reg.user).isSome = true →
      (postCheckin db now caller id actualRole hours).1 = .failedToCheckInOnReply) ∧
    ∃ reg1, findRegistrationById (postCheckin db now caller id actualRole hours).2 id
        = some reg1 ∧
      reg1.checkin =
        { checkedIn := true, checkedInAt := some now, checkedInBy := some organizer.id,
          actualRole := actualRole, hoursContributed := hours } ∧
      reg1.status = .attended := by
  have hid := findRegistrationById_id hr
  have hpost : ∃ r dbf, postCheckin db now caller id actualRole hours = (r, dbf) ∧
      (r = .userCheckedIn ∨ r = .failedToCheckInOnReply) ∧
      r = sendPopulated dbf id .userCheckedIn .failedToCheckInOnReply := by
    unfold postCheckin
    rw [hr]
    simp only
    rw [he]
    simp only
    rw [if_neg (by simp [ho]), hu]
    simp only
    unfold Registration.checkIn
    rw [save_spec _ _ _ _ (valid_of_checkin reg _ hv)]
    simp only
    split
    · split <;> exact ⟨_, _, rfl, sendPopulated_cases _ _ _ _, rfl⟩
    · exact ⟨_, _, rfl, sendPopulated_cases _ _ _ _, rfl⟩
  obtain ⟨r, dbf, hdbf, hw, hreply⟩ := hpost
  obtain ⟨reg', event', organizer', reg1, hr', he', _, hu', hreg1, _, hregs, husers⟩ :=
    postCheckin_inv hdbf hw
  rw [hr] at hr'
  cases hr'
  rw [hu] at hu'
  cases hu'
  have hid1 : reg1.id = id := by
    rw [hreg1, (registrationPreSave_user _ _ _ _).2.2.1]
    exact hid
  have hu1 : reg1.user = reg.user := by
    rw [hreg1, (registrationPreSave_user _ _ _ _).1]
  have hfind : findRegistrationById dbf id = some reg1 := by
    unfold findRegistrationById
    rw [hregs, hid]
    have := updateFirst_find?_same (fun x : Registration => x.id == id) (fun _ => reg1)
      (fun _ _ => by simp [hid1]) db.registrations
    rw [this]
    unfold findRegistrationById at hr
    rw [hr]
    rfl
  have hsome : (findUserById dbf reg.user).isSome = (findUserById db reg.user).isSome := by
    by_cases hc : reg.type = .volunteer ∧ hours.getD 0 ≠ 0
    · rw [if_pos hc] at husers
      rw [@findUserById_congr dbf (updateUserById db reg.user _) husers]
      rw [findUserById_isSome_updateUserById]
      intro u
      rfl
    · rw [if_neg hc] at husers
      rw [findUserById_congr husers]
  rw [hdbf]
  refine ⟨hw, ?_, reg1, hfind, ?_, ?_⟩
  · intro hstored
    show r = _
    rw [hreply, sendPopulated_found _ _ _ _ reg1 hfind, hu1, hsome]
    exact if_pos hstored
  · rw [hreg1, registrationPreSave_existing]
    split <;> rfl
  · rw [hreg1, registrationPreSave_status]

/-- C12, witness: the organizer checks in the rejected partner registration of user A. -/
theorem checkin_forces_attended_witness :
    (postCheckin dbPartnerRejected 30 callerO 1001 (some "greeter") (some 2)).1
      = .failedToCheckInOnReply ∧
    ∃ reg1, findRegistrationById
        (postCheckin dbPartnerRejected 30 callerO 1001 (some "greeter") (some 2)).2 1001
        = some reg1 ∧
      reg1.checkin =
        { checkedIn := true, checkedInAt := some 30, checkedInBy := some userO.id,
          actualRole := some "greeter", hoursContributed := some 2 } ∧
      reg1.status = .attended := by
  have h := checkin_forces_attended dbPartnerRejected 30 1001 callerO (some "greeter") (some 2)
    regRejectedA eventERejected userO (by decide) (by decide) (by decide) (by decide)
    (by decide)
  exact ⟨h.2.1 (by decide), h.2.2⟩

/-- C13: after a check-in that went through (the handler did its writes, whichever of its two
final replies it then sent), the User document of the registered user is the former one
except for `stats.totalVolunteerHours`, which has grown by the supplied hours when the
registration is of type volunteer and hours were supplied, and is the same when the type is
partner or no hours were supplied; every other user is unchanged. -/
theorem checkin_adds_volunteer_hours (db : Db) (now id : Nat) (caller : CivicUser)
    (actualRole : Option String) (hours : Option Int) (r : Reply) (dbf : Db)
    (h : postCheckin db now caller id actualRole hours = (r, dbf))
    (hw : r = .userCheckedIn ∨ r = .failedToCheckInOnReply) :
    ∃ reg, findRegistrationById db id = some reg ∧
      (∀ u, findUserById db reg.user = some u →
        ∃ u1, findUserById dbf reg.user = some u1 ∧
          (∀ x, reg.type = .volunteer → hours = some x →
            u1.stats.totalVolunteerHours = u.stats.totalVolunteerHours + x) ∧
          (reg.type = .partner ∨ hours = none →
            u1.stats.totalVolunteerHours = u.stats.totalVolunteerHours) ∧
          u1 = { u with
            stats := { u.stats with totalVolunteerHours := u1.stats.totalVolunteerHours } }) ∧
      (∀ uid, uid ≠ reg.user → findUserById dbf uid = findUserById db uid) := by
  obtain ⟨reg, event, organizer, reg1, hr, _, _, _, _, _, _, husers⟩ := postCheckin_inv h hw
  refine ⟨reg, hr, ?_, ?_⟩
  · intro u hu
    by_cases hc : reg.type = .volunteer ∧ hours.getD 0 ≠ 0
    · rw [if_pos hc] at husers
      have hfind : findUserById dbf reg.user = some
          { u with
            stats := { u.stats with
              totalVolunteerHours := u.stats.totalVolunteerHours + hours.getD 0 } } := by
        have h1 := findUserById_updateUserById_same db reg.user
          (fun u => { u with
            stats := { u.stats with
              totalVolunteerHours := u.stats.totalVolunteerHours + hours.getD 0 } })
          (fun _ => rfl)
        rw [hu] at h1
        rw [@findUserById_congr dbf (updateUserById db reg.user _) husers]
        exact h1
      refine ⟨_, hfind, ?_, ?_, rfl⟩
      · intro x _ hx
        simp [hx]
      · intro hor
        rcases hor with hp | hn
        · rw [hp] at hc
          exact absurd hc.1 (by decide)
        · rw [hn] at hc
          exact absurd rfl hc.2
    · rw [if_neg hc] at husers
      have hfind : findUserById dbf reg.user = some u := by
        rw [findUserById_congr husers]
        exact hu
      refine ⟨u, hfind, ?_, ?_, rfl⟩
      · intro x ht hx
        rw [hx] at hc
        have : x = 0 := by
          by_contra hne
          exact hc ⟨ht, by simpa using hne⟩
        simp [this]
      · intro _
        rfl
  · intro uid hne
    by_cases hc : reg.type = .volunteer ∧ hours.getD 0 ≠ 0
    · rw [if_pos hc] at husers
      rw [@findUserById_congr dbf (updateUserById db reg.user _) husers]
      rw [findUserById_updateUserById_other]
      · intro e
        rfl
      · exact hne
    · rw [if_neg hc] at husers
      exact findUserById_congr husers uid

/-- C13, witness: the organizer checks in the volunteer registration of user A with 3 hours. -/
theorem checkin_adds_volunteer_hours_witness :
    ∃ reg, findRegistrationById dbLate 1001 = some reg ∧
      (∀ u, findUserById dbLate reg.user = some u →
        ∃ u1, findUserById (postCheckin dbLate 150 callerO 1001 none (some 3)).2 reg.user
            = some u1 ∧
          (∀ x, reg.type = .volunteer → some (3 : Int) = some x →
            u1.stats.totalVolunteerHours = u.stats.totalVolunteerHours + x) ∧
          (reg.type = .partner ∨ some (3 : Int) = none →
            u1.stats.totalVolunteerHours = u.stats.totalVolunteerHours) ∧
          u1 = { u with
            stats := { u.stats with totalVolunteerHours := u1.stats.totalVolunteerHours } }) ∧
      (∀ uid, uid ≠ reg.user →
        findUserById (postCheckin dbLate 150 callerO 1001 none (some 3)).2 uid
          = findUserById dbLate uid) :=
  checkin_adds_volunteer_hours dbLate 150 1001 callerO none (some 3) .failedToCheckInOnReply
    (postCheckin dbLate 150 callerO 1001 none (some 3)).2 (by decide) (Or.inr rfl)

/-- C14: after a cancel by the owner, the Registration is still stored (the collection has as
many documents as before) with status cancelled; the event of the registration has lost, in the
list of the registration type, exactly the summaries of that user (the other summaries, in
order, and the list of the other type are the same); the User document of the owner has lost,
in the list of that type, exactly the entries of that event; every other event and every other
user is unchanged. -/
theorem cancel_removes_projections (db : Db) (now id : Nat) (caller : CivicUser) (dbf : Db)
    (h : deleteRegistration db now caller id = (.registrationCancelled, dbf)) :
    ∃ owner reg reg1,
      findUserByCivicId db caller.id = some owner ∧
      findRegistrationById db id = some reg ∧ reg.user = owner.id ∧
      findRegistrationById dbf id = some reg1 ∧ reg1.status = .cancelled ∧
      dbf.registrations.length = db.registrations.length ∧
      (∀ event, findEventById db reg.event = some event →
        ∃ event1, findEventById dbf reg.event = some event1 ∧
          (reg.type = .volunteer →
            event1.volunteers = event.volunteers.filter (fun v => v.userId != reg.user) ∧
            event1.partners = event.partners ∧
            ∀ v ∈ event1.volunteers, v.userId ≠ reg.user) ∧
          (reg.type = .partner →
            event1.partners = event.partners.filter (fun p => p.userId != reg.user) ∧
            event1.volunteers = event.volunteers ∧
            ∀ p ∈ event1.partners, p.userId ≠ reg.user)) ∧
      (∀ u, findUserById db reg.user = some u →
        ∃ u1, findUserById dbf reg.user = some u1 ∧
          (reg.type = .volunteer →
            u1.volunteerEvents = u.volunteerEvents.filter (fun x => x.eventId != reg.event) ∧
            u1.partnershipEvents = u.partnershipEvents ∧
            ∀ x ∈ u1.volunteerEvents, x.eventId ≠ reg.event) ∧
          (reg.type = .partner →
            u1.partnershipEvents
              = u.partnershipEvents.filter (fun x => x.eventId != reg.event) ∧
            u1.volunteerEvents = u.volunteerEvents ∧
            ∀ x ∈ u1.partnershipEvents, x.eventId ≠ reg.event)) ∧
      (∀ eid, eid ≠ reg.event → findEventById dbf eid = findEventById db eid) ∧
      (∀ uid, uid ≠ reg.user → findUserById dbf uid = findUserById db uid) := by
  obtain ⟨owner, reg, reg1, hu, hr, hown, _, hreg1, hregs, hcase⟩ := deleteRegistration_inv h
  have hid := findRegistrationById_id hr
  have hid1 : reg1.id = id := by
    rw [hreg1, (registrationPreSave_user _ _ _ _).2.2.1]
    exact hid
  have hfind : findRegistrationById dbf id = some reg1 := by
    unfold findRegistrationById
    rw [hregs, hid]
    have := updateFirst_find?_same (fun x : Registration => x.id == id) (fun _ => reg1)
      (fun _ _ => by simp [hid1]) db.registrations
    rw [this]
    unfold findRegistrationById at hr
    rw [hr]
    rfl
  have hst : reg1.status = .cancelled := by rw [hreg1, registrationPreSave_status]
  have hlen : dbf.registrations.length = db.registrations.length := by
    rw [hregs]
    exact updateFirst_length _ _ _
  refine ⟨owner, reg, reg1, hu, hr, hown, hfind, hst, hlen, ?_, ?_, ?_, ?_⟩
  · intro event he
    rcases hcase with ⟨ht, hev, _⟩ | ⟨ht, hev, _⟩
    · have h1 := findEventById_updateEventById_same db reg.event
        (fun e => { e with
          volunteers := e.volunteers.filter (fun v => v.userId != reg.user)
          currentVolunteers := e.currentVolunteers - 1 }) (fun _ => rfl)
      rw [he] at h1
      refine ⟨_, by rw [findEventById_congr hev]; exact h1, ?_, ?_⟩
      · intro _
        refine ⟨rfl, rfl, ?_⟩
        intro v hv
        have := (List.mem_filter.mp hv).2
        simpa using this
      · intro hp
        rw [ht] at hp
        exact absurd hp (by decide)
    · have h1 := findEventById_updateEventById_same db reg.event
        (fun e => { e with partners := e.partners.filter (fun p => p.userId != reg.user) })
        (fun _ => rfl)
      rw [he] at h1
      refine ⟨_, by rw [findEventById_congr hev]; exact h1, ?_, ?_⟩
      · intro hp
        rw [ht] at hp
        exact absurd hp (by decide)
      · intro _
        refine ⟨rfl, rfl, ?_⟩
        intro v hv
        have := (List.mem_filter.mp hv).2
        simpa using this
  · intro u hfu
    rcases hcase with ⟨ht, _, hus⟩ | ⟨ht, _, hus⟩
    · have h1 := findUserById_updateUserById_same db reg.user
        (fun u => { u with
          volunteerEvents := u.volunteerEvents.filter (fun x => x.eventId != reg.event) })
        (fun _ => rfl)
      rw [hfu] at h1
      refine ⟨_, by rw [findUserById_congr hus]; exact h1, ?_, ?_⟩
      · intro _
        refine ⟨rfl, rfl, ?_⟩
        intro v hv
        have := (List.mem_filter.mp hv).2
        simpa using this
      · intro hp
        rw [ht] at hp
        exact absurd hp (by decide)
    · have h1 := findUserById_updateUserById_same db reg.user
        (fun u => { u with
          partnershipEvents := u.partnershipEvents.filter (fun x => x.eventId != reg.event) })
        (fun _ => rfl)
      rw [hfu] at h1
      refine ⟨_, by rw [findUserById_congr hus]; exact h1, ?_, ?_⟩
      · intro hp
        rw [ht] at hp
        exact absurd hp (by decide)
      · intro _
        refine ⟨rfl, rfl, ?_⟩
        intro v hv
        have := (List.mem_filter.mp hv).2
        simpa using this
  · intro eid hne
    rcases hcase with ⟨_, hev, _⟩ | ⟨_, hev, _⟩
    · rw [findEventById_congr hev]
      unfold eventPullVolunteer
      rw [findEventById_updateEventById_other]
      · intro e
        rfl
      · exact hne
    · rw [findEventById_congr hev]
      unfold eventPullPartner
      rw [findEventById_updateEventById_other]
      · intro e
        rfl
      · exact hne
  · intro uid hne
    rcases hcase with ⟨_, _, hus⟩ | ⟨_, _, hus⟩
    · rw [findUserById_congr hus]
      unfold userPullVolunteerEvent
      rw [findUserById_updateUserById_other]
      · intro e
        rfl
      · exact hne
    · rw [findUserById_congr hus]
      unfold userPullPartnershipEvent
      rw [findUserById_updateUserById_other]
      · intro e
        rfl
      · exact hne

/-- C14, witness: user A cancels the volunteer registration for event E. -/
theorem cancel_removes_projections_witness :
    ∃ owner reg reg1,
      findUserByCivicId dbVolA callerA.id = some owner ∧
      findRegistrationById dbVolA 1001 = some reg ∧ reg.user = owner.id ∧
      findRegistrationById dbVolACancelled 1001 = some reg1 ∧ reg1.status = .cancelled ∧
      dbVolACancelled.registrations.length = dbVolA.registrations.length ∧
      (∀ event, findEventById dbVolA reg.event = some event →
        ∃ event1, findEventById dbVolACancelled reg.event = some event1 ∧
          (reg.type = .volunteer →
            event1.volunteers = event.volunteers.filter (fun v => v.userId != reg.user) ∧
            event1.partners = event.partners ∧
            ∀ v ∈ event1.volunteers, v.userId ≠ reg.user) ∧
          (reg.type = .partner →
            event1.partners = event.partners.filter (fun p => p.userId != reg.user) ∧
            event1.volunteers = event.volunteers ∧
            ∀ p ∈ event1.partners, p.userId ≠ reg.user)) ∧
      (∀ u, findUserById dbVolA reg.user = some u →
        ∃ u1, findUserById dbVolACancelled reg.user = some u1 ∧
          (reg.type = .volunteer →
            u1.volunteerEvents = u.volunteerEvents.filter (fun x => x.eventId != reg.event) ∧
            u1.partnershipEvents = u.partnershipEvents ∧
            ∀ x ∈ u1.volunteerEvents, x.eventId ≠ reg.event) ∧
          (reg.type = .partner →
            u1.partnershipEvents
              = u.partnershipEvents.filter (fun x => x.eventId != reg.event) ∧
            u1.volunteerEvents = u.volunteerEvents ∧
            ∀ x ∈ u1.partnershipEvents, x.eventId ≠ reg.event)) ∧
      (∀ eid, eid ≠ reg.event →
        findEventById dbVolACancelled eid = findEventById dbVolA eid) ∧
      (∀ uid, uid ≠ reg.user →
        findUserById dbVolACancelled uid = findUserById dbVolA uid) :=
  cancel_removes_projections dbVolA 20 1001 callerA dbVolACancelled (by decide)

/-- C15 (amended): for a feedback submission by the owner of a stored registration whose event
is stored: the answer is InvalidState exactly when `now` is strictly before the end of the
event, and the database is then unchanged; when `now >= endDate` the call succeeds exactly when
the registration with the submitted feedback passes the schema validators that `save()` runs,
which is the case when the stored registration passes them and the submitted feedback does
(rating absent or between 1 and 5, comments of length at most 1000, improvements of length at
most 500, lengths counted in UTF-16 code units); the stored registration is then the former one
with its feedback replaced by the submitted rating, comments, recommend flag and improvements and
`submittedAt = now`, whatever feedback was stored before; otherwise the answer is 400 `Failed to
submit feedback` and the database is unchanged. -/
theorem feedback_after_event_end (db : Db) (now id : Nat) (caller : CivicUser)
    (body : FeedbackBody) (owner : User) (reg : Registration) (event : Event)
    (hu : findUserByCivicId db caller.id = some owner)
    (hr : findRegistrationById db id = some reg) (hown : reg.user = owner.id)
    (he : findEventById db reg.event = some event) :
    ((postFeedback db now caller id body).1.kind = some .invalidState ↔ now < event.endDate) ∧
    (now < event.endDate →
      postFeedback db now caller id body = (.feedbackBeforeEventEnds, db)) ∧
    (event.endDate ≤ now →
      ((postFeedback db now caller id body).1 = .feedbackSubmitted ↔
        Registration.valid
          { reg with
            feedback :=
              { rating := body.rating, comments := body.comments,
                wouldRecommend := body.wouldRecommend, improvements := body.improvements,
                submittedAt := some now } } = true) ∧
      (Registration.valid
          { reg with
            feedback :=
              { rating := body.rating, comments := body.comments,
                wouldRecommend := body.wouldRecommend, improvements := body.improvements,
                submittedAt := some now } } = true →
        findRegistrationById (postFeedback db now caller id body).2 id = some
          { reg with
            feedback :=
              { rating := body.rating, comments := body.comments,
                wouldRecommend := body.wouldRecommend, improvements := body.improvements,
                submittedAt := some now } }) ∧
      (Registration.valid
          { reg with
            feedback :=
              { rating := body.rating, comments := body.comments,
                wouldRecommend := body.wouldRecommend, improvements := body.improvements,
                submittedAt := some now } } = false →
        postFeedback db now caller id body = (.failedToSubmitFeedback, db))) ∧
    (reg.valid = true →
      Feedback.valid
        { rating := body.rating, comments := body.comments,
          wouldRecommend := body.wouldRecommend, improvements := body.improvements,
          submittedAt := some now } = true →
      Registration.valid
        { reg with
          feedback :=
            { rating := body.rating, comments := body.comments,
              wouldRecommend := body.wouldRecommend, improvements := body.improvements,
              submittedAt := some now } } = true) := by
  have hpost := postFeedback_owner db now id caller body owner reg event hu hr hown he
  have hid := findRegistrationById_id hr
  refine ⟨?_, ?_, ?_, ?_⟩
  · constructor
    · intro hk
      by_contra hlt
      rw [hpost, if_neg (by omega)] at hk
      revert hk
      split <;> simp [Reply.kind]
    · intro hlt
      rw [hpost, if_pos (by omega)]
      rfl
  · intro hlt
    rw [hpost, if_pos (by omega)]
  · intro hle
    rw [hpost, if_neg (by omega)]
    cases hval : Registration.valid
        { reg with
          feedback :=
            { rating := body.rating, comments := body.comments,
              wouldRecommend := body.wouldRecommend, improvements := body.improvements,
              submittedAt := some now } }
    · have hsave : Registration.save db now reg
          { reg with
            feedback :=
              { rating := body.rating, comments := body.comments,
                wouldRecommend := body.wouldRecommend, improvements := body.improvements,
                submittedAt := some now } } = none := by
        simp [Registration.save, hval]
      rw [hsave]
      refine ⟨?_, ?_, ?_⟩
      · simp
      · intro h
        exact absurd h (by simp)
      · intro _
        rfl
    · rw [save_spec _ _ _ _ hval]
      simp only
      refine ⟨?_, ?_, ?_⟩
      · simp
      · intro _
        subst hid
        have hfind := findRegistrationById_replace db reg.id reg
          (registrationPreSave false (reg.status != reg.status) now
            { reg with
              feedback :=
                { rating := body.rating, comments := body.comments,
                  wouldRecommend := body.wouldRecommend, improvements := body.improvements,
                  submittedAt := some now } })
          hr (by rw [(registrationPreSave_user _ _ _ _).2.2.1]) db.users db.events
        rw [hfind, registrationPreSave_existing]
        simp
      · intro h
        exact absurd h (by simp)
  · intro hv hf
    exact valid_of_feedback reg _ hf hv

/-- C15, witness: user A rates event E with 4 after its end. -/
theorem feedback_after_event_end_witness :
    (postFeedback dbLate 150 callerA 1001 goodFeedback).1 = .feedbackSubmitted ∧
      findRegistrationById (postFeedback dbLate 150 callerA 1001 goodFeedback).2 1001 = some
        { regVolunteerA with
          feedback :=
            { rating := goodFeedback.rating, comments := goodFeedback.comments,
              wouldRecommend := goodFeedback.wouldRecommend,
              improvements := goodFeedback.improvements, submittedAt := some 150 } } :=
  ⟨((feedback_after_event_end dbLate 150 1001 callerA goodFeedback userA regVolunteerA eventLate
      (by decide) (by decide) (by decide) (by decide)).2.2.1 (by decide)).1.mpr (by decide),
    ((feedback_after_event_end dbLate 150 1001 callerA goodFeedback userA regVolunteerA eventLate
      (by decide) (by decide) (by decide) (by decide)).2.2.1 (by decide)).2.1 (by decide)⟩

/-- C15, counterexample: event E ended at 100; at time 150 user A submits feedback with rating
7: the call does not succeed, it is answered "Failed to submit feedback" and nothing is
stored. -/
theorem feedback_after_end_can_fail :
    (findEventById dbLate 100).map (fun e => decide (e.endDate ≤ 150)) = some true ∧
    postFeedback dbLate 150 callerA 1001 badFeedback = (.failedToSubmitFeedback, dbLate) ∧
    Reply.kind .failedToSubmitFeedback = some .validationError := by
  decide

/-- C16: a feedback submission by the owner, not before the end of the event, whose rating is
below 1 or above 5 is answered with a ValidationError and leaves the database unchanged; and in
every database reached from one whose stored ratings are all between 1 and 5 by calls of the
handlers that write registrations, the stored ratings are all between 1 and 5. -/
theorem rating_out_of_range_rejected :
    (∀ (db : Db) (now id : Nat) (caller : CivicUser) (body : FeedbackBody) (owner : User)
        (reg : Registration) (event : Event) (x : Int),
      findUserByCivicId db caller.id = some owner →
      findRegistrationById db id = some reg → reg.user = owner.id →
      findEventById db reg.event = some event → event.endDate ≤ now →
      body.rating = some x → (x < 1 ∨ 5 < x) →
      postFeedback db now caller id body = (.failedToSubmitFeedback, db)) ∧
    Reply.kind .failedToSubmitFeedback = some .validationError ∧
    (∀ db0 db, ratingsInRange db0 → Reachable db0 db → ratingsInRange db) := by
  refine ⟨?_, rfl, ?_⟩
  · intro db now id caller body owner reg event x hu hr hown he hend hrt hx
    rw [postFeedback_owner db now id caller body owner reg event hu hr hown he,
      if_neg (by omega)]
    have hinvalid : Registration.valid
        { reg with
          feedback :=
            { rating := body.rating, comments := body.comments,
              wouldRecommend := body.wouldRecommend,
              improvements := body.improvements, submittedAt := some now } } = false := by
      have hf : Feedback.valid
          { rating := body.rating, comments := body.comments,
            wouldRecommend := body.wouldRecommend,
            improvements := body.improvements, submittedAt := some now } = false := by
        simp only [Feedback.valid, hrt]
        have : (decide (1 ≤ x) && decide (x ≤ 5)) = false := by
          rcases hx with h | h
          · simp
            omega
          · simp
            omega
        simp [this]
      simp [Registration.valid, hf]
    simp [Registration.save, hinvalid]
  · intro db0 db h0 hreach
    induction hreach with
    | start => exact h0
    | next d d1 _ hstep ih => exact ratings_step hstep ih

/-- C16, witness: user A rates event E with 7 after its end. -/
theorem rating_out_of_range_rejected_witness :
    postFeedback dbLate 150 callerA 1001 badFeedback = (.failedToSubmitFeedback, dbLate) :=
  rating_out_of_range_rejected.1 dbLate 150 1001 callerA badFeedback userA regVolunteerA
    eventLate 7 (by decide) (by decide) (by decide) (by decide) (by decide) (by decide)
    (by decide)

/-- C17: when the User record of the caller is not the user of the registration, update,
cancel and feedback are answered Forbidden and return the database unchanged, whatever the
email of the caller is (the organizer included). -/
theorem owner_only_operations (db : Db) (now id : Nat) (caller : CivicUser) (user : User)
    (reg : Registration)
    (hu : findUserByCivicId db caller.id = some user)
    (hr : findRegistrationById db id = some reg)
    (hne : reg.user ≠ user.id) :
    (∀ body, putRegistration db caller id body = (.notAuthorizedToUpdate, db)) ∧
    deleteRegistration db now caller id = (.notAuthorizedToCancel, db) ∧
    (∀ body, postFeedback db now caller id body = (.notAuthorizedToSubmitFeedback, db)) ∧
    Reply.kind .notAuthorizedToUpdate = some .forbidden ∧
    Reply.kind .notAuthorizedToCancel = some .forbidden ∧
    Reply.kind .notAuthorizedToSubmitFeedback = some .forbidden := by
  refine ⟨?_, ?_, ?_, rfl, rfl, rfl⟩
  · intro body
    unfold putRegistration
    rw [hu]
    simp only
    rw [hr]
    simp only
    rw [if_pos hne]
  · unfold deleteRegistration
    rw [hu]
    simp only
    rw [hr]
    simp only
    rw [if_pos hne]
  · intro body
    unfold postFeedback
    rw [hu]
    simp only
    rw [hr]
    simp only
    rw [if_pos hne]

/-- C17, witness: the organizer of event E acts on the registration of user A. -/
theorem owner_only_operations_witness :
    (∀ body, putRegistration dbLate callerO 1001 body = (.notAuthorizedToUpdate, dbLate)) ∧
    deleteRegistration dbLate 150 callerO 1001 = (.notAuthorizedToCancel, dbLate) ∧
    (∀ body, postFeedback dbLate 150 callerO 1001 body
      = (.notAuthorizedToSubmitFeedback, dbLate)) ∧
    Reply.kind .notAuthorizedToUpdate = some .forbidden ∧
    Reply.kind .notAuthorizedToCancel = some .forbidden ∧
    Reply.kind .notAuthorizedToSubmitFeedback = some .forbidden :=
  owner_only_operations dbLate 150 1001 callerO userO regVolunteerA (by decide) (by decide)
    (by decide)

/-- C18: when the email of the caller differs from the organizer email of the event, approve,
reject and check-in of a registration of that event, and update, delete and registration list
of the event, are answered Forbidden, change nothing and return no registration; for approve
this holds whatever the type of the registration is, so the organizer check comes before the
partner-type check. -/
theorem organizer_only_operations :
    (∀ (db : Db) (now id : Nat) (caller : CivicUser) (reg : Registration) (event : Event),
      findRegistrationById db id = some reg →
      findEventById db reg.event = some event →
      event.organizerEmail ≠ caller.email →
      (∀ notes, postApprove db now caller id notes = (.notAuthorizedToApprove, db)) ∧
      (∀ reason, postReject db now caller id reason = (.notAuthorizedToReject, db)) ∧
      (∀ role hours, postCheckin db now caller id role hours
        = (.notAuthorizedToCheckIn, db))) ∧
    (∀ (db : Db) (eventId : Nat) (caller : CivicUser) (event : Event),
      findEventById db eventId = some event →
      event.organizerEmail ≠ caller.email →
      (∀ patch, putEvent db caller eventId patch = (.notAuthorizedToUpdate, db)) ∧
      deleteEvent db caller eventId = (.notAuthorizedToDelete, db) ∧
      getEventRegistrations db caller eventId = (.notAuthorizedToViewRegistrations, [])) ∧
    Reply.kind .notAuthorizedToApprove = some .forbidden ∧
    Reply.kind .notAuthorizedToReject = some .forbidden ∧
    Reply.kind .notAuthorizedToCheckIn = some .forbidden ∧
    EventsReply.kind .notAuthorizedToUpdate = some .forbidden ∧
    EventsReply.kind .notAuthorizedToDelete = some .forbidden ∧
    EventsReply.kind .notAuthorizedToViewRegistrations = some .forbidden := by
  refine ⟨?_, ?_, rfl, rfl, rfl, rfl, rfl, rfl⟩
  · intro db now id caller reg event hr he hne
    refine ⟨?_, ?_, ?_⟩
    · intro notes
      unfold postApprove
      rw [hr]
      simp only
      rw [he]
      simp only
      rw [if_pos hne]
    · intro reason
      unfold postReject
      rw [hr]
      simp only
      rw [he]
      simp only
      rw [if_pos hne]
    · intro role hours
      unfold postCheckin
      rw [hr]
      simp only
      rw [he]
      simp only
      rw [if_pos hne]
  · intro db eventId caller event he hne
    refine ⟨?_, ?_, ?_⟩
    · intro patch
      unfold putEvent
      rw [he]
      simp only
      rw [if_pos hne]
    · unfold deleteEvent
      rw [he]
      simp only
      rw [if_pos hne]
    · unfold getEventRegistrations
      rw [he]
      simp only
      rw [if_pos hne]

/-- C18, witness: user B, who is not the organizer, acts on event E and on the volunteer
registration of user A. -/
theorem organizer_only_operations_witness :
    ((∀ notes, postApprove dbLate 150 callerB 1001 notes = (.notAuthorizedToApprove, dbLate)) ∧
      (∀ reason, postReject dbLate 150 callerB 1001 reason
        = (.notAuthorizedToReject, dbLate)) ∧
      (∀ role hours, postCheckin dbLate 150 callerB 1001 role hours
        = (.notAuthorizedToCheckIn, dbLate))) ∧
    ((∀ patch, putEvent dbLate callerB 100 patch = (.notAuthorizedToUpdate, dbLate)) ∧
      deleteEvent dbLate callerB 100 = (.notAuthorizedToDelete, dbLate) ∧
      getEventRegistrations dbLate callerB 100 = (.notAuthorizedToViewRegistrations, [])) :=
  ⟨organizer_only_operations.1 dbLate 150 1001 callerB regVolunteerA eventLate (by decide)
      (by decide) (by decide),
    organizer_only_operations.2.1 dbLate 100 callerB eventLate (by decide) (by decide)⟩

/-- C19 (amended): the list returns only events whose status is the `status` parameter of the
query, which is `published` when the parameter is absent (for any storage engine whose sort
returns elements of its input); get by id and get by slug never look at the status: for the
stored event with that id or slug, whatever its status is, they answer 200 with the event when
none of its embedded summaries names a stored user, and 500 `Failed to fetch event` without the
event otherwise (`res.json` throws on the populated user, see `sendPopulated`). -/
theorem list_filters_by_status_parameter (engine : Engine) (db : Db) (q : EventsQuery)
    (hsort : ∀ field desc l e, e ∈ engine.sort field desc l → e ∈ l) :
    (∀ e ∈ (getEvents engine db q).2, e.status.str = q.status.getD "published") ∧
    (q.status = none → ∀ e ∈ (getEvents engine db q).2, e.status = .published) ∧
    (∀ id e, findEventById db id = some e →
      (e.populatesUser db = false →
        (getEventById db id).1 = .ok ∧ (getEventById db id).2.1 = some e) ∧
      (e.populatesUser db = true →
        (getEventById db id).1 = .failedToFetchEvent ∧ (getEventById db id).2.1 = none)) ∧
    (∀ slug e, db.events.find? (fun x => x.slug == some slug) = some e →
      (e.populatesUser db = false →
        (getEventBySlug db slug).1 = .ok ∧ (getEventBySlug db slug).2.1 = some e) ∧
      (e.populatesUser db = true →
        (getEventBySlug db slug).1 = .failedToFetchEvent ∧
        (getEventBySlug db slug).2.1 = none)) := by
  have hlist : ∀ e ∈ (getEvents engine db q).2, e.status.str = q.status.getD "published" := by
    intro e he
    unfold getEvents at he
    split at he
    · simp at he
    · simp only [List.mem_map] at he
      obtain ⟨e0, he0, hee⟩ := he
      have hmem : e0 ∈ engine.sort q.sortBy (q.sortOrder == "desc")
          (db.events.filter (eventsFilter engine q)) := by
        split at he0
        · exact List.mem_of_mem_drop he0
        · exact List.mem_of_mem_drop (List.mem_of_mem_take he0)
      have hfil := (List.mem_filter.mp (hsort _ _ _ _ hmem)).2
      unfold eventsFilter at hfil
      simp only [Bool.and_eq_true, beq_iff_eq] at hfil
      rw [← hee]
      exact hfil.1.1.1.1
  refine ⟨hlist, ?_, ?_, ?_⟩
  · intro hq e he
    have := hlist e he
    rw [hq] at this
    exact EventStatus.eq_published_of_str e.status this
  · intro id e he
    unfold getEventById
    rw [he]
    refine ⟨?_, ?_⟩
    · intro hp
      simp only
      rw [if_neg (by rw [hp]; decide)]
      exact ⟨rfl, rfl⟩
    · intro hp
      simp only
      rw [if_pos hp]
      exact ⟨rfl, rfl⟩
  · intro slug e he
    unfold getEventBySlug
    rw [he]
    refine ⟨?_, ?_⟩
    · intro hp
      simp only
      rw [if_neg (by rw [hp]; decide)]
      exact ⟨rfl, rfl⟩
    · intro hp
      simp only
      rw [if_pos hp]
      exact ⟨rfl, rfl⟩

/-- C19, witness: the default list over a draft and a published event. -/
theorem list_filters_by_status_parameter_witness :
    withoutRegistrations eventPublished ∈ (getEvents plainEngine dbDraft {}).2 ∧
      (withoutRegistrations eventPublished).status = .published :=
  ⟨by decide,
    (list_filters_by_status_parameter plainEngine dbDraft {} (fun _ _ _ _ h => h)).2.1 rfl
      (withoutRegistrations eventPublished) (by decide)⟩

/-- C19, counterexample: with the query parameter `status=draft` the list returns the draft
event 200, and get by id and get by slug answer 200 with it as well. -/
theorem unpublished_events_are_readable :
    (getEvents plainEngine dbDraft { status := some "draft" }).1 = .ok ∧
    (getEvents plainEngine dbDraft { status := some "draft" }).2.map
        (fun e => (e.id, e.status)) = [(200, .draft)] ∧
    (getEventById dbDraft 200).1 = .ok ∧
    (getEventById dbDraft 200).2.1.map (fun e => (e.id, e.status)) = some (200, .draft) ∧
    (getEventBySlug dbDraft "spring-fair-1").1 = .ok ∧
    (getEventBySlug dbDraft "spring-fair-1").2.1.map (fun e => (e.id, e.status))
      = some (200, .draft) := by
  decide

/-- C20: an update request with any body leaves events and users unchanged, leaves every other
registration unchanged, and leaves status, statusHistory, type, user, event, checkin, feedback,
payment and id of the addressed registration unchanged; when the caller is the owner, the stored
registration is the former one with the allowed keys of the body (`volunteerDetails`,
`partnershipDetails`, `customResponses`, `notes.user`, `consent`) set if these keys pass the
update validators, and the former one if they do not.  The owner is answered 400 `Failed to
update registration` in both cases: by the validators in the second, and in the first after the
`$set`, because `res.json` throws on the populated owner (see `sendPopulated`). -/
theorem update_changes_allowed_fields_only (db : Db) (caller : CivicUser) (id : Nat)
    (body : UpdateBody) (reg : Registration)
    (hr : findRegistrationById db id = some reg) :
    (putRegistration db caller id body).2.events = db.events ∧
    (putRegistration db caller id body).2.users = db.users ∧
    (∃ reg1, findRegistrationById (putRegistration db caller id body).2 id = some reg1 ∧
      reg1.status = reg.status ∧ reg1.statusHistory = reg.statusHistory ∧
      reg1.type = reg.type ∧ reg1.user = reg.user ∧ reg1.event = reg.event ∧
      reg1.checkin = reg.checkin ∧ reg1.feedback = reg.feedback ∧
      reg1.payment = reg.payment ∧ reg1.id = reg.id) ∧
    (∀ other, other ≠ id →
      findRegistrationById (putRegistration db caller id body).2 other
        = findRegistrationById db other) ∧
    (∀ owner, findUserByCivicId db caller.id = some owner → reg.user = owner.id →
      ((allowedUpdates body).valid = true →
        (putRegistration db caller id body).1 = .failedToUpdateOnReply ∧
        findRegistrationById (putRegistration db caller id body).2 id
          = some ((allowedUpdates body).apply reg)) ∧
      ((allowedUpdates body).valid = false →
        putRegistration db caller id body = (.failedToUpdate, db))) := by
  have hsame : findRegistrationById
      { db with
        registrations := updateFirst (fun x => x.id == id) (allowedUpdates body).apply
          db.registrations } id = some ((allowedUpdates body).apply reg) := by
    unfold findRegistrationById at hr ⊢
    have := updateFirst_find?_same (fun x : Registration => x.id == id)
      (allowedUpdates body).apply (fun x hx => by simpa [RegistrationUpdates.apply] using hx)
      db.registrations
    simp only at this ⊢
    rw [this, hr]
    rfl
  have hother : ∀ other, other ≠ id →
      findRegistrationById
        { db with
          registrations := updateFirst (fun x => x.id == id) (allowedUpdates body).apply
            db.registrations } other = findRegistrationById db other := by
    intro other hne
    exact findRegistrationById_updateFirst_other db id other (allowedUpdates body).apply
      (fun _ => rfl) hne _ _
  refine ⟨?_, ?_, ?_, ?_, ?_⟩
  · unfold putRegistration
    split
    · rfl
    · split
      · rfl
      · split
        · rfl
        · split <;> rfl
  · unfold putRegistration
    split
    · rfl
    · split
      · rfl
      · split
        · rfl
        · split <;> rfl
  · unfold putRegistration
    split
    · exact ⟨reg, hr, rfl, rfl, rfl, rfl, rfl, rfl, rfl, rfl, rfl⟩
    · split
      · exact ⟨reg, hr, rfl, rfl, rfl, rfl, rfl, rfl, rfl, rfl, rfl⟩
      · split
        · exact ⟨reg, hr, rfl, rfl, rfl, rfl, rfl, rfl, rfl, rfl, rfl⟩
        · split
          · exact ⟨reg, hr, rfl, rfl, rfl, rfl, rfl, rfl, rfl, rfl, rfl⟩
          · exact ⟨_, hsame, rfl, rfl, rfl, rfl, rfl, rfl, rfl, rfl, rfl⟩
  · intro other hne
    unfold putRegistration
    split
    · rfl
    · split
      · rfl
      · split
        · rfl
        · split
          · rfl
          · exact hother other hne
  · intro owner hu hown
    refine ⟨?_, ?_⟩
    · intro hv
      unfold putRegistration
      rw [hu]
      simp only
      rw [hr]
      simp only
      rw [if_neg (by simp [hown]), if_neg (by simp [hv])]
      refine ⟨?_, hsame⟩
      show sendPopulated _ id _ _ = _
      rw [sendPopulated_found _ _ _ _ _ hsame]
      have hsome : (findUserById db reg.user).isSome = true := by
        rw [hown]
        exact findUserById_of_civicId hu
      have huser : ((allowedUpdates body).apply reg).user = reg.user := rfl
      rw [huser]
      exact if_pos hsome
    · intro hv
      unfold putRegistration
      rw [hu]
      simp only
      rw [hr]
      simp only
      rw [if_neg (by simp [hown]), if_pos hv]

/-- C20, witness: user A sends allowed keys together with `status` and `feedback`. -/
theorem update_changes_allowed_fields_only_witness :
    (putRegistration dbLate callerA 1001 mixedUpdate).1 = .failedToUpdateOnReply ∧
      findRegistrationById (putRegistration dbLate callerA 1001 mixedUpdate).2 1001
        = some ((allowedUpdates mixedUpdate).apply regVolunteerA) :=
  ((update_changes_allowed_fields_only dbLate callerA 1001 mixedUpdate regVolunteerA
    (by decide)).2.2.2.2 userA (by decide) (by decide)).1 (by decide)

/-- C21: when the User save hook runs with `volunteerEvents` or `partnershipEvents` modified,
`stats.eventsAttended` becomes the number of `volunteerEvents` entries with status attended,
`stats.partnershipsCompleted` the number of `partnershipEvents` entries with status completed,
`stats.impactScore` is `eventsAttended * 10 + partnershipsCompleted * 25` on the new values, and
`stats.totalVolunteerHours` and the two lists are unchanged. -/
theorem user_stats_hook (volunteerEventsModified partnershipEventsModified : Bool) (u : User)
    (hmod : volunteerEventsModified = true ∨ partnershipEventsModified = true) :
    (userPreSave volunteerEventsModified partnershipEventsModified u).stats.eventsAttended
      = (u.volunteerEvents.countP (fun e => decide (e.status = .attended)) : Int) ∧
    (userPreSave volunteerEventsModified partnershipEventsModified u).stats.partnershipsCompleted
      = (u.partnershipEvents.countP (fun e => decide (e.status = .completed)) : Int) ∧
    (userPreSave volunteerEventsModified partnershipEventsModified u).stats.impactScore
      = (userPreSave volunteerEventsModified partnershipEventsModified u).stats.eventsAttended
          * 10
        + (userPreSave volunteerEventsModified
            partnershipEventsModified u).stats.partnershipsCompleted * 25 ∧
    (userPreSave volunteerEventsModified partnershipEventsModified u).stats.totalVolunteerHours
      = u.stats.totalVolunteerHours ∧
    (userPreSave volunteerEventsModified partnershipEventsModified u).volunteerEvents
      = u.volunteerEvents ∧
    (userPreSave volunteerEventsModified partnershipEventsModified u).partnershipEvents
      = u.partnershipEvents := by
  have hb : (volunteerEventsModified || partnershipEventsModified) = true := by
    rcases hmod with h | h <;> simp [h]
  unfold userPreSave
  rw [if_pos hb]
  refine ⟨?_, ?_, rfl, rfl, rfl, rfl⟩
  · simp only [List.countP_eq_length_filter]
    congr 2
  · simp only [List.countP_eq_length_filter]
    congr 2

/-- C21, witness: a user with two attended volunteer entries out of three, one completed
partnership out of two and 12 volunteer hours gets 2, 1, score 45, and keeps the 12 hours. -/
theorem user_stats_hook_witness :
    (userPreSave true false userBusy).stats.eventsAttended = 2 ∧
    (userPreSave true false userBusy).stats.partnershipsCompleted = 1 ∧
    (userPreSave true false userBusy).stats.impactScore = 45 ∧
    (userPreSave true false userBusy).stats.totalVolunteerHours = 12 := by
  have h := user_stats_hook true false userBusy (Or.inl rfl)
  exact ⟨h.1.trans (by decide), h.2.1.trans (by decide), by decide, h.2.2.2.1.trans (by decide)⟩

/-- C22 (code bug): the user's embedded entry does not follow the Registration row through a
check-in.  User A registers as volunteer for event E and the organizer checks A in with 4 hours:
the Registration row gets status attended, but the `volunteerEvents` entry
of user A for event E still has the status written at the create (`approved`),
`stats.eventsAttended` is 0 while user A has one volunteer registration with status attended, and
only `stats.totalVolunteerHours` has moved (to 4).  The save hook of the User schema, were it run
on that document, would still compute 0, because it counts the embedded entries.  (Create and
check-in have done their writes when they answer; their answers are 400 `Registration failed` and
500 `Failed to check in user`, because `res.json` throws on the populated user, see
`sendPopulated`.) -/
theorem checkin_leaves_user_entry_stale :
    postRegistration dbE 10 1001 callerA volunteerBody = (.registrationFailedOnReply, dbVolA) ∧
    (findRegistrationById dbVolA 1001).map (fun r => (r.user, r.event, r.type, r.status))
      = some (1, 100, .volunteer, .approved) ∧
    (postCheckin dbVolA 30 callerO 1001 none (some 4)).1 = .failedToCheckInOnReply ∧
    (findRegistrationById (postCheckin dbVolA 30 callerO 1001 none (some 4)).2 1001).map
        (fun r => (r.user, r.event, r.type, r.status))
      = some (1, 100, .volunteer, .attended) ∧
    (findUserById (postCheckin dbVolA 30 callerO 1001 none (some 4)).2 1).map
        (fun u => u.volunteerEvents.map (fun x => (x.eventId, x.status)))
      = some [(100, .approved)] ∧
    (findUserById (postCheckin dbVolA 30 callerO 1001 none (some 4)).2 1).map
        (fun u => (u.stats.eventsAttended, u.stats.totalVolunteerHours))
      = some (0, 4) ∧
    (((postCheckin dbVolA 30 callerO 1001 none (some 4)).2.registrations.filter
        (fun r => r.user == 1 && r.type == .volunteer && r.status == .attended)).length = 1) ∧
    (findUserById (postCheckin dbVolA 30 callerO 1001 none (some 4)).2 1).map
        (fun u => (userPreSave true false u).stats.eventsAttended)
      = some 0 := by
  decide

/-- C23: the slug hook of the Event schema.  When the title is modified and the slug is missing
or empty, the event is saved with the slug made of the maximal blocks of `[a-z0-9]` characters
of the lower-cased title, joined by single `-` (so every maximal run of other characters between
two blocks is one `-` and the runs at both ends are dropped), followed by `-` and the timestamp;
nothing else changes.  When a slug is set the event is unchanged, whether the title was modified
or not; so it is when the title was not modified.  The class `[a-z0-9]` is the ASCII letters
`a` to `z` and digits `0` to `9`. -/
theorem event_slug_hook (toLowerCase : String → String) (titleModified : Bool) (now : Nat)
    (e : Event) :
    (titleModified = true → truthy e.slug = false →
      eventSlugPreSave toLowerCase titleModified now e
        = { e with
            slug := some (String.mk (List.intercalate ['-']
              (((toLowerCase e.title).toList.splitOnP (fun c => !isSlugChar c)).filter
                (fun w => !w.isEmpty))) ++ "-" ++ toString now) }) ∧
    (truthy e.slug = true → eventSlugPreSave toLowerCase titleModified now e = e) ∧
    (titleModified = false → eventSlugPreSave toLowerCase titleModified now e = e) ∧
    (∀ c : Char, isSlugChar c = true ↔ ('a' ≤ c ∧ c ≤ 'z') ∨ ('0' ≤ c ∧ c ≤ '9')) := by
  refine ⟨?_, ?_, ?_, ?_⟩
  · intro hm hs
    simp only [eventSlugPreSave, hm, hs, Bool.not_false, Bool.and_self, if_true, slugify,
      stripDashes_replaceRuns]
  · intro hs
    simp [eventSlugPreSave, hs]
  · intro hm
    simp [eventSlugPreSave, hm]
  · intro c
    simp only [isSlugChar, Char.isLower, Char.isDigit, Bool.or_eq_true, Bool.and_eq_true,
      decide_eq_true_eq]
    rfl

/-- C23, witness: the title `  Beach Clean-Up: 2024 (Lagos)!` saved at 1700000000000 with ASCII
lower-casing, and the saving of an event that has a slug. -/
theorem event_slug_hook_witness :
    (eventSlugPreSave asciiLower true 1700000000000 eventTitled).slug
      = some "beach-clean-up-2024-lagos-1700000000000" ∧
    eventSlugPreSave asciiLower true 1700000000000 eventDraft = eventDraft := by
  have h := event_slug_hook asciiLower true 1700000000000 eventTitled
  have h2 := event_slug_hook asciiLower true 1700000000000 eventDraft
  refine ⟨?_, h2.2.1 (by decide)⟩
  rw [h.1 rfl (by decide)]
  decide

/-- C24: when the counters hook of the Event schema runs with `registrations` modified,
`currentVolunteers` is the number of volunteer summaries with status registered, confirmed or
attended; every partnership slot keeps its type and `maxPartners` and has `currentPartners` equal
to the number of partner summaries of that type with status approved, active or completed;
`currentFunding` is the sum of `fundingAmount` (0 when missing) over the partner summaries with
such a status; `totalRegistrations` is the number of volunteer summaries plus the number of
partner summaries; the two lists of summaries and `maxVolunteers` are unchanged. -/
theorem event_counters_hook (e : Event) :
    (eventPreSave true e).currentVolunteers
      = (e.volunteers.countP (fun v => decide (v.status = .registered
          ∨ v.status = .confirmed ∨ v.status = .attended)) : Int) ∧
    (eventPreSave true e).types.map (fun t => t.type) = e.types.map (fun t => t.type) ∧
    (eventPreSave true e).types.map (fun t => t.maxPartners)
      = e.types.map (fun t => t.maxPartners) ∧
    (∀ t ∈ (eventPreSave true e).types,
      t.currentPartners
        = (e.partners.countP (fun p => decide (p.partnershipType = some t.type
            ∧ (p.status = .approved ∨ p.status = .active ∨ p.status = .completed))) : Int)) ∧
    (eventPreSave true e).currentFunding
      = ((e.partners.filter (fun p => decide (p.status = .approved ∨ p.status = .active
            ∨ p.status = .completed))).map (fun p => p.fundingAmount.getD 0)).sum ∧
    (eventPreSave true e).totalRegistrations
      = (e.volunteers.length : Int) + (e.partners.length : Int) ∧
    (eventPreSave true e).volunteers = e.volunteers ∧
    (eventPreSave true e).partners = e.partners ∧
    (eventPreSave true e).maxVolunteers = e.maxVolunteers := by
  have hact : ∀ s : Status, activePartnerStatuses.contains s
      = decide (s = .approved ∨ s = .active ∨ s = .completed) := by
    intro s
    cases s <;> decide
  have hvol : ∀ s : Status, activeVolunteerStatuses.contains s
      = decide (s = .registered ∨ s = .confirmed ∨ s = .attended) := by
    intro s
    cases s <;> decide
  unfold eventPreSave
  rw [if_pos rfl]
  refine ⟨?_, ?_, ?_, ?_, ?_, rfl, rfl, rfl, rfl⟩
  · simp only [activeVolunteerCount, List.countP_eq_length_filter]
    congr 2
    apply List.filter_congr
    intro x _
    exact hvol x.status
  · simp [List.map_map, Function.comp_def]
  · simp [List.map_map, Function.comp_def]
  · intro t ht
    simp only [List.mem_map] at ht
    obtain ⟨t0, _, rfl⟩ := ht
    simp only [activePartnerCount, List.countP_eq_length_filter]
    congr 2
    apply List.filter_congr
    intro x _
    rw [hact]
    cases hpt : decide (x.partnershipType = some t0.type)
    · have hne : ¬ x.partnershipType = some t0.type := of_decide_eq_false hpt
      simp [hne]
    · have heq : x.partnershipType = some t0.type := of_decide_eq_true hpt
      simp [heq]
  · simp only [activeFunding]
    rw [foldl_add_eq_sum, zero_add]
    congr 2
    apply List.filter_congr
    intro x _
    exact hact x.status

/-- C25: the counters hook is idempotent: running it a second time on its own result changes
nothing (with `registrations` modified both times, and with any same flag both times). -/
theorem event_counters_hook_idempotent (e : Event) :
    eventPreSave true (eventPreSave true e) = eventPreSave true e ∧
    ∀ m : Bool, eventPreSave m (eventPreSave m e) = eventPreSave m e := by
  have h : eventPreSave true (eventPreSave true e) = eventPreSave true e := by
    simp only [eventPreSave, if_true, activeVolunteerCount, activeFunding, activePartnerCount,
      List.map_map, Function.comp_def]
  refine ⟨h, ?_⟩
  intro m
  cases m
  · rfl
  · exact h

/-- C26 (code bug): a missing record is not always answered with NotFound.  A caller with the
organizer's email and no User record gets 500 `Failed to approve registration`, `Failed to reject
registration` and `Failed to check in user` from approve, reject and check-in (the handlers read
`user._id` of the `null` that `findOne` returned); the owner of a registration whose event is gone
gets 400 `Failed to submit feedback` (the handler reads `event.endDate` of `null`), and the
organizer gets the same three 500 replies for approve, reject and check-in on that registration.
Nothing is written in any of these cases.  Create, cancel and feedback do answer 404 `User not
found` to a caller without a User record. -/
theorem missing_record_not_reported_as_not_found :
    findUserByCivicId dbPartnerA callerGhost.id = none ∧
    postApprove dbPartnerA 20 callerGhost 1001 none = (.failedToApprove, dbPartnerA) ∧
    postReject dbPartnerA 20 callerGhost 1001 none = (.failedToReject, dbPartnerA) ∧
    postCheckin dbVolA 30 callerGhost 1001 none (some 4) = (.failedToCheckIn, dbVolA) ∧
    Reply.failedToApprove.code = 500 ∧ Reply.failedToReject.code = 500 ∧
    Reply.failedToCheckIn.code = 500 ∧
    findEventById dbOrphan 100 = none ∧
    postFeedback dbOrphan 150 callerA 1001 goodFeedback = (.failedToSubmitFeedback, dbOrphan) ∧
    Reply.failedToSubmitFeedback.code = 400 ∧
    postApprove dbOrphan 20 callerO 1001 none = (.failedToApprove, dbOrphan) ∧
    postReject dbOrphan 20 callerO 1001 none = (.failedToReject, dbOrphan) ∧
    postCheckin dbOrphan 30 callerO 1001 none (some 4) = (.failedToCheckIn, dbOrphan) ∧
    Reply.failedToApprove.kind ≠ some .notFound ∧ Reply.failedToReject.kind ≠ some .notFound ∧
    Reply.failedToCheckIn.kind ≠ some .notFound ∧
    Reply.failedToSubmitFeedback.kind ≠ some .notFound ∧
    postRegistration dbE 10 1001 callerGhost volunteerBody = (.userNotFound, dbE) ∧
    deleteRegistration dbVolA 20 callerGhost 1001 = (.userNotFound, dbVolA) ∧
    postFeedback dbLate 150 callerGhost 1001 goodFeedback = (.userNotFound, dbLate) ∧
    Reply.userNotFound.kind = some .notFound := by
  decide

/-- C27: create followed by cancel is a round trip on the projections.  Let a volunteer create
by a caller go through (it persists the Registration and does its projection updates, whichever
of its two final replies it then sends) with a registration id not in use, for an event whose embedded volunteers
list has no summary of the user and a user whose `volunteerEvents` has no entry for the event.
Then the event accepted volunteers and had `currentVolunteers < maxVolunteers`, the user had no
registration for it, and the cancel of the new registration by the same caller succeeds and
leaves the events collection and the users collection exactly as they were before the create
(so `currentVolunteers`, the embedded volunteers list and `volunteerEvents` are restored), while
the registrations collection is the former one followed by the new row, with status cancelled. -/
theorem create_cancel_round_trip (db : Db) (now1 freshId now2 : Nat) (caller : CivicUser)
    (body : CreateBody) (r : Reply) (dbc : Db) (user : User) (event : Event)
    (hcreate : postRegistration db now1 freshId caller body = (r, dbc))
    (hw : r = .registrationSuccessful ∨ r = .registrationFailedOnReply)
    (htype : body.type = .volunteer)
    (hfresh : findRegistrationById db freshId = none)
    (huser : findUserByCivicId db caller.id = some user)
    (hevent : findEventById db body.eventId = some event)
    (hnoSummary : ∀ v ∈ event.volunteers, v.userId ≠ user.id)
    (hnoEntry : ∀ u, findUserById db user.id = some u →
      ∀ x ∈ u.volunteerEvents, x.eventId ≠ body.eventId) :
    event.isAcceptingVolunteers = true ∧ event.currentVolunteers < event.maxVolunteers ∧
    findRegistrationOf db user.id body.eventId = none ∧
    (deleteRegistration dbc now2 caller freshId).1 = .registrationCancelled ∧
    (deleteRegistration dbc now2 caller freshId).2.events = db.events ∧
    (deleteRegistration dbc now2 caller freshId).2.users = db.users ∧
    findEventById (deleteRegistration dbc now2 caller freshId).2 body.eventId = some event ∧
    findUserByCivicId (deleteRegistration dbc now2 caller freshId).2 caller.id = some user ∧
    ∃ reg, (deleteRegistration dbc now2 caller freshId).2.registrations
        = db.registrations ++ [reg] ∧
      reg.id = freshId ∧ reg.user = user.id ∧ reg.event = body.eventId ∧
      reg.type = .volunteer ∧ reg.status = .cancelled := by
  obtain ⟨user0, event0, reg, dbs, hu, he, hv, _, hr, hc, hs, hcase⟩ :=
    postRegistration_wrote hcreate hw
  rw [huser] at hu
  rw [hevent] at he
  have hu0 := Option.some.inj hu
  have he0 := Option.some.inj he
  subst hu0 he0
  obtain ⟨hvalid, hreg, hdbs⟩ := saveNew_spec hs
  have hdbc : dbc = userPushVolunteerEvent
      (eventPushVolunteer dbs body.eventId user.id now1
        (body.volunteerDetails.bind (fun d => d.preferredRole)) reg.status)
      user.id body.eventId now1 reg.status := by
    rcases hcase with ⟨_, h⟩ | ⟨h, _⟩
    · exact h
    · rw [htype] at h
      exact absurd h (by decide)
  have hrid : reg.id = freshId := by rw [hreg, (registrationPreSave_user _ _ _ _).2.2.1]; rfl
  have hru : reg.user = user.id := by rw [hreg, (registrationPreSave_user _ _ _ _).1]; rfl
  have hre : reg.event = body.eventId := by
    rw [hreg, (registrationPreSave_user _ _ _ _).2.1]; rfl
  have hrt : reg.type = .volunteer := by
    rw [hreg, (registrationPreSave_user _ _ _ _).2.2.2]
    exact htype
  have hrv : reg.valid = true := by
    rw [hreg]
    unfold registrationPreSave
    simp only [Bool.not_true, Bool.and_false, Bool.false_eq_true, if_false]
    split
    · exact valid_of_status_history _ .approved _ (by decide) hvalid
    · exact hvalid
  have hregs : dbc.registrations = db.registrations ++ [reg] := by
    rw [hdbc, hdbs]
    rfl
  have hfind : findRegistrationById dbc freshId = some reg := by
    unfold findRegistrationById at hfresh ⊢
    rw [hregs]
    exact find?_append_none _ _ _ hfresh (by simp [hrid])
  have hevents : dbc.events = updateFirst (fun e => e.id == body.eventId)
      (fun e => { e with
        volunteers := e.volunteers ++
          [{ userId := user.id, registeredAt := now1,
             role := body.volunteerDetails.bind (fun d => d.preferredRole),
             status := reg.status }]
        currentVolunteers := e.currentVolunteers + 1 }) db.events := by
    rw [hdbc, hdbs]
    rfl
  have husers : dbc.users = updateFirst (fun u => u.id == user.id)
      (fun u => { u with
        volunteerEvents := u.volunteerEvents ++
          [{ eventId := body.eventId, registeredAt := now1, status := reg.status }] })
      db.users := by
    rw [hdbc, hdbs]
    rfl
  have hu1 : ∃ user1, findUserByCivicId dbc caller.id = some user1 ∧ user1.id = user.id := by
    have h1 := findUserByCivicId_updateUserById
      (eventPushVolunteer dbs body.eventId user.id now1
        (body.volunteerDetails.bind (fun d => d.preferredRole)) reg.status) user.id
      (fun u => { u with
        volunteerEvents := u.volunteerEvents ++
          [{ eventId := body.eventId, registeredAt := now1, status := reg.status }] })
      (fun _ => rfl) caller.id user (by rw [hdbs]; exact huser)
    rw [hdbc]
    rcases h1 with h1 | h1
    · exact ⟨_, h1, rfl⟩
    · exact ⟨_, h1, rfl⟩
  obtain ⟨user1, hu1, hid1⟩ := hu1
  obtain ⟨reg1, db1, hreg1, _, hreply, _⟩ :=
    deleteRegistration_ok dbc now2 caller freshId reg user1 hu1 hfind hrv (by rw [hru, hid1])
  have heq : deleteRegistration dbc now2 caller freshId
      = (.registrationCancelled, (deleteRegistration dbc now2 caller freshId).2) := by
    rw [← hreply]
  obtain ⟨_, reg0, reg2, _, hr0, _, _, hreg2, hregs2, hcase2⟩ := deleteRegistration_inv heq
  rw [hfind] at hr0
  have hr00 := Option.some.inj hr0
  subst hr00
  have hev2 : (deleteRegistration dbc now2 caller freshId).2.events = db.events := by
    rcases hcase2 with ⟨_, h, _⟩ | ⟨h, _⟩
    · rw [h, hre, hru]
      unfold eventPullVolunteer updateEventById
      simp only
      rw [hevents]
      apply updateFirst_cancel
      · intro x hx
        exact hx
      · intro x hx
        have hxe : x = event := by
          unfold findEventById at hevent
          rw [hevent] at hx
          exact (Option.some.inj hx).symm
        subst hxe
        have hf : (x.volunteers ++
            [({ userId := user.id, registeredAt := now1,
                role := body.volunteerDetails.bind (fun d => d.preferredRole),
                status := reg.status } : VolunteerSummary)]).filter
              (fun v => v.userId != user.id) = x.volunteers :=
          filter_append_singleton_out _ _ _ (fun y hy => by simpa using hnoSummary y hy)
            (by simp)
        simp only [hf]
        have hcv : x.currentVolunteers + 1 - 1 = x.currentVolunteers := by omega
        rw [hcv]
    · rw [hrt] at h
      exact absurd h (by decide)
  have hus2 : (deleteRegistration dbc now2 caller freshId).2.users = db.users := by
    rcases hcase2 with ⟨_, _, h⟩ | ⟨h, _⟩
    · rw [h, hre, hru]
      unfold userPullVolunteerEvent updateUserById
      simp only
      rw [husers]
      apply updateFirst_cancel
      · intro x hx
        exact hx
      · intro x hx
        have hf : (x.volunteerEvents ++
            [({ eventId := body.eventId, registeredAt := now1, status := reg.status } :
              UserVolunteerEvent)]).filter (fun y => y.eventId != body.eventId)
              = x.volunteerEvents :=
          filter_append_singleton_out _ _ _
            (fun y hy => by simpa using hnoEntry x hx y hy) (by simp)
        simp only [hf]
    · rw [hrt] at h
      exact absurd h (by decide)
  have hregs3 : (deleteRegistration dbc now2 caller freshId).2.registrations
      = db.registrations ++ [reg2] := by
    rw [hregs2, hregs, hrid]
    have hnone : ∀ y ∈ db.registrations, (y.id == freshId) = false := by
      intro y hy
      unfold findRegistrationById at hfresh
      have := List.find?_eq_none.mp hfresh y hy
      simpa using this
    exact updateFirst_append_last _ _ _ _ hnone (by simp [hrid])
  have hlt : event.currentVolunteers < event.maxVolunteers := by
    by_contra hge
    exact hc ⟨htype, by omega⟩
  have hacc : event.isAcceptingVolunteers = true := by
    cases hb : event.isAcceptingVolunteers
    · exact absurd ⟨htype, hb⟩ hv
    · rfl
  refine ⟨hacc, hlt, hr, hreply, hev2, hus2, ?_, ?_, reg2, hregs3, ?_, ?_, ?_, ?_, ?_⟩
  · unfold findEventById
    rw [hev2]
    exact hevent
  · unfold findUserByCivicId
    rw [hus2]
    exact huser
  · rw [hreg2, (registrationPreSave_user _ _ _ _).2.2.1]
    exact hrid
  · rw [hreg2, (registrationPreSave_user _ _ _ _).1]
    exact hru
  · rw [hreg2, (registrationPreSave_user _ _ _ _).2.1]
    exact hre
  · rw [hreg2, (registrationPreSave_user _ _ _ _).2.2.2]
    exact hrt
  · rw [hreg2, registrationPreSave_status]

/-- C27, witness: user A registers as volunteer for event E and cancels. -/
theorem create_cancel_round_trip_witness :
    (deleteRegistration dbVolA 20 callerA 1001).1 = .registrationCancelled ∧
    (deleteRegistration dbVolA 20 callerA 1001).2.events = dbE.events ∧
    (deleteRegistration dbVolA 20 callerA 1001).2.users = dbE.users ∧
    ((deleteRegistration dbVolA 20 callerA 1001).2.registrations.map (fun r => r.status))
      = [.cancelled] := by
  have h := create_cancel_round_trip dbE 10 1001 20 callerA volunteerBody
    .registrationFailedOnReply dbVolA userA eventE
    (by decide) (Or.inr rfl) (by decide) (by decide) (by decide) (by decide) (by decide)
    (by decide)
  exact ⟨h.2.2.2.1, h.2.2.2.2.1, h.2.2.2.2.2.1, by decide⟩

/-- C28 (amended): after a successful cancel the cancelled Registration row is still stored, and
every create by the same caller for that event, of any type, fails and returns the database
unchanged: with `Event is not accepting volunteers` or `Event is not accepting partners`
(InvalidState) when the event does not accept the requested type, and as a duplicate (Conflict)
otherwise. -/
theorem create_after_cancel_rejected (db : Db) (now : Nat) (caller : CivicUser) (id : Nat)
    (dbc : Db)
    (hcancel : deleteRegistration db now caller id = (.registrationCancelled, dbc)) :
    ∃ reg, findRegistrationById db id = some reg ∧
      (∃ reg1 ∈ dbc.registrations,
        reg1.user = reg.user ∧ reg1.event = reg.event ∧ reg1.status = .cancelled) ∧
      ∀ (now2 freshId : Nat) (body : CreateBody) (event : Event),
        body.eventId = reg.event → findEventById dbc reg.event = some event →
        (postRegistration dbc now2 freshId caller body).2 = dbc ∧
        (postRegistration dbc now2 freshId caller body).1 =
          (if body.type = .volunteer ∧ event.isAcceptingVolunteers = false then
            .notAcceptingVolunteers
          else if body.type = .partner ∧ event.isAcceptingPartners = false then
            .notAcceptingPartners
          else .alreadyRegistered) ∧
        ((postRegistration dbc now2 freshId caller body).1.kind = some .conflict ∨
          (postRegistration dbc now2 freshId caller body).1.kind = some .invalidState) := by
  obtain ⟨user, reg, reg1, hu, hr, hown, _, hreg1, hregs, hcase⟩ := deleteRegistration_inv hcancel
  have hst : reg1.status = .cancelled := by
    rw [hreg1, registrationPreSave_status]
  have hru : reg1.user = reg.user := by rw [hreg1, (registrationPreSave_user _ _ _ _).1]
  have hre : reg1.event = reg.event := by rw [hreg1, (registrationPreSave_user _ _ _ _).2.1]
  have hid := findRegistrationById_id hr
  have hmem : reg1 ∈ dbc.registrations := by
    rw [hregs, hid]
    exact updateFirst_mem_of_find (fun x : Registration => x.id == id) (fun _ => reg1)
      db.registrations reg hr
  have hu1 : ∃ user1, findUserByCivicId dbc caller.id = some user1 ∧ user1.id = user.id := by
    rcases hcase with ⟨_, _, husers⟩ | ⟨_, _, husers⟩
    · have h1 := findUserByCivicId_updateUserById db reg.user
        (fun u => { u with
          volunteerEvents := u.volunteerEvents.filter (fun x => x.eventId != reg.event) })
        (fun _ => rfl) caller.id user hu
      have h2 : findUserByCivicId dbc caller.id
          = findUserByCivicId (userPullVolunteerEvent db reg.user reg.event) caller.id := by
        unfold findUserByCivicId
        rw [husers]
      rw [h2]
      rcases h1 with h1 | h1
      · exact ⟨_, h1, rfl⟩
      · exact ⟨_, h1, rfl⟩
    · have h1 := findUserByCivicId_updateUserById db reg.user
        (fun u => { u with
          partnershipEvents := u.partnershipEvents.filter (fun x => x.eventId != reg.event) })
        (fun _ => rfl) caller.id user hu
      have h2 : findUserByCivicId dbc caller.id
          = findUserByCivicId (userPullPartnershipEvent db reg.user reg.event) caller.id := by
        unfold findUserByCivicId
        rw [husers]
      rw [h2]
      rcases h1 with h1 | h1
      · exact ⟨_, h1, rfl⟩
      · exact ⟨_, h1, rfl⟩
  obtain ⟨user1, hu1, hid1⟩ := hu1
  have hdup : ∃ r, findRegistrationOf dbc user1.id reg.event = some r := by
    apply Option.isSome_iff_exists.mp
    unfold findRegistrationOf
    rw [List.find?_isSome]
    exact ⟨reg1, hmem, by simp [hru, hre, hown, hid1]⟩
  obtain ⟨r, hdup⟩ := hdup
  refine ⟨reg, hr, ⟨reg1, hmem, hru, hre, hst⟩, ?_⟩
  intro now2 freshId body event hbe hev
  have hpost : postRegistration dbc now2 freshId caller body =
      (if body.type = .volunteer ∧ event.isAcceptingVolunteers = false then
          Reply.notAcceptingVolunteers
        else if body.type = .partner ∧ event.isAcceptingPartners = false then
          .notAcceptingPartners
        else .alreadyRegistered, dbc) := by
    unfold postRegistration
    rw [hu1]
    simp only
    rw [hbe, hev]
    simp only
    split
    · rfl
    · split
      · rfl
      · rw [hdup]
  rw [hpost]
  refine ⟨rfl, rfl, ?_⟩
  simp only
  split
  · exact Or.inr rfl
  · split
    · exact Or.inr rfl
    · exact Or.inl rfl

/-- C28, witness: after user A has cancelled the volunteer registration for event E, which
accepts both types, a volunteer create and a partner create are both answered as duplicates. -/
theorem create_after_cancel_rejected_witness :
    (postRegistration dbVolACancelled 30 1002 callerA volunteerBody).1 = .alreadyRegistered ∧
    (postRegistration dbVolACancelled 30 1002 callerA partnerBody).1 = .alreadyRegistered ∧
    (postRegistration dbVolACancelled 30 1002 callerA partnerBody).2 = dbVolACancelled := by
  obtain ⟨reg, hr, _, h⟩ := create_after_cancel_rejected dbVolA 20 callerA 1001 dbVolACancelled
    (by decide)
  have hreg : reg = (dbVolA.registrations.head?).getD regVolunteerA := by
    have h0 : findRegistrationById dbVolA 1001
        = some ((dbVolA.registrations.head?).getD regVolunteerA) := by decide
    rw [h0] at hr
    exact (Option.some.inj hr).symm
  have he : reg.event = 100 := by rw [hreg]; decide
  have h1 := h 30 1002 volunteerBody ((dbVolACancelled.events.head?).getD eventE)
    (by rw [he]; rfl) (by rw [he]; decide)
  have h2 := h 30 1002 partnerBody ((dbVolACancelled.events.head?).getD eventE)
    (by rw [he]; rfl) (by rw [he]; decide)
  exact ⟨h1.2.1.trans (by decide), h2.2.1.trans (by decide), h2.1⟩

/-- C28, counterexample: event E accepts volunteers and no partners; user A registers as
volunteer (the registration is persisted), cancels, and sends a partner create: the answer is `Event is not accepting partners`
(InvalidState), not a duplicate. -/
theorem create_after_cancel_not_duplicate :
    (postRegistration dbNoPartners 10 1001 callerA volunteerBody).2.registrations.map
        (fun r => (r.user, r.event, r.status)) = [(1, 100, .approved)] ∧
    (deleteRegistration (postRegistration dbNoPartners 10 1001 callerA volunteerBody).2 20
      callerA 1001).1 = .registrationCancelled ∧
    (postRegistration
      (deleteRegistration (postRegistration dbNoPartners 10 1001 callerA volunteerBody).2 20
        callerA 1001).2 30 1002 callerA partnerBody).1 = .notAcceptingPartners ∧
    Reply.notAcceptingPartners.kind = some .invalidState ∧
    Reply.notAcceptingPartners.kind ≠ Reply.alreadyRegistered.kind := by
  decide

/-- C29: for every page, every positive limit and every total, the pagination block has
`totalPages` equal to the ceiling of the rational `total / limit`, `hasPrev` exactly when
`page > 1`, `hasNext` exactly when `page * limit < total`, which holds exactly when
`page < totalPages`; it reports the page and the total it was given; and the blocks of the event
list and of the user's registration list are this block for their `page`, `limit` and count. -/
theorem pagination_block_correct (page limit total : Nat)
    (hlimit : 0 < limit) :
    (paginationBlock page limit total).totalPages = ⌈(total : ℚ) / (limit : ℚ)⌉₊ ∧
    ((paginationBlock page limit total).hasPrev = true ↔ page > 1) ∧
    ((paginationBlock page limit total).hasNext = true ↔ page * limit < total) ∧
    (page * limit < total ↔ page < (paginationBlock page limit total).totalPages) ∧
    (paginationBlock page limit total).currentPage = page ∧
    (paginationBlock page limit total).total = total ∧
    (∀ (engine : Engine) (db : Db) (q : EventsQuery), q.page = page → q.limit = limit →
      (db.events.filter (eventsFilter engine q)).length = total →
      getEventsPagination engine db q = paginationBlock page limit total) ∧
    (∀ (db : Db) (caller : CivicUser) (user : User) (q : UserEventsQuery),
      q.page = page → q.limit = limit → findUserByCivicId db caller.id = some user →
      (db.registrations.filter (userEventsFilter user.id q)).length = total →
      getUserEventsPagination db caller q = some (paginationBlock page limit total)) := by
  refine ⟨ceilDiv_eq_ceil total limit hlimit, by simp [paginationBlock],
    by simp [paginationBlock], ?_, rfl, rfl, ?_, ?_⟩
  · have h := ceilDiv_le_iff total limit page hlimit
    simp only [paginationBlock]
    omega
  · intro engine db q h1 h2 h3
    simp only [getEventsPagination, h1, h2, h3]
  · intro db caller user q h1 h2 h3 h4
    simp only [getUserEventsPagination, h1, h2, h3, h4]

/-- C29, witness: page 2 of 25 results by 12, and the list of the one published example
event. -/
theorem pagination_block_correct_witness :
    (paginationBlock 2 12 25).totalPages = 3 ∧
    ((paginationBlock 2 12 25).hasNext = true ↔ 2 * 12 < 25) ∧
    getEventsPagination plainEngine dbDraft { page := 1, limit := 12 }
      = paginationBlock 1 12 1 := by
  have h := pagination_block_correct 2 12 25 (by decide)
  have h1 := pagination_block_correct 1 12 1 (by decide)
  exact ⟨by decide, h.2.2.1, h1.2.2.2.2.2.2.1 plainEngine dbDraft { page := 1, limit := 12 } rfl rfl
    (by decide)⟩

/-- C30: for an event with `startDate ≤ endDate`, at every instant exactly one of `isUpcoming`
(`startDate > now`), `isOngoing` (`startDate ≤ now ≤ endDate`) and `isPast` (`endDate < now`) is
true; `volunteersNeeded` is never negative, and is `maxVolunteers - currentVolunteers` when that
difference is not negative and 0 otherwise. -/
theorem event_virtuals (e : Event) (now : Nat) (h : e.startDate ≤ e.endDate) :
    ((e.isUpcoming now = true ∧ e.isOngoing now = false ∧ e.isPast now = false) ∨
      (e.isUpcoming now = false ∧ e.isOngoing now = true ∧ e.isPast now = false) ∨
      (e.isUpcoming now = false ∧ e.isOngoing now = false ∧ e.isPast now = true)) ∧
    (e.isUpcoming now = true ↔ e.startDate > now) ∧
    (e.isOngoing now = true ↔ e.startDate ≤ now ∧ now ≤ e.endDate) ∧
    (e.isPast now = true ↔ e.endDate < now) ∧
    0 ≤ e.volunteersNeeded ∧
    (0 ≤ e.maxVolunteers - e.currentVolunteers →
      e.volunteersNeeded = e.maxVolunteers - e.currentVolunteers) ∧
    (e.maxVolunteers - e.currentVolunteers < 0 → e.volunteersNeeded = 0) := by
  refine ⟨?_, ?_, ?_, ?_, ?_, ?_, ?_⟩
  · simp only [Event.isUpcoming, Event.isOngoing, Event.isPast, Bool.and_eq_true,
      decide_eq_true_eq, decide_eq_false_iff_not, Bool.and_eq_false_iff]
    omega
  · simp [Event.isUpcoming]
  · simp [Event.isOngoing]
  · simp [Event.isPast]
  · exact le_max_left _ _
  · intro h1
    exact max_eq_right h1
  · intro h1
    exact max_eq_left (le_of_lt h1)

/-- C30, witness: event E running from 0 to 100, seen at 50, with 2 places and no volunteer. -/
theorem event_virtuals_witness :
    (eventLate.isUpcoming 50 = false ∧ eventLate.isOngoing 50 = true
      ∧ eventLate.isPast 50 = false) ∧ eventLate.volunteersNeeded = 2 := by
  have h := event_virtuals eventLate 50 (by decide)
  exact ⟨by decide, (h.2.2.2.2.2.1 (by decide)).trans (by decide)⟩

end Aide
